import Mathlib

/-!
# HAVAL compression core (`src/src/haval.c`)

A shallow embedding of the HAVAL implementation. 32-bit words are natural
numbers and every `SPH_T32` of the source is a reduction modulo `2^32`. The
register variables `s0 .. s7` form a record; the macros that assign to a
register named by one of their arguments (`STEP`, the passes) receive register
*names* and transform the record. Arrays of words (`msg`, `val`) are functions
from the index to the word.
-/

namespace Haval

/-! ## Words -/

/-- Modelled from the spec: the macro `SPH_C32` of `sph_types.h` (not in the
sources), which writes a 32-bit constant. -/
def SPH_C32 (x : Nat) : Nat := x

/-- Modelled from the spec: the macro `SPH_T32` of `sph_types.h` (not in the
sources), truncation to 32 bits, the spec's `mod 2^32`. -/
def SPH_T32 (x : Nat) : Nat := x % 2 ^ 32

/-- Modelled from the spec: the macro `SPH_ROTL32` of `sph_types.h` (not in the
sources), rotation of a 32-bit word to the left by `n` bits. -/
def SPH_ROTL32 (x n : Nat) : Nat := SPH_T32 ((x <<< n) ||| (x >>> (32 - n)))

/-- Modelled from the spec: the macro `SPH_ROTR32` of `sph_types.h` (not in the
sources), the spec's `rotate_right` of a 32-bit word by `n` bits. -/
def SPH_ROTR32 (x n : Nat) : Nat := SPH_ROTL32 x (32 - n)

/-- The C operator `~` on a 32-bit word. -/
def not32 (x : Nat) : Nat := x ^^^ 0xFFFFFFFF

/-! ## Boolean functions (haval.c, lines 52-116) -/

/-- The macro `F1`. -/
def F1 (x6 x5 x4 x3 x2 x1 x0 : Nat) : Nat :=
  ((x1 &&& (x0 ^^^ x4)) ^^^ (x2 &&& x5) ^^^ (x3 &&& x6) ^^^ x0)

/-- The macro `F2`. -/
def F2 (x6 x5 x4 x3 x2 x1 x0 : Nat) : Nat :=
  ((x2 &&& ((x1 &&& not32 x3) ^^^ (x4 &&& x5) ^^^ x6 ^^^ x0))
    ^^^ (x4 &&& (x1 ^^^ x5)) ^^^ ((x3 &&& x5) ^^^ x0))

/-- The macro `F3`. -/
def F3 (x6 x5 x4 x3 x2 x1 x0 : Nat) : Nat :=
  ((x3 &&& ((x1 &&& x2) ^^^ x6 ^^^ x0))
    ^^^ (x1 &&& x4) ^^^ (x2 &&& x5) ^^^ x0)

/-- The macro `F4`. -/
def F4 (x6 x5 x4 x3 x2 x1 x0 : Nat) : Nat :=
  ((x3 &&& ((x1 &&& x2) ^^^ (x4 ||| x6) ^^^ x5))
    ^^^ (x4 &&& ((not32 x2 &&& x5) ^^^ x1 ^^^ x6 ^^^ x0))
    ^^^ (x2 &&& x6) ^^^ x0)

/-- The macro `F5`. -/
def F5 (x6 x5 x4 x3 x2 x1 x0 : Nat) : Nat :=
  ((x0 &&& not32 ((x1 &&& x2 &&& x3) ^^^ x5))
    ^^^ (x1 &&& x4) ^^^ (x2 &&& x5) ^^^ (x3 &&& x6))

/-! ### The definitions of the reference paper (the comments above each macro) -/

/-- The commented-out `F1`, "basic definition from the reference paper". -/
def F1_paper (x6 x5 x4 x3 x2 x1 x0 : Nat) : Nat :=
  ((x1 &&& x4) ^^^ (x2 &&& x5) ^^^ (x3 &&& x6) ^^^ (x0 &&& x1) ^^^ x0)

/-- The commented-out `F2`, "basic definition from the reference paper". -/
def F2_paper (x6 x5 x4 x3 x2 x1 x0 : Nat) : Nat :=
  ((x1 &&& x2 &&& x3) ^^^ (x2 &&& x4 &&& x5) ^^^ (x1 &&& x2)
    ^^^ (x1 &&& x4) ^^^ (x2 &&& x6) ^^^ (x3 &&& x5)
    ^^^ (x4 &&& x5) ^^^ (x0 &&& x2) ^^^ x0)

/-- The commented-out `F3`, "basic definition from the reference paper". -/
def F3_paper (x6 x5 x4 x3 x2 x1 x0 : Nat) : Nat :=
  ((x1 &&& x2 &&& x3) ^^^ (x1 &&& x4) ^^^ (x2 &&& x5)
    ^^^ (x3 &&& x6) ^^^ (x0 &&& x3) ^^^ x0)

/-- The commented-out `F4`, "basic definition from the reference paper". -/
def F4_paper (x6 x5 x4 x3 x2 x1 x0 : Nat) : Nat :=
  ((x1 &&& x2 &&& x3) ^^^ (x2 &&& x4 &&& x5) ^^^ (x3 &&& x4 &&& x6)
    ^^^ (x1 &&& x4) ^^^ (x2 &&& x6) ^^^ (x3 &&& x4) ^^^ (x3 &&& x5)
    ^^^ (x3 &&& x6) ^^^ (x4 &&& x5) ^^^ (x4 &&& x6) ^^^ (x0 &&& x4) ^^^ x0)

/-- The commented-out `F5`, "basic definition from the reference paper". -/
def F5_paper (x6 x5 x4 x3 x2 x1 x0 : Nat) : Nat :=
  ((x1 &&& x4) ^^^ (x2 &&& x5) ^^^ (x3 &&& x6)
    ^^^ (x0 &&& x1 &&& x2 &&& x3) ^^^ (x0 &&& x5) ^^^ x0)

/-! ### One lane of each boolean function

The same formulas on a single bit: the function that every bit lane of `F1` ..
`F5` computes. -/

/-- One bit lane of `F1`. -/
def F1_lane (x6 x5 x4 x3 x2 x1 x0 : Bool) : Bool :=
  xor (xor (xor (x1 && xor x0 x4) (x2 && x5)) (x3 && x6)) x0

/-- One bit lane of `F2`. -/
def F2_lane (x6 x5 x4 x3 x2 x1 x0 : Bool) : Bool :=
  xor (xor (x2 && xor (xor (xor (x1 && !x3) (x4 && x5)) x6) x0)
    (x4 && xor x1 x5)) (xor (x3 && x5) x0)

/-- One bit lane of `F3`. -/
def F3_lane (x6 x5 x4 x3 x2 x1 x0 : Bool) : Bool :=
  xor (xor (xor (x3 && xor (xor (x1 && x2) x6) x0)
    (x1 && x4)) (x2 && x5)) x0

/-- One bit lane of `F4`. -/
def F4_lane (x6 x5 x4 x3 x2 x1 x0 : Bool) : Bool :=
  xor (xor (xor (x3 && xor (xor (x1 && x2) (x4 || x6)) x5)
    (x4 && xor (xor (xor (!x2 && x5) x1) x6) x0))
    (x2 && x6)) x0

/-- One bit lane of `F5`. -/
def F5_lane (x6 x5 x4 x3 x2 x1 x0 : Bool) : Bool :=
  xor (xor (xor (x0 && !(xor (x1 && x2 && x3) x5))
    (x1 && x4)) (x2 && x5)) (x3 && x6)

/-! ## The phi permutations (haval.c, lines 118-148) -/

/-- The macro `FP3_1`. -/
def FP3_1 (x6 x5 x4 x3 x2 x1 x0 : Nat) : Nat := F1 x1 x0 x3 x5 x6 x2 x4
/-- The macro `FP3_2`. -/
def FP3_2 (x6 x5 x4 x3 x2 x1 x0 : Nat) : Nat := F2 x4 x2 x1 x0 x5 x3 x6
/-- The macro `FP3_3`. -/
def FP3_3 (x6 x5 x4 x3 x2 x1 x0 : Nat) : Nat := F3 x6 x1 x2 x3 x4 x5 x0

/-- The macro `FP4_1`. -/
def FP4_1 (x6 x5 x4 x3 x2 x1 x0 : Nat) : Nat := F1 x2 x6 x1 x4 x5 x3 x0
/-- The macro `FP4_2`. -/
def FP4_2 (x6 x5 x4 x3 x2 x1 x0 : Nat) : Nat := F2 x3 x5 x2 x0 x1 x6 x4
/-- The macro `FP4_3`. -/
def FP4_3 (x6 x5 x4 x3 x2 x1 x0 : Nat) : Nat := F3 x1 x4 x3 x6 x0 x2 x5
/-- The macro `FP4_4`. -/
def FP4_4 (x6 x5 x4 x3 x2 x1 x0 : Nat) : Nat := F4 x6 x4 x0 x5 x2 x1 x3

/-- The macro `FP5_1`. -/
def FP5_1 (x6 x5 x4 x3 x2 x1 x0 : Nat) : Nat := F1 x3 x4 x1 x0 x5 x2 x6
/-- The macro `FP5_2`. -/
def FP5_2 (x6 x5 x4 x3 x2 x1 x0 : Nat) : Nat := F2 x6 x2 x1 x0 x3 x4 x5
/-- The macro `FP5_3`. -/
def FP5_3 (x6 x5 x4 x3 x2 x1 x0 : Nat) : Nat := F3 x2 x6 x0 x4 x3 x1 x5
/-- The macro `FP5_4`. -/
def FP5_4 (x6 x5 x4 x3 x2 x1 x0 : Nat) : Nat := F4 x1 x5 x3 x2 x0 x4 x6
/-- The macro `FP5_5`. -/
def FP5_5 (x6 x5 x4 x3 x2 x1 x0 : Nat) : Nat := F5 x2 x5 x0 x6 x4 x3 x1

/-- The token pasting `FP ## n ## _ ## p` of `STEP`. Only the twelve macros
above exist; any other pair `(n, p)` names no macro (such a `STEP` does not
compile) and is given the value `0` here. -/
def FP (n p : Nat) (x6 x5 x4 x3 x2 x1 x0 : Nat) : Nat :=
  match n, p with
  | 3, 1 => FP3_1 x6 x5 x4 x3 x2 x1 x0
  | 3, 2 => FP3_2 x6 x5 x4 x3 x2 x1 x0
  | 3, 3 => FP3_3 x6 x5 x4 x3 x2 x1 x0
  | 4, 1 => FP4_1 x6 x5 x4 x3 x2 x1 x0
  | 4, 2 => FP4_2 x6 x5 x4 x3 x2 x1 x0
  | 4, 3 => FP4_3 x6 x5 x4 x3 x2 x1 x0
  | 4, 4 => FP4_4 x6 x5 x4 x3 x2 x1 x0
  | 5, 1 => FP5_1 x6 x5 x4 x3 x2 x1 x0
  | 5, 2 => FP5_2 x6 x5 x4 x3 x2 x1 x0
  | 5, 3 => FP5_3 x6 x5 x4 x3 x2 x1 x0
  | 5, 4 => FP5_4 x6 x5 x4 x3 x2 x1 x0
  | 5, 5 => FP5_5 x6 x5 x4 x3 x2 x1 x0
  | _, _ => 0

/-! ## Registers and the step (haval.c, lines 150-158) -/

/-- The names of the eight state variables declared by `DSTATE`. -/
inductive Reg where
  | s0 | s1 | s2 | s3 | s4 | s5 | s6 | s7
  deriving DecidableEq, Repr

/-- The values of the state variables `s0 .. s7`. -/
structure Regs where
  s0 : Nat
  s1 : Nat
  s2 : Nat
  s3 : Nat
  s4 : Nat
  s5 : Nat
  s6 : Nat
  s7 : Nat
  deriving DecidableEq, Repr

/-- Reading the variable named `r`. -/
def Regs.get (σ : Regs) : Reg → Nat
  | .s0 => σ.s0
  | .s1 => σ.s1
  | .s2 => σ.s2
  | .s3 => σ.s3
  | .s4 => σ.s4
  | .s5 => σ.s5
  | .s6 => σ.s6
  | .s7 => σ.s7

/-- Assigning `v` to the variable named `r`. -/
def Regs.set (σ : Regs) (r : Reg) (v : Nat) : Regs :=
  match r with
  | .s0 => { σ with s0 := v }
  | .s1 => { σ with s1 := v }
  | .s2 => { σ with s2 := v }
  | .s3 => { σ with s3 := v }
  | .s4 => { σ with s4 := v }
  | .s5 => { σ with s5 := v }
  | .s6 => { σ with s6 := v }
  | .s7 => { σ with s7 := v }

/-- The variable `s_i` by its number (`i` in `0 .. 7`). -/
def Regs.word (σ : Regs) (i : Fin 8) : Nat :=
  match i with
  | 0 => σ.s0
  | 1 => σ.s1
  | 2 => σ.s2
  | 3 => σ.s3
  | 4 => σ.s4
  | 5 => σ.s5
  | 6 => σ.s6
  | 7 => σ.s7

open Reg

/-- The macro `STEP(n, p, x7, x6, x5, x4, x3, x2, x1, x0, w, c)`: the arguments
`x7 .. x0` are variable names, `x7` is assigned. -/
def STEP (n p : Nat) (x7 x6 x5 x4 x3 x2 x1 x0 : Reg) (w c : Nat) (σ : Regs) : Regs :=
  let t := FP n p (σ.get x6) (σ.get x5) (σ.get x4) (σ.get x3) (σ.get x2) (σ.get x1) (σ.get x0)
  σ.set x7 (SPH_T32 (SPH_ROTR32 t 7 + SPH_ROTR32 (σ.get x7) 11 + w + c))

/-! ## Passes, small-footprint form (haval.c, lines 166-583) -/

namespace SmallFootprint

/-- The loop `for (pass_count = 0; pass_count < 32; pass_count += 8)` of `PASS1`
and `PASSG`, entered with the given value of `pass_count`; `body` is the block
of eight steps. -/
def pass_loop (body : Nat → Regs → Regs) (pass_count : Nat) (σ : Regs) : Regs :=
  if pass_count < 32 then pass_loop body (pass_count + 8) (body pass_count σ) else σ
termination_by 32 - pass_count
decreasing_by omega

/-- The macro `PASS1(n, in)` of the small-footprint build. -/
def PASS1 (n : Nat) (inw : Nat → Nat) (σ : Regs) : Regs :=
  pass_loop (fun pass_count σ =>
    σ
    |> STEP n 1 s7 s6 s5 s4 s3 s2 s1 s0 (inw (pass_count + 0)) (SPH_C32 0x00000000)
    |> STEP n 1 s6 s5 s4 s3 s2 s1 s0 s7 (inw (pass_count + 1)) (SPH_C32 0x00000000)
    |> STEP n 1 s5 s4 s3 s2 s1 s0 s7 s6 (inw (pass_count + 2)) (SPH_C32 0x00000000)
    |> STEP n 1 s4 s3 s2 s1 s0 s7 s6 s5 (inw (pass_count + 3)) (SPH_C32 0x00000000)
    |> STEP n 1 s3 s2 s1 s0 s7 s6 s5 s4 (inw (pass_count + 4)) (SPH_C32 0x00000000)
    |> STEP n 1 s2 s1 s0 s7 s6 s5 s4 s3 (inw (pass_count + 5)) (SPH_C32 0x00000000)
    |> STEP n 1 s1 s0 s7 s6 s5 s4 s3 s2 (inw (pass_count + 6)) (SPH_C32 0x00000000)
    |> STEP n 1 s0 s7 s6 s5 s4 s3 s2 s1 (inw (pass_count + 7)) (SPH_C32 0x00000000))
    0 σ

/-- The macro `PASSG(p, n, in)`. The tables it names by token pasting,
`MP ## p` and `RK ## p`, are the arguments `MPp` and `RKp`; `MPp[i]` is
`MPp.getD i 0`. -/
def PASSG (p n : Nat) (MPp RKp : List Nat) (inw : Nat → Nat) (σ : Regs) : Regs :=
  pass_loop (fun pass_count σ =>
    σ
    |> STEP n p s7 s6 s5 s4 s3 s2 s1 s0
        (inw (MPp.getD (pass_count + 0) 0)) (RKp.getD (pass_count + 0) 0)
    |> STEP n p s6 s5 s4 s3 s2 s1 s0 s7
        (inw (MPp.getD (pass_count + 1) 0)) (RKp.getD (pass_count + 1) 0)
    |> STEP n p s5 s4 s3 s2 s1 s0 s7 s6
        (inw (MPp.getD (pass_count + 2) 0)) (RKp.getD (pass_count + 2) 0)
    |> STEP n p s4 s3 s2 s1 s0 s7 s6 s5
        (inw (MPp.getD (pass_count + 3) 0)) (RKp.getD (pass_count + 3) 0)
    |> STEP n p s3 s2 s1 s0 s7 s6 s5 s4
        (inw (MPp.getD (pass_count + 4) 0)) (RKp.getD (pass_count + 4) 0)
    |> STEP n p s2 s1 s0 s7 s6 s5 s4 s3
        (inw (MPp.getD (pass_count + 5) 0)) (RKp.getD (pass_count + 5) 0)
    |> STEP n p s1 s0 s7 s6 s5 s4 s3 s2
        (inw (MPp.getD (pass_count + 6) 0)) (RKp.getD (pass_count + 6) 0)
    |> STEP n p s0 s7 s6 s5 s4 s3 s2 s1
        (inw (MPp.getD (pass_count + 7) 0)) (RKp.getD (pass_count + 7) 0))
    0 σ

/-- The table `MP2[224]`: the 224 numbers of its initialiser, in order. The source
writes them separated by blanks, without commas. -/
def MP2 : List Nat := [
  160, 130,  33, 193,  18,  99,  41, 158,
  128,   5,  15,  11,  63, 166, 104, 164,
   26,  77, 114, 206, 215, 202,  86, 137,
  129, 146, 205, 122, 201,   8,  66, 165,
   92, 210, 217,  98,  51, 182,  76,  70,
   55, 190,  40, 118,  58,  62, 107, 148,
  106,  79, 200,  39, 170, 136, 191, 115,
  144,   9,  61, 141, 167,  78, 110,  95,
  185, 138,  14,  65, 172, 171,  25, 123,
   35, 216,  89, 140, 192,  68,  72, 119,
   96,  16, 155,  88, 153, 133,   7,  47,
   45, 177,  12, 186, 162,   0, 163,  31,
  173,  37, 103, 100, 179, 120,  38, 157,
   50,  59, 220,  73, 211, 196, 188, 150,
  214,   6,  28,  74, 112,  24, 198, 117,
  154, 194, 208,  29, 168,  81,  21,  75,
   57, 139, 161,  64, 175,  42, 221, 124,
  223,  67,  10, 113,  46, 156,  34,  48,
  145, 121,  91,  43, 102,  53,  32,   2,
  108, 105, 176, 187, 222,  71, 142, 147,
  212,  36, 135,  90, 131, 178, 195, 149,
  101, 174, 183, 218, 203,  17,  85,  19,
    4, 213, 209, 109,   1, 197,  87, 111,
   84, 125,  22,  83,  80, 126,  44,  54,
  180, 207, 116,  13,  30,  97,  82,  52,
  132,  23, 189, 143, 204,   3, 219, 184,
  127,  93,  49,  69,  56, 151, 199,  27,
  181, 169,  94,  20, 159,  60, 134, 152]

/-- The table `MP3[224]`: the 224 numbers of its initialiser, in order. The source
writes them separated by blanks, without commas. -/
def MP3 : List Nat := [
   29, 194, 175,  18, 192, 206, 152,  39,
  217, 159, 131, 195, 179,  68,  51, 193,
    6,  42, 149, 204, 115,  83, 156,  53,
   93, 164, 113, 166, 202,  79,  85,  26,
  138,   0, 100, 223,  80,   5,  76, 126,
  128,   3, 190, 157, 178, 108, 135,  97,
   35, 172, 127, 183,  78, 177, 200, 185,
  148, 176,  65,  82, 134, 110,  15,   2,
  101, 210, 196, 189,  77, 171, 140,  19,
  104, 121,  62, 216, 114,  86,  32, 215,
   21,   7,  48,  66,  84, 219,  95, 136,
  162, 123, 163, 188,  56, 124, 142, 191,
  122, 197,  31,  25, 130,  33,  70, 165,
   27, 155, 141,  41, 187,  71, 153, 211,
  109,  91, 103,  63,  58, 107,  44, 112,
  145, 212,  59, 218,   1, 118,  22,  67,
   92, 173,  50, 158,  55,   9, 221,  46,
  111, 203, 133,  37, 146,  23, 169,  81,
  137,  64, 117,  87, 147,  40, 125,  45,
  174,  69, 161,  17, 214,   8,  54, 139,
   52, 208,  98, 186,  49,  94,  90, 209,
   13,  99,  88, 167,  20, 143,  75,   4,
  151,  11,  73, 150, 119,  61, 199,  16,
   38,  74,  72,  89, 180, 201, 213,  57,
   30, 144,  36, 168,  96,  47,  34,  24,
  207,  28, 102, 222,  10, 105, 154, 132,
  170, 184, 160,  60, 116, 205,  12, 181,
  182,  14, 120, 198, 220, 106, 129,  43]

/-- The table `MP4[224]`: the 224 numbers of its initialiser, in order. The source
writes them separated by blanks, without commas. -/
def MP4 : List Nat := [
  206, 165,  91,  63, 219,   8, 216,  25,
  170, 131,  46, 167,  58,   6,  34, 177,
  145,  87,  50, 100,  11,  90,  94, 221,
  160, 204, 130, 107, 163, 201, 153,  12,
  175, 139, 157,  28, 178,  92,  52, 208,
  166, 141, 164, 151, 113, 156, 129, 194,
  110,  60,  78,   1, 137, 111,   3,  49,
   95, 124,  77, 172, 190, 209, 185, 199,
  109,  88,  18, 186, 116,  81,  21,   0,
  212, 136, 211, 173,  40, 159, 115,  27,
  202,  31, 140,  80,  13,  20,  93,  38,
   33, 123, 162,  30, 148,  53, 119,  42,
  146, 108, 125, 195,  62,  10,  85,  44,
   96,  55,   2, 138, 205, 117, 192,  72,
   76,  26, 101, 223,   5,  17, 135, 187,
  104, 106,  59, 154,  19,  99,  75, 188,
   51, 176, 171, 103,  79,  47, 222,  36,
   56,  70,  35, 174,  32, 196,  43,  64,
   73, 198, 120,  82, 215, 217, 134, 184,
  220, 132, 193, 191, 168, 149, 180, 210,
    9,  23, 213, 158,  74,  71,  69, 105,
  126,  61, 161, 214,  48, 181,  15,  22,
  142, 197,  84, 112,  98,  29, 155, 152,
   54,  66, 128, 207, 114, 133, 102, 121,
   41, 200,   4,  14,  83, 144,   7, 118,
   24,  89, 143, 127,  16, 147, 218, 189,
  179,  37, 169,  39,  67,  65, 182, 203,
   97,  86,  68,  57, 122, 150, 183,  45]

/-- The table `MP5[224]`: the 224 numbers of its initialiser, in order. The source
writes them separated by blanks, without commas. -/
def MP5 : List Nat := [
   54,   5, 116,  67, 184, 222, 177, 148,
  129, 146, 107, 181,  23, 208,  34, 157,
  189,  10, 126, 210,  18,  91,  32,  87,
   36,  68, 211,  30, 173, 103,  59,  86,
   29,  84, 205, 131,  64,  60,  35,  80,
  142,  13, 128,  11, 112, 155,  27,  62,
  220, 160,  74, 164,  39, 162, 109, 166,
   12, 158,  37, 212, 186, 216, 152,  98,
   82,  70, 197,  72,  24, 219, 102,  83,
  198,  76, 207,   0, 200,   4, 100, 168,
  176, 214, 111, 104,  65, 171, 124, 203,
   15, 217,  85, 218, 120, 143, 115, 165,
  185, 161, 133,  33, 136, 167,  78, 137,
   61,  46, 101, 150,  48, 149,  44, 193,
  175, 117,  38, 172,  73,  94, 106,   8,
  206,  51, 202,  92,  53,  69, 183, 119,
  108,  26,  90, 169,  43, 141,  31,  96,
  127, 199, 182, 223,  75, 154, 213,  41,
   77, 188,  56,  55,  19, 195, 140, 144,
   50,  99,  89,   1,  21, 145,  16,  66,
  123,   9, 147,   3, 215, 151,  93,  63,
    2,  81,  14,  28, 139,  45,  52,  47,
   40, 163, 110, 190, 221, 156,  57,  71,
  196, 132,  42, 201,  97, 178,   6, 130,
  179, 122,  95, 187, 153,  79, 121,  49,
   20, 159, 204, 209,  25, 192, 125, 113,
  194, 180, 114,  22,  17, 138, 191, 105,
  135,  88, 118, 134,  58,   7, 174, 170]

/-- The table `RK2[224]`. -/
def RK2 : List Nat := [
  SPH_C32 0x452821E6, SPH_C32 0x38D01377, SPH_C32 0xBE5466CF, SPH_C32 0x34E90C6C,
  SPH_C32 0xC0AC29B7, SPH_C32 0xC97C50DD, SPH_C32 0x3F84D5B5, SPH_C32 0xB5470917,
  SPH_C32 0x9216D5D9, SPH_C32 0x8979FB1B, SPH_C32 0xD1310BA6, SPH_C32 0x98DFB5AC,
  SPH_C32 0x2FFD72DB, SPH_C32 0xD01ADFB7, SPH_C32 0xB8E1AFED, SPH_C32 0x6A267E96,
  SPH_C32 0xBA7C9045, SPH_C32 0xF12C7F99, SPH_C32 0x24A19947, SPH_C32 0xB3916CF7,
  SPH_C32 0x0801F2E2, SPH_C32 0x858EFC16, SPH_C32 0x636920D8, SPH_C32 0x71574E69,
  SPH_C32 0xA458FEA3, SPH_C32 0xF4933D7E, SPH_C32 0x0D95748F, SPH_C32 0x728EB658,
  SPH_C32 0x718BCD58, SPH_C32 0x82154AEE, SPH_C32 0x7B54A41D, SPH_C32 0xC25A59B5,
  SPH_C32 0x07fc703d, SPH_C32 0xd3fe381f, SPH_C32 0xb9ff1c0e, SPH_C32 0x5cff8e07,
  SPH_C32 0xfe7fc702, SPH_C32 0x7f3fe381, SPH_C32 0xef9ff1c1, SPH_C32 0xa7cff8e1,
  SPH_C32 0x83e7fc71, SPH_C32 0x91f3fe39, SPH_C32 0x98f9ff1d, SPH_C32 0x9c7cff8f,
  SPH_C32 0x9e3e7fc6, SPH_C32 0x4f1f3fe3, SPH_C32 0xf78f9ff0, SPH_C32 0x7bc7cff8,
  SPH_C32 0x3de3e7fc, SPH_C32 0x1ef1f3fe, SPH_C32 0x0f78f9ff, SPH_C32 0xd7bc7cfe,
  SPH_C32 0x6bde3e7f, SPH_C32 0xe5ef1f3e, SPH_C32 0x72f78f9f, SPH_C32 0xe97bc7ce,
  SPH_C32 0x74bde3e7, SPH_C32 0xea5ef1f2, SPH_C32 0x752f78f9, SPH_C32 0xea97bc7d,
  SPH_C32 0xa54bde3f, SPH_C32 0x82a5ef1e, SPH_C32 0x4152f78f, SPH_C32 0xf0a97bc6,
  SPH_C32 0x7854bde3, SPH_C32 0xec2a5ef0, SPH_C32 0x76152f78, SPH_C32 0x3b0a97bc,
  SPH_C32 0x1d854bde, SPH_C32 0x0ec2a5ef, SPH_C32 0xd76152f6, SPH_C32 0x6bb0a97b,
  SPH_C32 0xe5d854bc, SPH_C32 0x72ec2a5e, SPH_C32 0x3976152f, SPH_C32 0xccbb0a96,
  SPH_C32 0x665d854b, SPH_C32 0xe32ec2a4, SPH_C32 0x71976152, SPH_C32 0x38cbb0a9,
  SPH_C32 0xcc65d855, SPH_C32 0xb632ec2b, SPH_C32 0x8b197614, SPH_C32 0x458cbb0a,
  SPH_C32 0x22c65d85, SPH_C32 0xc1632ec3, SPH_C32 0xb0b19760, SPH_C32 0x5858cbb0,
  SPH_C32 0x2c2c65d8, SPH_C32 0x161632ec, SPH_C32 0x0b0b1976, SPH_C32 0x05858cbb,
  SPH_C32 0xd2c2c65c, SPH_C32 0x6961632e, SPH_C32 0x34b0b197, SPH_C32 0xca5858ca,
  SPH_C32 0x652c2c65, SPH_C32 0xe2961633, SPH_C32 0xa14b0b18, SPH_C32 0x50a5858c,
  SPH_C32 0x2852c2c6, SPH_C32 0x14296163, SPH_C32 0xda14b0b0, SPH_C32 0x6d0a5858,
  SPH_C32 0x36852c2c, SPH_C32 0x1b429616, SPH_C32 0x0da14b0b, SPH_C32 0xd6d0a584,
  SPH_C32 0x6b6852c2, SPH_C32 0x35b42961, SPH_C32 0xcada14b1, SPH_C32 0xb56d0a59,
  SPH_C32 0x8ab6852d, SPH_C32 0x955b4297, SPH_C32 0x9aada14a, SPH_C32 0x4d56d0a5,
  SPH_C32 0xf6ab6853, SPH_C32 0xab55b428, SPH_C32 0x55aada14, SPH_C32 0x2ad56d0a,
  SPH_C32 0x156ab685, SPH_C32 0xdab55b43, SPH_C32 0xbd5aada0, SPH_C32 0x5ead56d0,
  SPH_C32 0x2f56ab68, SPH_C32 0x17ab55b4, SPH_C32 0x0bd5aada, SPH_C32 0x05ead56d,
  SPH_C32 0xd2f56ab7, SPH_C32 0xb97ab55a, SPH_C32 0x5cbd5aad, SPH_C32 0xfe5ead57,
  SPH_C32 0xaf2f56aa, SPH_C32 0x5797ab55, SPH_C32 0xfbcbd5ab, SPH_C32 0xade5ead4,
  SPH_C32 0x56f2f56a, SPH_C32 0x2b797ab5, SPH_C32 0xc5bcbd5b, SPH_C32 0xb2de5eac,
  SPH_C32 0x596f2f56, SPH_C32 0x2cb797ab, SPH_C32 0xc65bcbd4, SPH_C32 0x632de5ea,
  SPH_C32 0x3196f2f5, SPH_C32 0xc8cb797b, SPH_C32 0xb465bcbc, SPH_C32 0x5a32de5e,
  SPH_C32 0x2d196f2f, SPH_C32 0xc68cb796, SPH_C32 0x63465bcb, SPH_C32 0xe1a32de4,
  SPH_C32 0x70d196f2, SPH_C32 0x3868cb79, SPH_C32 0xcc3465bd, SPH_C32 0xb61a32df,
  SPH_C32 0x8b0d196e, SPH_C32 0x45868cb7, SPH_C32 0xf2c3465a, SPH_C32 0x7961a32d,
  SPH_C32 0xecb0d197, SPH_C32 0xa65868ca, SPH_C32 0x532c3465, SPH_C32 0xf9961a33,
  SPH_C32 0xaccb0d18, SPH_C32 0x5665868c, SPH_C32 0x2b32c346, SPH_C32 0x159961a3,
  SPH_C32 0xdaccb0d0, SPH_C32 0x6d665868, SPH_C32 0x36b32c34, SPH_C32 0x1b59961a,
  SPH_C32 0x0daccb0d, SPH_C32 0xd6d66587, SPH_C32 0xbb6b32c2, SPH_C32 0x5db59961,
  SPH_C32 0xfedaccb1, SPH_C32 0xaf6d6659, SPH_C32 0x87b6b32d, SPH_C32 0x93db5997,
  SPH_C32 0x99edacca, SPH_C32 0x4cf6d665, SPH_C32 0xf67b6b33, SPH_C32 0xab3db598,
  SPH_C32 0x559edacc, SPH_C32 0x2acf6d66, SPH_C32 0x1567b6b3, SPH_C32 0xdab3db58,
  SPH_C32 0x6d59edac, SPH_C32 0x36acf6d6, SPH_C32 0x1b567b6b, SPH_C32 0xddab3db4,
  SPH_C32 0x6ed59eda, SPH_C32 0x376acf6d, SPH_C32 0xcbb567b7, SPH_C32 0xb5dab3da,
  SPH_C32 0x5aed59ed, SPH_C32 0xfd76acf7, SPH_C32 0xaebb567a, SPH_C32 0x575dab3d,
  SPH_C32 0xfbaed59f, SPH_C32 0xadd76ace, SPH_C32 0x56ebb567, SPH_C32 0xfb75dab2,
  SPH_C32 0x7dbaed59, SPH_C32 0xeedd76ad, SPH_C32 0xa76ebb57, SPH_C32 0x83b75daa,
  SPH_C32 0x41dbaed5, SPH_C32 0xf0edd76b, SPH_C32 0xa876ebb4, SPH_C32 0x543b75da,
  SPH_C32 0x2a1dbaed, SPH_C32 0xc50edd77, SPH_C32 0xb2876eba, SPH_C32 0x5943b75d,
  SPH_C32 0xfca1dbaf, SPH_C32 0xae50edd6, SPH_C32 0x572876eb, SPH_C32 0xfb943b74,
  SPH_C32 0x7dca1dba, SPH_C32 0x3ee50edd, SPH_C32 0xcf72876f, SPH_C32 0xb7b943b6]

/-- The table `RK3[224]`. -/
def RK3 : List Nat := [
  SPH_C32 0x9C30D539, SPH_C32 0x2AF26013, SPH_C32 0xC5D1B023, SPH_C32 0x286085F0,
  SPH_C32 0xCA417918, SPH_C32 0xB8DB38EF, SPH_C32 0x8E79DCB0, SPH_C32 0x603A180E,
  SPH_C32 0x6C9E0E8B, SPH_C32 0xB01E8A3E, SPH_C32 0xD71577C1, SPH_C32 0xBD314B27,
  SPH_C32 0x78AF2FDA, SPH_C32 0x55605C60, SPH_C32 0xE65525F3, SPH_C32 0xAA55AB94,
  SPH_C32 0x57489862, SPH_C32 0x63E81440, SPH_C32 0x55CA396A, SPH_C32 0x2AAB10B6,
  SPH_C32 0xB4CC5C34, SPH_C32 0x1141E8CE, SPH_C32 0xA15486AF, SPH_C32 0x7C72E993,
  SPH_C32 0xB3EE1411, SPH_C32 0x636FBC2A, SPH_C32 0x2BA9C55D, SPH_C32 0x741831F6,
  SPH_C32 0xCE5C3E16, SPH_C32 0x9B87931E, SPH_C32 0xAFD6BA33, SPH_C32 0x6C24CF5C,
  SPH_C32 0x5bdca1db, SPH_C32 0xfdee50ec, SPH_C32 0x7ef72876, SPH_C32 0x3f7b943b,
  SPH_C32 0xcfbdca1c, SPH_C32 0x67dee50e, SPH_C32 0x33ef7287, SPH_C32 0xc9f7b942,
  SPH_C32 0x64fbdca1, SPH_C32 0xe27dee51, SPH_C32 0xa13ef729, SPH_C32 0x809f7b95,
  SPH_C32 0x904fbdcb, SPH_C32 0x9827dee4, SPH_C32 0x4c13ef72, SPH_C32 0x2609f7b9,
  SPH_C32 0xc304fbdd, SPH_C32 0xb1827def, SPH_C32 0x88c13ef6, SPH_C32 0x44609f7b,
  SPH_C32 0xf2304fbc, SPH_C32 0x791827de, SPH_C32 0x3c8c13ef, SPH_C32 0xce4609f6,
  SPH_C32 0x672304fb, SPH_C32 0xe391827c, SPH_C32 0x71c8c13e, SPH_C32 0x38e4609f,
  SPH_C32 0xcc72304e, SPH_C32 0x66391827, SPH_C32 0xe31c8c12, SPH_C32 0x718e4609,
  SPH_C32 0xe8c72305, SPH_C32 0xa4639183, SPH_C32 0x8231c8c0, SPH_C32 0x4118e460,
  SPH_C32 0x208c7230, SPH_C32 0x10463918, SPH_C32 0x08231c8c, SPH_C32 0x04118e46,
  SPH_C32 0x0208c723, SPH_C32 0xd1046390, SPH_C32 0x688231c8, SPH_C32 0x344118e4,
  SPH_C32 0x1a208c72, SPH_C32 0x0d104639, SPH_C32 0xd688231d, SPH_C32 0xbb44118f,
  SPH_C32 0x8da208c6, SPH_C32 0x46d10463, SPH_C32 0xf3688230, SPH_C32 0x79b44118,
  SPH_C32 0x3cda208c, SPH_C32 0x1e6d1046, SPH_C32 0x0f368823, SPH_C32 0xd79b4410,
  SPH_C32 0x6bcda208, SPH_C32 0x35e6d104, SPH_C32 0x1af36882, SPH_C32 0x0d79b441,
  SPH_C32 0xd6bcda21, SPH_C32 0xbb5e6d11, SPH_C32 0x8daf3689, SPH_C32 0x96d79b45,
  SPH_C32 0x9b6bcda3, SPH_C32 0x9db5e6d0, SPH_C32 0x4edaf368, SPH_C32 0x276d79b4,
  SPH_C32 0x13b6bcda, SPH_C32 0x09db5e6d, SPH_C32 0xd4edaf37, SPH_C32 0xba76d79a,
  SPH_C32 0x5d3b6bcd, SPH_C32 0xfe9db5e7, SPH_C32 0xaf4edaf2, SPH_C32 0x57a76d79,
  SPH_C32 0xfbd3b6bd, SPH_C32 0xade9db5f, SPH_C32 0x86f4edae, SPH_C32 0x437a76d7,
  SPH_C32 0xf1bd3b6a, SPH_C32 0x78de9db5, SPH_C32 0xec6f4edb, SPH_C32 0xa637a76c,
  SPH_C32 0x531bd3b6, SPH_C32 0x298de9db, SPH_C32 0xc4c6f4ec, SPH_C32 0x62637a76,
  SPH_C32 0x3131bd3b, SPH_C32 0xc898de9c, SPH_C32 0x644c6f4e, SPH_C32 0x322637a7,
  SPH_C32 0xc9131bd2, SPH_C32 0x64898de9, SPH_C32 0xe244c6f5, SPH_C32 0xa122637b,
  SPH_C32 0x809131bc, SPH_C32 0x404898de, SPH_C32 0x20244c6f, SPH_C32 0xc0122636,
  SPH_C32 0x6009131b, SPH_C32 0xe004898c, SPH_C32 0x700244c6, SPH_C32 0x38012263,
  SPH_C32 0xcc009130, SPH_C32 0x66004898, SPH_C32 0x3300244c, SPH_C32 0x19801226,
  SPH_C32 0x0cc00913, SPH_C32 0xd6600488, SPH_C32 0x6b300244, SPH_C32 0x35980122,
  SPH_C32 0x1acc0091, SPH_C32 0xdd660049, SPH_C32 0xbeb30025, SPH_C32 0x8f598013,
  SPH_C32 0x97acc008, SPH_C32 0x4bd66004, SPH_C32 0x25eb3002, SPH_C32 0x12f59801,
  SPH_C32 0xd97acc01, SPH_C32 0xbcbd6601, SPH_C32 0x8e5eb301, SPH_C32 0x972f5981,
  SPH_C32 0x9b97acc1, SPH_C32 0x9dcbd661, SPH_C32 0x9ee5eb31, SPH_C32 0x9f72f599,
  SPH_C32 0x9fb97acd, SPH_C32 0x9fdcbd67, SPH_C32 0x9fee5eb2, SPH_C32 0x4ff72f59,
  SPH_C32 0xf7fb97ad, SPH_C32 0xabfdcbd7, SPH_C32 0x85fee5ea, SPH_C32 0x42ff72f5,
  SPH_C32 0xf17fb97b, SPH_C32 0xa8bfdcbc, SPH_C32 0x545fee5e, SPH_C32 0x2a2ff72f,
  SPH_C32 0xc517fb96, SPH_C32 0x628bfdcb, SPH_C32 0xe145fee4, SPH_C32 0x70a2ff72,
  SPH_C32 0x38517fb9, SPH_C32 0xcc28bfdd, SPH_C32 0xb6145fef, SPH_C32 0x8b0a2ff6,
  SPH_C32 0x458517fb, SPH_C32 0xf2c28bfc, SPH_C32 0x796145fe, SPH_C32 0x3cb0a2ff,
  SPH_C32 0xce58517e, SPH_C32 0x672c28bf, SPH_C32 0xe396145e, SPH_C32 0x71cb0a2f,
  SPH_C32 0xe8e58516, SPH_C32 0x7472c28b, SPH_C32 0xea396144, SPH_C32 0x751cb0a2,
  SPH_C32 0x3a8e5851, SPH_C32 0xcd472c29, SPH_C32 0xb6a39615, SPH_C32 0x8b51cb0b,
  SPH_C32 0x95a8e584, SPH_C32 0x4ad472c2, SPH_C32 0x256a3961, SPH_C32 0xc2b51cb1,
  SPH_C32 0xb15a8e59, SPH_C32 0x88ad472d, SPH_C32 0x9456a397, SPH_C32 0x9a2b51ca,
  SPH_C32 0x4d15a8e5, SPH_C32 0xf68ad473, SPH_C32 0xab456a38, SPH_C32 0x55a2b51c,
  SPH_C32 0x2ad15a8e, SPH_C32 0x1568ad47, SPH_C32 0xdab456a2, SPH_C32 0x6d5a2b51,
  SPH_C32 0xe6ad15a9, SPH_C32 0xa3568ad5, SPH_C32 0x81ab456b, SPH_C32 0x90d5a2b4,
  SPH_C32 0x486ad15a, SPH_C32 0x243568ad, SPH_C32 0xc21ab457, SPH_C32 0xb10d5a2a,
  SPH_C32 0x5886ad15, SPH_C32 0xfc43568b, SPH_C32 0xae21ab44, SPH_C32 0x5710d5a2]

/-- The table `RK4[224]`. -/
def RK4 : List Nat := [
  SPH_C32 0x7A325381, SPH_C32 0x28958677, SPH_C32 0x3B8F4898, SPH_C32 0x6B4BB9AF,
  SPH_C32 0xC4BFE81B, SPH_C32 0x66282193, SPH_C32 0x61D809CC, SPH_C32 0xFB21A991,
  SPH_C32 0x487CAC60, SPH_C32 0x5DEC8032, SPH_C32 0xEF845D5D, SPH_C32 0xE98575B1,
  SPH_C32 0xDC262302, SPH_C32 0xEB651B88, SPH_C32 0x23893E81, SPH_C32 0xD396ACC5,
  SPH_C32 0x0F6D6FF3, SPH_C32 0x83F44239, SPH_C32 0x2E0B4482, SPH_C32 0xA4842004,
  SPH_C32 0x69C8F04A, SPH_C32 0x9E1F9B5E, SPH_C32 0x21C66842, SPH_C32 0xF6E96C9A,
  SPH_C32 0x670C9C61, SPH_C32 0xABD388F0, SPH_C32 0x6A51A0D2, SPH_C32 0xD8542F68,
  SPH_C32 0x960FA728, SPH_C32 0xAB5133A3, SPH_C32 0x6EEF0B6C, SPH_C32 0x137A3BE4,
  SPH_C32 0x2b886ad1, SPH_C32 0xc5c43569, SPH_C32 0xb2e21ab5, SPH_C32 0x89710d5b,
  SPH_C32 0x94b886ac, SPH_C32 0x4a5c4356, SPH_C32 0x252e21ab, SPH_C32 0xc29710d4,
  SPH_C32 0x614b886a, SPH_C32 0x30a5c435, SPH_C32 0xc852e21b, SPH_C32 0xb429710c,
  SPH_C32 0x5a14b886, SPH_C32 0x2d0a5c43, SPH_C32 0xc6852e20, SPH_C32 0x63429710,
  SPH_C32 0x31a14b88, SPH_C32 0x18d0a5c4, SPH_C32 0x0c6852e2, SPH_C32 0x06342971,
  SPH_C32 0xd31a14b9, SPH_C32 0xb98d0a5d, SPH_C32 0x8cc6852f, SPH_C32 0x96634296,
  SPH_C32 0x4b31a14b, SPH_C32 0xf598d0a4, SPH_C32 0x7acc6852, SPH_C32 0x3d663429,
  SPH_C32 0xceb31a15, SPH_C32 0xb7598d0b, SPH_C32 0x8bacc684, SPH_C32 0x45d66342,
  SPH_C32 0x22eb31a1, SPH_C32 0xc17598d1, SPH_C32 0xb0bacc69, SPH_C32 0x885d6635,
  SPH_C32 0x942eb31b, SPH_C32 0x9a17598c, SPH_C32 0x4d0bacc6, SPH_C32 0x2685d663,
  SPH_C32 0xc342eb30, SPH_C32 0x61a17598, SPH_C32 0x30d0bacc, SPH_C32 0x18685d66,
  SPH_C32 0x0c342eb3, SPH_C32 0xd61a1758, SPH_C32 0x6b0d0bac, SPH_C32 0x358685d6,
  SPH_C32 0x1ac342eb, SPH_C32 0xdd61a174, SPH_C32 0x6eb0d0ba, SPH_C32 0x3758685d,
  SPH_C32 0xcbac342f, SPH_C32 0xb5d61a16, SPH_C32 0x5aeb0d0b, SPH_C32 0xfd758684,
  SPH_C32 0x7ebac342, SPH_C32 0x3f5d61a1, SPH_C32 0xcfaeb0d1, SPH_C32 0xb7d75869,
  SPH_C32 0x8bebac35, SPH_C32 0x95f5d61b, SPH_C32 0x9afaeb0c, SPH_C32 0x4d7d7586,
  SPH_C32 0x26bebac3, SPH_C32 0xc35f5d60, SPH_C32 0x61afaeb0, SPH_C32 0x30d7d758,
  SPH_C32 0x186bebac, SPH_C32 0x0c35f5d6, SPH_C32 0x061afaeb, SPH_C32 0xd30d7d74,
  SPH_C32 0x6986beba, SPH_C32 0x34c35f5d, SPH_C32 0xca61afaf, SPH_C32 0xb530d7d6,
  SPH_C32 0x5a986beb, SPH_C32 0xfd4c35f4, SPH_C32 0x7ea61afa, SPH_C32 0x3f530d7d,
  SPH_C32 0xcfa986bf, SPH_C32 0xb7d4c35e, SPH_C32 0x5bea61af, SPH_C32 0xfdf530d6,
  SPH_C32 0x7efa986b, SPH_C32 0xef7d4c34, SPH_C32 0x77bea61a, SPH_C32 0x3bdf530d,
  SPH_C32 0xcdefa987, SPH_C32 0xb6f7d4c2, SPH_C32 0x5b7bea61, SPH_C32 0xfdbdf531,
  SPH_C32 0xaedefa99, SPH_C32 0x876f7d4d, SPH_C32 0x93b7bea7, SPH_C32 0x99dbdf52,
  SPH_C32 0x4cedefa9, SPH_C32 0xf676f7d5, SPH_C32 0xab3b7beb, SPH_C32 0x859dbdf4,
  SPH_C32 0x42cedefa, SPH_C32 0x21676f7d, SPH_C32 0xc0b3b7bf, SPH_C32 0xb059dbde,
  SPH_C32 0x582cedef, SPH_C32 0xfc1676f6, SPH_C32 0x7e0b3b7b, SPH_C32 0xef059dbc,
  SPH_C32 0x7782cede, SPH_C32 0x3bc1676f, SPH_C32 0xcde0b3b6, SPH_C32 0x66f059db,
  SPH_C32 0xe3782cec, SPH_C32 0x71bc1676, SPH_C32 0x38de0b3b, SPH_C32 0xcc6f059c,
  SPH_C32 0x663782ce, SPH_C32 0x331bc167, SPH_C32 0xc98de0b2, SPH_C32 0x64c6f059,
  SPH_C32 0xe263782d, SPH_C32 0xa131bc17, SPH_C32 0x8098de0a, SPH_C32 0x404c6f05,
  SPH_C32 0xf0263783, SPH_C32 0xa8131bc0, SPH_C32 0x54098de0, SPH_C32 0x2a04c6f0,
  SPH_C32 0x15026378, SPH_C32 0x0a8131bc, SPH_C32 0x054098de, SPH_C32 0x02a04c6f,
  SPH_C32 0xd1502636, SPH_C32 0x68a8131b, SPH_C32 0xe454098c, SPH_C32 0x722a04c6,
  SPH_C32 0x39150263, SPH_C32 0xcc8a8130, SPH_C32 0x66454098, SPH_C32 0x3322a04c,
  SPH_C32 0x19915026, SPH_C32 0x0cc8a813, SPH_C32 0xd6645408, SPH_C32 0x6b322a04,
  SPH_C32 0x35991502, SPH_C32 0x1acc8a81, SPH_C32 0xdd664541, SPH_C32 0xbeb322a1,
  SPH_C32 0x8f599151, SPH_C32 0x97acc8a9, SPH_C32 0x9bd66455, SPH_C32 0x9deb322b,
  SPH_C32 0x9ef59914, SPH_C32 0x4f7acc8a, SPH_C32 0x27bd6645, SPH_C32 0xc3deb323,
  SPH_C32 0xb1ef5990, SPH_C32 0x58f7acc8, SPH_C32 0x2c7bd664, SPH_C32 0x163deb32,
  SPH_C32 0x0b1ef599, SPH_C32 0xd58f7acd, SPH_C32 0xbac7bd67, SPH_C32 0x8d63deb2,
  SPH_C32 0x46b1ef59, SPH_C32 0xf358f7ad, SPH_C32 0xa9ac7bd7, SPH_C32 0x84d63dea,
  SPH_C32 0x426b1ef5, SPH_C32 0xf1358f7b, SPH_C32 0xa89ac7bc, SPH_C32 0x544d63de,
  SPH_C32 0x2a26b1ef, SPH_C32 0xc51358f6, SPH_C32 0x6289ac7b, SPH_C32 0xe144d63c,
  SPH_C32 0x70a26b1e, SPH_C32 0x3851358f, SPH_C32 0xcc289ac6, SPH_C32 0x66144d63,
  SPH_C32 0xe30a26b0, SPH_C32 0x71851358, SPH_C32 0x38c289ac, SPH_C32 0x1c6144d6,
  SPH_C32 0x0e30a26b, SPH_C32 0xd7185134, SPH_C32 0x6b8c289a, SPH_C32 0x35c6144d,
  SPH_C32 0xcae30a27, SPH_C32 0xb5718512, SPH_C32 0x5ab8c289, SPH_C32 0xfd5c6145]

/-- The table `RK5[224]`. -/
def RK5 : List Nat := [
  SPH_C32 0xBA3BF050, SPH_C32 0x7EFB2A98, SPH_C32 0xA1F1651D, SPH_C32 0x39AF0176,
  SPH_C32 0x66CA593E, SPH_C32 0x82430E88, SPH_C32 0x8CEE8619, SPH_C32 0x456F9FB4,
  SPH_C32 0x7D84A5C3, SPH_C32 0x3B8B5EBE, SPH_C32 0xE06F75D8, SPH_C32 0x85C12073,
  SPH_C32 0x401A449F, SPH_C32 0x56C16AA6, SPH_C32 0x4ED3AA62, SPH_C32 0x363F7706,
  SPH_C32 0x1BFEDF72, SPH_C32 0x429B023D, SPH_C32 0x37D0D724, SPH_C32 0xD00A1248,
  SPH_C32 0xDB0FEAD3, SPH_C32 0x49F1C09B, SPH_C32 0x075372C9, SPH_C32 0x80991B7B,
  SPH_C32 0x25D479D8, SPH_C32 0xF6E8DEF7, SPH_C32 0xE3FE501A, SPH_C32 0xB6794C3B,
  SPH_C32 0x976CE0BD, SPH_C32 0x04C006BA, SPH_C32 0xC1A94FB6, SPH_C32 0x409F60C4,
  SPH_C32 0xaeae30a3, SPH_C32 0x87571850, SPH_C32 0x43ab8c28, SPH_C32 0x21d5c614,
  SPH_C32 0x10eae30a, SPH_C32 0x08757185, SPH_C32 0xd43ab8c3, SPH_C32 0xba1d5c60,
  SPH_C32 0x5d0eae30, SPH_C32 0x2e875718, SPH_C32 0x1743ab8c, SPH_C32 0x0ba1d5c6,
  SPH_C32 0x05d0eae3, SPH_C32 0xd2e87570, SPH_C32 0x69743ab8, SPH_C32 0x34ba1d5c,
  SPH_C32 0x1a5d0eae, SPH_C32 0x0d2e8757, SPH_C32 0xd69743aa, SPH_C32 0x6b4ba1d5,
  SPH_C32 0xe5a5d0eb, SPH_C32 0xa2d2e874, SPH_C32 0x5169743a, SPH_C32 0x28b4ba1d,
  SPH_C32 0xc45a5d0f, SPH_C32 0xb22d2e86, SPH_C32 0x59169743, SPH_C32 0xfc8b4ba0,
  SPH_C32 0x7e45a5d0, SPH_C32 0x3f22d2e8, SPH_C32 0x1f916974, SPH_C32 0x0fc8b4ba,
  SPH_C32 0x07e45a5d, SPH_C32 0xd3f22d2f, SPH_C32 0xb9f91696, SPH_C32 0x5cfc8b4b,
  SPH_C32 0xfe7e45a4, SPH_C32 0x7f3f22d2, SPH_C32 0x3f9f9169, SPH_C32 0xcfcfc8b5,
  SPH_C32 0xb7e7e45b, SPH_C32 0x8bf3f22c, SPH_C32 0x45f9f916, SPH_C32 0x22fcfc8b,
  SPH_C32 0xc17e7e44, SPH_C32 0x60bf3f22, SPH_C32 0x305f9f91, SPH_C32 0xc82fcfc9,
  SPH_C32 0xb417e7e5, SPH_C32 0x8a0bf3f3, SPH_C32 0x9505f9f8, SPH_C32 0x4a82fcfc,
  SPH_C32 0x25417e7e, SPH_C32 0x12a0bf3f, SPH_C32 0xd9505f9e, SPH_C32 0x6ca82fcf,
  SPH_C32 0xe65417e6, SPH_C32 0x732a0bf3, SPH_C32 0xe99505f8, SPH_C32 0x74ca82fc,
  SPH_C32 0x3a65417e, SPH_C32 0x1d32a0bf, SPH_C32 0xde99505e, SPH_C32 0x6f4ca82f,
  SPH_C32 0xe7a65416, SPH_C32 0x73d32a0b, SPH_C32 0xe9e99504, SPH_C32 0x74f4ca82,
  SPH_C32 0x3a7a6541, SPH_C32 0xcd3d32a1, SPH_C32 0xb69e9951, SPH_C32 0x8b4f4ca9,
  SPH_C32 0x95a7a655, SPH_C32 0x9ad3d32b, SPH_C32 0x9d69e994, SPH_C32 0x4eb4f4ca,
  SPH_C32 0x275a7a65, SPH_C32 0xc3ad3d33, SPH_C32 0xb1d69e98, SPH_C32 0x58eb4f4c,
  SPH_C32 0x2c75a7a6, SPH_C32 0x163ad3d3, SPH_C32 0xdb1d69e8, SPH_C32 0x6d8eb4f4,
  SPH_C32 0x36c75a7a, SPH_C32 0x1b63ad3d, SPH_C32 0xddb1d69f, SPH_C32 0xbed8eb4e,
  SPH_C32 0x5f6c75a7, SPH_C32 0xffb63ad2, SPH_C32 0x7fdb1d69, SPH_C32 0xefed8eb5,
  SPH_C32 0xa7f6c75b, SPH_C32 0x83fb63ac, SPH_C32 0x41fdb1d6, SPH_C32 0x20fed8eb,
  SPH_C32 0xc07f6c74, SPH_C32 0x603fb63a, SPH_C32 0x301fdb1d, SPH_C32 0xc80fed8f,
  SPH_C32 0xb407f6c6, SPH_C32 0x5a03fb63, SPH_C32 0xfd01fdb0, SPH_C32 0x7e80fed8,
  SPH_C32 0x3f407f6c, SPH_C32 0x1fa03fb6, SPH_C32 0x0fd01fdb, SPH_C32 0xd7e80fec,
  SPH_C32 0x6bf407f6, SPH_C32 0x35fa03fb, SPH_C32 0xcafd01fc, SPH_C32 0x657e80fe,
  SPH_C32 0x32bf407f, SPH_C32 0xc95fa03e, SPH_C32 0x64afd01f, SPH_C32 0xe257e80e,
  SPH_C32 0x712bf407, SPH_C32 0xe895fa02, SPH_C32 0x744afd01, SPH_C32 0xea257e81,
  SPH_C32 0xa512bf41, SPH_C32 0x82895fa1, SPH_C32 0x9144afd1, SPH_C32 0x98a257e9,
  SPH_C32 0x9c512bf5, SPH_C32 0x9e2895fb, SPH_C32 0x9f144afc, SPH_C32 0x4f8a257e,
  SPH_C32 0x27c512bf, SPH_C32 0xc3e2895e, SPH_C32 0x61f144af, SPH_C32 0xe0f8a256,
  SPH_C32 0x707c512b, SPH_C32 0xe83e2894, SPH_C32 0x741f144a, SPH_C32 0x3a0f8a25,
  SPH_C32 0xcd07c513, SPH_C32 0xb683e288, SPH_C32 0x5b41f144, SPH_C32 0x2da0f8a2,
  SPH_C32 0x16d07c51, SPH_C32 0xdb683e29, SPH_C32 0xbdb41f15, SPH_C32 0x8eda0f8b,
  SPH_C32 0x976d07c4, SPH_C32 0x4bb683e2, SPH_C32 0x25db41f1, SPH_C32 0xc2eda0f9,
  SPH_C32 0xb176d07d, SPH_C32 0x88bb683f, SPH_C32 0x945db41e, SPH_C32 0x4a2eda0f,
  SPH_C32 0xf5176d06, SPH_C32 0x7a8bb683, SPH_C32 0xed45db40, SPH_C32 0x76a2eda0,
  SPH_C32 0x3b5176d0, SPH_C32 0x1da8bb68, SPH_C32 0x0ed45db4, SPH_C32 0x076a2eda,
  SPH_C32 0x03b5176d, SPH_C32 0xd1da8bb7, SPH_C32 0xb8ed45da, SPH_C32 0x5c76a2ed,
  SPH_C32 0xfe3b5177, SPH_C32 0xaf1da8ba, SPH_C32 0x578ed45d, SPH_C32 0xfbc76a2f,
  SPH_C32 0xade3b516, SPH_C32 0x56f1da8b, SPH_C32 0xfb78ed44, SPH_C32 0x7dbc76a2,
  SPH_C32 0x3ede3b51, SPH_C32 0xcf6f1da9, SPH_C32 0xb7b78ed5, SPH_C32 0x8bdbc76b,
  SPH_C32 0x95ede3b4, SPH_C32 0x4af6f1da, SPH_C32 0x257b78ed, SPH_C32 0xc2bdbc77,
  SPH_C32 0xb15ede3a, SPH_C32 0x58af6f1d, SPH_C32 0xfc57b78f, SPH_C32 0xae2bdbc6,
  SPH_C32 0x5715ede3, SPH_C32 0xfb8af6f0, SPH_C32 0x7dc57b78, SPH_C32 0x3ee2bdbc,
  SPH_C32 0x1f715ede, SPH_C32 0x0fb8af6f, SPH_C32 0xd7dc57b6, SPH_C32 0x6bee2bdb]

/-- The macro `PASS2(n, in)` of the small-footprint build, `PASSG(2, n, in)`. -/
def PASS2 (n : Nat) (inw : Nat → Nat) (σ : Regs) : Regs := PASSG 2 n MP2 RK2 inw σ
/-- The macro `PASS3(n, in)` of the small-footprint build, `PASSG(3, n, in)`. -/
def PASS3 (n : Nat) (inw : Nat → Nat) (σ : Regs) : Regs := PASSG 3 n MP3 RK3 inw σ
/-- The macro `PASS4(n, in)` of the small-footprint build, `PASSG(4, n, in)`. -/
def PASS4 (n : Nat) (inw : Nat → Nat) (σ : Regs) : Regs := PASSG 4 n MP4 RK4 inw σ
/-- The macro `PASS5(n, in)` of the small-footprint build, `PASSG(5, n, in)`. -/
def PASS5 (n : Nat) (inw : Nat → Nat) (σ : Regs) : Regs := PASSG 5 n MP5 RK5 inw σ

end SmallFootprint

/-! ## Passes, unrolled form (haval.c, lines 585-777) -/

namespace Unrolled

/-- The unrolled macro `PASS1(n, in)` (haval.c, `#else` branch of `SPH_SMALL_FOOTPRINT_HAVAL`). -/
def PASS1 (n : Nat) (inw : Nat → Nat) (σ : Regs) : Regs :=
  σ
  |> STEP n 1 s7 s6 s5 s4 s3 s2 s1 s0 (inw  0) (SPH_C32 0x00000000)
  |> STEP n 1 s6 s5 s4 s3 s2 s1 s0 s7 (inw  1) (SPH_C32 0x00000000)
  |> STEP n 1 s5 s4 s3 s2 s1 s0 s7 s6 (inw  2) (SPH_C32 0x00000000)
  |> STEP n 1 s4 s3 s2 s1 s0 s7 s6 s5 (inw  3) (SPH_C32 0x00000000)
  |> STEP n 1 s3 s2 s1 s0 s7 s6 s5 s4 (inw  4) (SPH_C32 0x00000000)
  |> STEP n 1 s2 s1 s0 s7 s6 s5 s4 s3 (inw  5) (SPH_C32 0x00000000)
  |> STEP n 1 s1 s0 s7 s6 s5 s4 s3 s2 (inw  6) (SPH_C32 0x00000000)
  |> STEP n 1 s0 s7 s6 s5 s4 s3 s2 s1 (inw  7) (SPH_C32 0x00000000)
  |> STEP n 1 s7 s6 s5 s4 s3 s2 s1 s0 (inw  8) (SPH_C32 0x00000000)
  |> STEP n 1 s6 s5 s4 s3 s2 s1 s0 s7 (inw  9) (SPH_C32 0x00000000)
  |> STEP n 1 s5 s4 s3 s2 s1 s0 s7 s6 (inw 10) (SPH_C32 0x00000000)
  |> STEP n 1 s4 s3 s2 s1 s0 s7 s6 s5 (inw 11) (SPH_C32 0x00000000)
  |> STEP n 1 s3 s2 s1 s0 s7 s6 s5 s4 (inw 12) (SPH_C32 0x00000000)
  |> STEP n 1 s2 s1 s0 s7 s6 s5 s4 s3 (inw 13) (SPH_C32 0x00000000)
  |> STEP n 1 s1 s0 s7 s6 s5 s4 s3 s2 (inw 14) (SPH_C32 0x00000000)
  |> STEP n 1 s0 s7 s6 s5 s4 s3 s2 s1 (inw 15) (SPH_C32 0x00000000)
  |> STEP n 1 s7 s6 s5 s4 s3 s2 s1 s0 (inw 16) (SPH_C32 0x00000000)
  |> STEP n 1 s6 s5 s4 s3 s2 s1 s0 s7 (inw 17) (SPH_C32 0x00000000)
  |> STEP n 1 s5 s4 s3 s2 s1 s0 s7 s6 (inw 18) (SPH_C32 0x00000000)
  |> STEP n 1 s4 s3 s2 s1 s0 s7 s6 s5 (inw 19) (SPH_C32 0x00000000)
  |> STEP n 1 s3 s2 s1 s0 s7 s6 s5 s4 (inw 20) (SPH_C32 0x00000000)
  |> STEP n 1 s2 s1 s0 s7 s6 s5 s4 s3 (inw 21) (SPH_C32 0x00000000)
  |> STEP n 1 s1 s0 s7 s6 s5 s4 s3 s2 (inw 22) (SPH_C32 0x00000000)
  |> STEP n 1 s0 s7 s6 s5 s4 s3 s2 s1 (inw 23) (SPH_C32 0x00000000)
  |> STEP n 1 s7 s6 s5 s4 s3 s2 s1 s0 (inw 24) (SPH_C32 0x00000000)
  |> STEP n 1 s6 s5 s4 s3 s2 s1 s0 s7 (inw 25) (SPH_C32 0x00000000)
  |> STEP n 1 s5 s4 s3 s2 s1 s0 s7 s6 (inw 26) (SPH_C32 0x00000000)
  |> STEP n 1 s4 s3 s2 s1 s0 s7 s6 s5 (inw 27) (SPH_C32 0x00000000)
  |> STEP n 1 s3 s2 s1 s0 s7 s6 s5 s4 (inw 28) (SPH_C32 0x00000000)
  |> STEP n 1 s2 s1 s0 s7 s6 s5 s4 s3 (inw 29) (SPH_C32 0x00000000)
  |> STEP n 1 s1 s0 s7 s6 s5 s4 s3 s2 (inw 30) (SPH_C32 0x00000000)
  |> STEP n 1 s0 s7 s6 s5 s4 s3 s2 s1 (inw 31) (SPH_C32 0x00000000)

/-- The unrolled macro `PASS2(n, in)` (haval.c, `#else` branch of `SPH_SMALL_FOOTPRINT_HAVAL`). -/
def PASS2 (n : Nat) (inw : Nat → Nat) (σ : Regs) : Regs :=
  σ
  |> STEP n 2 s7 s6 s5 s4 s3 s2 s1 s0 (inw  5) (SPH_C32 0x452821E6)
  |> STEP n 2 s6 s5 s4 s3 s2 s1 s0 s7 (inw 14) (SPH_C32 0x38D01377)
  |> STEP n 2 s5 s4 s3 s2 s1 s0 s7 s6 (inw 26) (SPH_C32 0xBE5466CF)
  |> STEP n 2 s4 s3 s2 s1 s0 s7 s6 s5 (inw 18) (SPH_C32 0x34E90C6C)
  |> STEP n 2 s3 s2 s1 s0 s7 s6 s5 s4 (inw 11) (SPH_C32 0xC0AC29B7)
  |> STEP n 2 s2 s1 s0 s7 s6 s5 s4 s3 (inw 28) (SPH_C32 0xC97C50DD)
  |> STEP n 2 s1 s0 s7 s6 s5 s4 s3 s2 (inw  7) (SPH_C32 0x3F84D5B5)
  |> STEP n 2 s0 s7 s6 s5 s4 s3 s2 s1 (inw 16) (SPH_C32 0xB5470917)
  |> STEP n 2 s7 s6 s5 s4 s3 s2 s1 s0 (inw  0) (SPH_C32 0x9216D5D9)
  |> STEP n 2 s6 s5 s4 s3 s2 s1 s0 s7 (inw 23) (SPH_C32 0x8979FB1B)
  |> STEP n 2 s5 s4 s3 s2 s1 s0 s7 s6 (inw 20) (SPH_C32 0xD1310BA6)
  |> STEP n 2 s4 s3 s2 s1 s0 s7 s6 s5 (inw 22) (SPH_C32 0x98DFB5AC)
  |> STEP n 2 s3 s2 s1 s0 s7 s6 s5 s4 (inw  1) (SPH_C32 0x2FFD72DB)
  |> STEP n 2 s2 s1 s0 s7 s6 s5 s4 s3 (inw 10) (SPH_C32 0xD01ADFB7)
  |> STEP n 2 s1 s0 s7 s6 s5 s4 s3 s2 (inw  4) (SPH_C32 0xB8E1AFED)
  |> STEP n 2 s0 s7 s6 s5 s4 s3 s2 s1 (inw  8) (SPH_C32 0x6A267E96)
  |> STEP n 2 s7 s6 s5 s4 s3 s2 s1 s0 (inw 30) (SPH_C32 0xBA7C9045)
  |> STEP n 2 s6 s5 s4 s3 s2 s1 s0 s7 (inw  3) (SPH_C32 0xF12C7F99)
  |> STEP n 2 s5 s4 s3 s2 s1 s0 s7 s6 (inw 21) (SPH_C32 0x24A19947)
  |> STEP n 2 s4 s3 s2 s1 s0 s7 s6 s5 (inw  9) (SPH_C32 0xB3916CF7)
  |> STEP n 2 s3 s2 s1 s0 s7 s6 s5 s4 (inw 17) (SPH_C32 0x0801F2E2)
  |> STEP n 2 s2 s1 s0 s7 s6 s5 s4 s3 (inw 24) (SPH_C32 0x858EFC16)
  |> STEP n 2 s1 s0 s7 s6 s5 s4 s3 s2 (inw 29) (SPH_C32 0x636920D8)
  |> STEP n 2 s0 s7 s6 s5 s4 s3 s2 s1 (inw  6) (SPH_C32 0x71574E69)
  |> STEP n 2 s7 s6 s5 s4 s3 s2 s1 s0 (inw 19) (SPH_C32 0xA458FEA3)
  |> STEP n 2 s6 s5 s4 s3 s2 s1 s0 s7 (inw 12) (SPH_C32 0xF4933D7E)
  |> STEP n 2 s5 s4 s3 s2 s1 s0 s7 s6 (inw 15) (SPH_C32 0x0D95748F)
  |> STEP n 2 s4 s3 s2 s1 s0 s7 s6 s5 (inw 13) (SPH_C32 0x728EB658)
  |> STEP n 2 s3 s2 s1 s0 s7 s6 s5 s4 (inw  2) (SPH_C32 0x718BCD58)
  |> STEP n 2 s2 s1 s0 s7 s6 s5 s4 s3 (inw 25) (SPH_C32 0x82154AEE)
  |> STEP n 2 s1 s0 s7 s6 s5 s4 s3 s2 (inw 31) (SPH_C32 0x7B54A41D)
  |> STEP n 2 s0 s7 s6 s5 s4 s3 s2 s1 (inw 27) (SPH_C32 0xC25A59B5)

/-- The unrolled macro `PASS3(n, in)` (haval.c, `#else` branch of `SPH_SMALL_FOOTPRINT_HAVAL`). -/
def PASS3 (n : Nat) (inw : Nat → Nat) (σ : Regs) : Regs :=
  σ
  |> STEP n 3 s7 s6 s5 s4 s3 s2 s1 s0 (inw 19) (SPH_C32 0x9C30D539)
  |> STEP n 3 s6 s5 s4 s3 s2 s1 s0 s7 (inw  9) (SPH_C32 0x2AF26013)
  |> STEP n 3 s5 s4 s3 s2 s1 s0 s7 s6 (inw  4) (SPH_C32 0xC5D1B023)
  |> STEP n 3 s4 s3 s2 s1 s0 s7 s6 s5 (inw 20) (SPH_C32 0x286085F0)
  |> STEP n 3 s3 s2 s1 s0 s7 s6 s5 s4 (inw 28) (SPH_C32 0xCA417918)
  |> STEP n 3 s2 s1 s0 s7 s6 s5 s4 s3 (inw 17) (SPH_C32 0xB8DB38EF)
  |> STEP n 3 s1 s0 s7 s6 s5 s4 s3 s2 (inw  8) (SPH_C32 0x8E79DCB0)
  |> STEP n 3 s0 s7 s6 s5 s4 s3 s2 s1 (inw 22) (SPH_C32 0x603A180E)
  |> STEP n 3 s7 s6 s5 s4 s3 s2 s1 s0 (inw 29) (SPH_C32 0x6C9E0E8B)
  |> STEP n 3 s6 s5 s4 s3 s2 s1 s0 s7 (inw 14) (SPH_C32 0xB01E8A3E)
  |> STEP n 3 s5 s4 s3 s2 s1 s0 s7 s6 (inw 25) (SPH_C32 0xD71577C1)
  |> STEP n 3 s4 s3 s2 s1 s0 s7 s6 s5 (inw 12) (SPH_C32 0xBD314B27)
  |> STEP n 3 s3 s2 s1 s0 s7 s6 s5 s4 (inw 24) (SPH_C32 0x78AF2FDA)
  |> STEP n 3 s2 s1 s0 s7 s6 s5 s4 s3 (inw 30) (SPH_C32 0x55605C60)
  |> STEP n 3 s1 s0 s7 s6 s5 s4 s3 s2 (inw 16) (SPH_C32 0xE65525F3)
  |> STEP n 3 s0 s7 s6 s5 s4 s3 s2 s1 (inw 26) (SPH_C32 0xAA55AB94)
  |> STEP n 3 s7 s6 s5 s4 s3 s2 s1 s0 (inw 31) (SPH_C32 0x57489862)
  |> STEP n 3 s6 s5 s4 s3 s2 s1 s0 s7 (inw 15) (SPH_C32 0x63E81440)
  |> STEP n 3 s5 s4 s3 s2 s1 s0 s7 s6 (inw  7) (SPH_C32 0x55CA396A)
  |> STEP n 3 s4 s3 s2 s1 s0 s7 s6 s5 (inw  3) (SPH_C32 0x2AAB10B6)
  |> STEP n 3 s3 s2 s1 s0 s7 s6 s5 s4 (inw  1) (SPH_C32 0xB4CC5C34)
  |> STEP n 3 s2 s1 s0 s7 s6 s5 s4 s3 (inw  0) (SPH_C32 0x1141E8CE)
  |> STEP n 3 s1 s0 s7 s6 s5 s4 s3 s2 (inw 18) (SPH_C32 0xA15486AF)
  |> STEP n 3 s0 s7 s6 s5 s4 s3 s2 s1 (inw 27) (SPH_C32 0x7C72E993)
  |> STEP n 3 s7 s6 s5 s4 s3 s2 s1 s0 (inw 13) (SPH_C32 0xB3EE1411)
  |> STEP n 3 s6 s5 s4 s3 s2 s1 s0 s7 (inw  6) (SPH_C32 0x636FBC2A)
  |> STEP n 3 s5 s4 s3 s2 s1 s0 s7 s6 (inw 21) (SPH_C32 0x2BA9C55D)
  |> STEP n 3 s4 s3 s2 s1 s0 s7 s6 s5 (inw 10) (SPH_C32 0x741831F6)
  |> STEP n 3 s3 s2 s1 s0 s7 s6 s5 s4 (inw 23) (SPH_C32 0xCE5C3E16)
  |> STEP n 3 s2 s1 s0 s7 s6 s5 s4 s3 (inw 11) (SPH_C32 0x9B87931E)
  |> STEP n 3 s1 s0 s7 s6 s5 s4 s3 s2 (inw  5) (SPH_C32 0xAFD6BA33)
  |> STEP n 3 s0 s7 s6 s5 s4 s3 s2 s1 (inw  2) (SPH_C32 0x6C24CF5C)

/-- The unrolled macro `PASS4(n, in)` (haval.c, `#else` branch of `SPH_SMALL_FOOTPRINT_HAVAL`). -/
def PASS4 (n : Nat) (inw : Nat → Nat) (σ : Regs) : Regs :=
  σ
  |> STEP n 4 s7 s6 s5 s4 s3 s2 s1 s0 (inw 24) (SPH_C32 0x7A325381)
  |> STEP n 4 s6 s5 s4 s3 s2 s1 s0 s7 (inw  4) (SPH_C32 0x28958677)
  |> STEP n 4 s5 s4 s3 s2 s1 s0 s7 s6 (inw  0) (SPH_C32 0x3B8F4898)
  |> STEP n 4 s4 s3 s2 s1 s0 s7 s6 s5 (inw 14) (SPH_C32 0x6B4BB9AF)
  |> STEP n 4 s3 s2 s1 s0 s7 s6 s5 s4 (inw  2) (SPH_C32 0xC4BFE81B)
  |> STEP n 4 s2 s1 s0 s7 s6 s5 s4 s3 (inw  7) (SPH_C32 0x66282193)
  |> STEP n 4 s1 s0 s7 s6 s5 s4 s3 s2 (inw 28) (SPH_C32 0x61D809CC)
  |> STEP n 4 s0 s7 s6 s5 s4 s3 s2 s1 (inw 23) (SPH_C32 0xFB21A991)
  |> STEP n 4 s7 s6 s5 s4 s3 s2 s1 s0 (inw 26) (SPH_C32 0x487CAC60)
  |> STEP n 4 s6 s5 s4 s3 s2 s1 s0 s7 (inw  6) (SPH_C32 0x5DEC8032)
  |> STEP n 4 s5 s4 s3 s2 s1 s0 s7 s6 (inw 30) (SPH_C32 0xEF845D5D)
  |> STEP n 4 s4 s3 s2 s1 s0 s7 s6 s5 (inw 20) (SPH_C32 0xE98575B1)
  |> STEP n 4 s3 s2 s1 s0 s7 s6 s5 s4 (inw 18) (SPH_C32 0xDC262302)
  |> STEP n 4 s2 s1 s0 s7 s6 s5 s4 s3 (inw 25) (SPH_C32 0xEB651B88)
  |> STEP n 4 s1 s0 s7 s6 s5 s4 s3 s2 (inw 19) (SPH_C32 0x23893E81)
  |> STEP n 4 s0 s7 s6 s5 s4 s3 s2 s1 (inw  3) (SPH_C32 0xD396ACC5)
  |> STEP n 4 s7 s6 s5 s4 s3 s2 s1 s0 (inw 22) (SPH_C32 0x0F6D6FF3)
  |> STEP n 4 s6 s5 s4 s3 s2 s1 s0 s7 (inw 11) (SPH_C32 0x83F44239)
  |> STEP n 4 s5 s4 s3 s2 s1 s0 s7 s6 (inw 31) (SPH_C32 0x2E0B4482)
  |> STEP n 4 s4 s3 s2 s1 s0 s7 s6 s5 (inw 21) (SPH_C32 0xA4842004)
  |> STEP n 4 s3 s2 s1 s0 s7 s6 s5 s4 (inw  8) (SPH_C32 0x69C8F04A)
  |> STEP n 4 s2 s1 s0 s7 s6 s5 s4 s3 (inw 27) (SPH_C32 0x9E1F9B5E)
  |> STEP n 4 s1 s0 s7 s6 s5 s4 s3 s2 (inw 12) (SPH_C32 0x21C66842)
  |> STEP n 4 s0 s7 s6 s5 s4 s3 s2 s1 (inw  9) (SPH_C32 0xF6E96C9A)
  |> STEP n 4 s7 s6 s5 s4 s3 s2 s1 s0 (inw  1) (SPH_C32 0x670C9C61)
  |> STEP n 4 s6 s5 s4 s3 s2 s1 s0 s7 (inw 29) (SPH_C32 0xABD388F0)
  |> STEP n 4 s5 s4 s3 s2 s1 s0 s7 s6 (inw  5) (SPH_C32 0x6A51A0D2)
  |> STEP n 4 s4 s3 s2 s1 s0 s7 s6 s5 (inw 15) (SPH_C32 0xD8542F68)
  |> STEP n 4 s3 s2 s1 s0 s7 s6 s5 s4 (inw 17) (SPH_C32 0x960FA728)
  |> STEP n 4 s2 s1 s0 s7 s6 s5 s4 s3 (inw 10) (SPH_C32 0xAB5133A3)
  |> STEP n 4 s1 s0 s7 s6 s5 s4 s3 s2 (inw 16) (SPH_C32 0x6EEF0B6C)
  |> STEP n 4 s0 s7 s6 s5 s4 s3 s2 s1 (inw 13) (SPH_C32 0x137A3BE4)

/-- The unrolled macro `PASS5(n, in)` (haval.c, `#else` branch of `SPH_SMALL_FOOTPRINT_HAVAL`). -/
def PASS5 (n : Nat) (inw : Nat → Nat) (σ : Regs) : Regs :=
  σ
  |> STEP n 5 s7 s6 s5 s4 s3 s2 s1 s0 (inw 27) (SPH_C32 0xBA3BF050)
  |> STEP n 5 s6 s5 s4 s3 s2 s1 s0 s7 (inw  3) (SPH_C32 0x7EFB2A98)
  |> STEP n 5 s5 s4 s3 s2 s1 s0 s7 s6 (inw 21) (SPH_C32 0xA1F1651D)
  |> STEP n 5 s4 s3 s2 s1 s0 s7 s6 s5 (inw 26) (SPH_C32 0x39AF0176)
  |> STEP n 5 s3 s2 s1 s0 s7 s6 s5 s4 (inw 17) (SPH_C32 0x66CA593E)
  |> STEP n 5 s2 s1 s0 s7 s6 s5 s4 s3 (inw 11) (SPH_C32 0x82430E88)
  |> STEP n 5 s1 s0 s7 s6 s5 s4 s3 s2 (inw 20) (SPH_C32 0x8CEE8619)
  |> STEP n 5 s0 s7 s6 s5 s4 s3 s2 s1 (inw 29) (SPH_C32 0x456F9FB4)
  |> STEP n 5 s7 s6 s5 s4 s3 s2 s1 s0 (inw 19) (SPH_C32 0x7D84A5C3)
  |> STEP n 5 s6 s5 s4 s3 s2 s1 s0 s7 (inw  0) (SPH_C32 0x3B8B5EBE)
  |> STEP n 5 s5 s4 s3 s2 s1 s0 s7 s6 (inw 12) (SPH_C32 0xE06F75D8)
  |> STEP n 5 s4 s3 s2 s1 s0 s7 s6 s5 (inw  7) (SPH_C32 0x85C12073)
  |> STEP n 5 s3 s2 s1 s0 s7 s6 s5 s4 (inw 13) (SPH_C32 0x401A449F)
  |> STEP n 5 s2 s1 s0 s7 s6 s5 s4 s3 (inw  8) (SPH_C32 0x56C16AA6)
  |> STEP n 5 s1 s0 s7 s6 s5 s4 s3 s2 (inw 31) (SPH_C32 0x4ED3AA62)
  |> STEP n 5 s0 s7 s6 s5 s4 s3 s2 s1 (inw 10) (SPH_C32 0x363F7706)
  |> STEP n 5 s7 s6 s5 s4 s3 s2 s1 s0 (inw  5) (SPH_C32 0x1BFEDF72)
  |> STEP n 5 s6 s5 s4 s3 s2 s1 s0 s7 (inw  9) (SPH_C32 0x429B023D)
  |> STEP n 5 s5 s4 s3 s2 s1 s0 s7 s6 (inw 14) (SPH_C32 0x37D0D724)
  |> STEP n 5 s4 s3 s2 s1 s0 s7 s6 s5 (inw 30) (SPH_C32 0xD00A1248)
  |> STEP n 5 s3 s2 s1 s0 s7 s6 s5 s4 (inw 18) (SPH_C32 0xDB0FEAD3)
  |> STEP n 5 s2 s1 s0 s7 s6 s5 s4 s3 (inw  6) (SPH_C32 0x49F1C09B)
  |> STEP n 5 s1 s0 s7 s6 s5 s4 s3 s2 (inw 28) (SPH_C32 0x075372C9)
  |> STEP n 5 s0 s7 s6 s5 s4 s3 s2 s1 (inw 24) (SPH_C32 0x80991B7B)
  |> STEP n 5 s7 s6 s5 s4 s3 s2 s1 s0 (inw  2) (SPH_C32 0x25D479D8)
  |> STEP n 5 s6 s5 s4 s3 s2 s1 s0 s7 (inw 23) (SPH_C32 0xF6E8DEF7)
  |> STEP n 5 s5 s4 s3 s2 s1 s0 s7 s6 (inw 16) (SPH_C32 0xE3FE501A)
  |> STEP n 5 s4 s3 s2 s1 s0 s7 s6 s5 (inw 22) (SPH_C32 0xB6794C3B)
  |> STEP n 5 s3 s2 s1 s0 s7 s6 s5 s4 (inw  4) (SPH_C32 0x976CE0BD)
  |> STEP n 5 s2 s1 s0 s7 s6 s5 s4 s3 (inw  1) (SPH_C32 0x04C006BA)
  |> STEP n 5 s1 s0 s7 s6 s5 s4 s3 s2 (inw 25) (SPH_C32 0xC1A94FB6)
  |> STEP n 5 s0 s7 s6 s5 s4 s3 s2 s1 (inw 15) (SPH_C32 0x409F60C4)

end Unrolled

/-! ## The core (haval.c, lines 779-834)

The flag `small` is the value of `SPH_SMALL_FOOTPRINT_HAVAL`, which selects
the form of the passes at compile time. -/

/-- `PASS1(n, in)` in the build selected by `small`. -/
def PASS1 (small : Bool) (n : Nat) (inw : Nat → Nat) (σ : Regs) : Regs :=
  if small then SmallFootprint.PASS1 n inw σ else Unrolled.PASS1 n inw σ
/-- `PASS2(n, in)` in the build selected by `small`. -/
def PASS2 (small : Bool) (n : Nat) (inw : Nat → Nat) (σ : Regs) : Regs :=
  if small then SmallFootprint.PASS2 n inw σ else Unrolled.PASS2 n inw σ
/-- `PASS3(n, in)` in the build selected by `small`. -/
def PASS3 (small : Bool) (n : Nat) (inw : Nat → Nat) (σ : Regs) : Regs :=
  if small then SmallFootprint.PASS3 n inw σ else Unrolled.PASS3 n inw σ
/-- `PASS4(n, in)` in the build selected by `small`. -/
def PASS4 (small : Bool) (n : Nat) (inw : Nat → Nat) (σ : Regs) : Regs :=
  if small then SmallFootprint.PASS4 n inw σ else Unrolled.PASS4 n inw σ
/-- `PASS5(n, in)` in the build selected by `small`. -/
def PASS5 (small : Bool) (n : Nat) (inw : Nat → Nat) (σ : Regs) : Regs :=
  if small then SmallFootprint.PASS5 n inw σ else Unrolled.PASS5 n inw σ

/-- The macro `SAVE_STATE`: the values given to `u0 .. u7`. -/
def SAVE_STATE (σ : Regs) : Regs :=
  { s0 := σ.s0, s1 := σ.s1, s2 := σ.s2, s3 := σ.s3,
    s4 := σ.s4, s5 := σ.s5, s6 := σ.s6, s7 := σ.s7 }

/-- The macro `UPDATE_STATE`; `u` holds `u0 .. u7`. -/
def UPDATE_STATE (σ u : Regs) : Regs :=
  { s0 := SPH_T32 (σ.s0 + u.s0),
    s1 := SPH_T32 (σ.s1 + u.s1),
    s2 := SPH_T32 (σ.s2 + u.s2),
    s3 := SPH_T32 (σ.s3 + u.s3),
    s4 := SPH_T32 (σ.s4 + u.s4),
    s5 := SPH_T32 (σ.s5 + u.s5),
    s6 := SPH_T32 (σ.s6 + u.s6),
    s7 := SPH_T32 (σ.s7 + u.s7) }

/-- The macro `CORE3(in)`. -/
def CORE3 (small : Bool) (inw : Nat → Nat) (σ : Regs) : Regs :=
  let u := SAVE_STATE σ
  let σ := PASS1 small 3 inw σ
  let σ := PASS2 small 3 inw σ
  let σ := PASS3 small 3 inw σ
  UPDATE_STATE σ u

/-- The macro `CORE4(in)`. -/
def CORE4 (small : Bool) (inw : Nat → Nat) (σ : Regs) : Regs :=
  let u := SAVE_STATE σ
  let σ := PASS1 small 4 inw σ
  let σ := PASS2 small 4 inw σ
  let σ := PASS3 small 4 inw σ
  let σ := PASS4 small 4 inw σ
  UPDATE_STATE σ u

/-- The macro `CORE5(in)`. -/
def CORE5 (small : Bool) (inw : Nat → Nat) (σ : Regs) : Regs :=
  let u := SAVE_STATE σ
  let σ := PASS1 small 5 inw σ
  let σ := PASS2 small 5 inw σ
  let σ := PASS3 small 5 inw σ
  let σ := PASS4 small 5 inw σ
  let σ := PASS5 small 5 inw σ
  UPDATE_STATE σ u

/-! ## The compression functions (haval.c, lines 1179-1234) -/

/-- The macro `RVAL`: the state variables are read from `val[0 .. 7]`. -/
def RVAL (val : Nat → Nat) : Regs :=
  { s0 := val 0, s1 := val 1, s2 := val 2, s3 := val 3,
    s4 := val 4, s5 := val 5, s6 := val 6, s7 := val 7 }

/-- The macro `WVAL`: the state variables are written to `val[0 .. 7]`. -/
def WVAL (σ : Regs) (val : Nat → Nat) : Nat → Nat :=
  val
  |> (Function.update · 0 σ.s0)
  |> (Function.update · 1 σ.s1)
  |> (Function.update · 2 σ.s2)
  |> (Function.update · 3 σ.s3)
  |> (Function.update · 4 σ.s4)
  |> (Function.update · 5 σ.s5)
  |> (Function.update · 6 σ.s6)
  |> (Function.update · 7 σ.s7)

/-- The macro `INMSG(i)`, `msg[i]`. -/
def INMSG (msg : Nat → Nat) (i : Nat) : Nat := msg i

/-- The function `sph_haval_3_comp(msg, val)`: the contents of `val` on return. -/
def sph_haval_3_comp (small : Bool) (msg val : Nat → Nat) : Nat → Nat :=
  let σ := RVAL val
  let σ := CORE3 small (INMSG msg) σ
  WVAL σ val

/-- The function `sph_haval_4_comp(msg, val)`: the contents of `val` on return. -/
def sph_haval_4_comp (small : Bool) (msg val : Nat → Nat) : Nat → Nat :=
  let σ := RVAL val
  let σ := CORE4 small (INMSG msg) σ
  WVAL σ val

/-- The function `sph_haval_5_comp(msg, val)`: the contents of `val` on return. -/
def sph_haval_5_comp (small : Bool) (msg val : Nat → Nat) : Nat → Nat :=
  let σ := RVAL val
  let σ := CORE5 small (INMSG msg) σ
  WVAL σ val

/-! ## The context (haval.c, lines 869-893) -/

/-- Modelled from the spec: the structure `sph_haval_context` of `sph_haval.h`
(not in the sources), with the fields that `haval.c` names: the chaining state,
the configured output length and pass count, and the input bit counter, which
is the field `count` when `SPH_64` is set and the pair `count_high`,
`count_low` otherwise. -/
structure sph_haval_context where
  s0 : Nat
  s1 : Nat
  s2 : Nat
  s3 : Nat
  s4 : Nat
  s5 : Nat
  s6 : Nat
  s7 : Nat
  olen : Nat
  passes : Nat
  count : Nat
  count_high : Nat
  count_low : Nat
  deriving DecidableEq, Repr

/-- The function `haval_init(sc, olen, passes)`: the context `*sc` on return.
The flag `sph64` is the value of `SPH_64`. -/
def haval_init (sph64 : Bool) (sc : sph_haval_context) (olen passes : Nat) :
    sph_haval_context :=
  let sc := { sc with s0 := SPH_C32 0x243F6A88 }
  let sc := { sc with s1 := SPH_C32 0x85A308D3 }
  let sc := { sc with s2 := SPH_C32 0x13198A2E }
  let sc := { sc with s3 := SPH_C32 0x03707344 }
  let sc := { sc with s4 := SPH_C32 0xA4093822 }
  let sc := { sc with s5 := SPH_C32 0x299F31D0 }
  let sc := { sc with s6 := SPH_C32 0x082EFA98 }
  let sc := { sc with s7 := SPH_C32 0xEC4E6C89 }
  let sc := { sc with olen := olen }
  let sc := { sc with passes := passes }
  if sph64 then
    { sc with count := 0 }
  else
    let sc := { sc with count_high := 0 }
    { sc with count_low := 0 }

/-- The configurations the spec enumerates: `digestWords` in `{4,5,6,7,8}` and
`passes` in `{3,4,5}`. -/
def validConfig (olen passes : Nat) : Bool :=
  (olen == 4 || olen == 5 || olen == 6 || olen == 7 || olen == 8)
    && (passes == 3 || passes == 4 || passes == 5)

/-! ## Lane-wise functions of seven words -/

/-- A function of seven words is lane-wise with lane function `lane`: for every
bit position `i` in `0 .. 31`, bit `i` of the result is `lane` applied to bit
`i` of the seven inputs. -/
def LaneWise (F : Nat → Nat → Nat → Nat → Nat → Nat → Nat → Nat)
    (lane : Bool → Bool → Bool → Bool → Bool → Bool → Bool → Bool) : Prop :=
  ∀ x6 x5 x4 x3 x2 x1 x0 i : Nat, i < 32 →
    (F x6 x5 x4 x3 x2 x1 x0).testBit i
      = lane (x6.testBit i) (x5.testBit i) (x4.testBit i) (x3.testBit i)
          (x2.testBit i) (x1.testBit i) (x0.testBit i)

/-- A function of seven words commutes with rotating all seven 32-bit inputs to
the left by the same amount `r` (`0 <= r < 32`). -/
def CommutesWithRotation (F : Nat → Nat → Nat → Nat → Nat → Nat → Nat → Nat) : Prop :=
  ∀ x6 x5 x4 x3 x2 x1 x0 r : Nat,
    x6 < 2 ^ 32 → x5 < 2 ^ 32 → x4 < 2 ^ 32 → x3 < 2 ^ 32 → x2 < 2 ^ 32 → x1 < 2 ^ 32 →
    x0 < 2 ^ 32 → r < 32 →
    F (SPH_ROTL32 x6 r) (SPH_ROTL32 x5 r) (SPH_ROTL32 x4 r) (SPH_ROTL32 x3 r)
        (SPH_ROTL32 x2 r) (SPH_ROTL32 x1 r) (SPH_ROTL32 x0 r)
      = SPH_ROTL32 (F x6 x5 x4 x3 x2 x1 x0) r

/-! ## Output tailoring (haval.c, lines 915-1116)

In these definitions `>>>` on natural numbers is the mathematical shift
(division by a power of two): the value C gives when the count is below the
width of the shifted type. The definedness of each shift is the subject of the
checked forms further down. -/

/-- The function `mix128(a0, a1, a2, a3, n)`. -/
def mix128 (a0 a1 a2 a3 n : Nat) : Nat :=
  let tmp := (a0 &&& SPH_C32 0x000000FF)
    ||| (a1 &&& SPH_C32 0x0000FF00)
    ||| (a2 &&& SPH_C32 0x00FF0000)
    ||| (a3 &&& SPH_C32 0xFF000000)
  let tmp := if n > 0 then SPH_ROTL32 tmp n else tmp
  tmp

/-- The function `mix160_0(x5, x6, x7)`. -/
def mix160_0 (x5 x6 x7 : Nat) : Nat :=
  let tmp := (x5 &&& SPH_C32 0x01F80000)
    ||| (x6 &&& SPH_C32 0xFE000000)
    ||| (x7 &&& SPH_C32 0x0000003F)
  SPH_ROTL32 tmp 13

/-- The function `mix160_1(x5, x6, x7)`. -/
def mix160_1 (x5 x6 x7 : Nat) : Nat :=
  let tmp := (x5 &&& SPH_C32 0xFE000000)
    ||| (x6 &&& SPH_C32 0x0000003F)
    ||| (x7 &&& SPH_C32 0x00000FC0)
  SPH_ROTL32 tmp 7

/-- The function `mix160_2(x5, x6, x7)`. -/
def mix160_2 (x5 x6 x7 : Nat) : Nat :=
  let tmp := (x5 &&& SPH_C32 0x0000003F)
    ||| (x6 &&& SPH_C32 0x00000FC0)
    ||| (x7 &&& SPH_C32 0x0007F000)
  tmp

/-- The function `mix160_3(x5, x6, x7)`. -/
def mix160_3 (x5 x6 x7 : Nat) : Nat :=
  let tmp := (x5 &&& SPH_C32 0x00000FC0)
    ||| (x6 &&& SPH_C32 0x0007F000)
    ||| (x7 &&& SPH_C32 0x01F80000)
  tmp >>> 6

/-- The function `mix160_4(x5, x6, x7)`. -/
def mix160_4 (x5 x6 x7 : Nat) : Nat :=
  let tmp := (x5 &&& SPH_C32 0x0007F000)
    ||| (x6 &&& SPH_C32 0x01F80000)
    ||| (x7 &&& SPH_C32 0xFE000000)
  tmp >>> 12

/-- The function `mix192_0(x6, x7)`. -/
def mix192_0 (x6 x7 : Nat) : Nat :=
  let tmp := (x6 &&& SPH_C32 0xFC000000) ||| (x7 &&& SPH_C32 0x0000001F)
  SPH_ROTL32 tmp 12

/-- The function `mix192_1(x6, x7)`. -/
def mix192_1 (x6 x7 : Nat) : Nat :=
  (x6 &&& SPH_C32 0x0000001F) ||| (x7 &&& SPH_C32 0x000003E0)

/-- The function `mix192_2(x6, x7)`. -/
def mix192_2 (x6 x7 : Nat) : Nat :=
  ((x6 &&& SPH_C32 0x000003E0) ||| (x7 &&& SPH_C32 0x0000FC00)) >>> 10

/-- The function `mix192_3(x6, x7)`. -/
def mix192_3 (x6 x7 : Nat) : Nat :=
  ((x6 &&& SPH_C32 0x0000FC00) ||| (x7 &&& SPH_C32 0x001F0000)) >>> 20

/-- The function `mix192_4(x6, x7)`. -/
def mix192_4 (x6 x7 : Nat) : Nat :=
  ((x6 &&& SPH_C32 0x001F0000) ||| (x7 &&& SPH_C32 0x03E00000)) >>> 32

/-- The function `mix192_5(x6, x7)`. -/
def mix192_5 (x6 x7 : Nat) : Nat :=
  ((x6 &&& SPH_C32 0x03E00000) ||| (x7 &&& SPH_C32 0xFC000000)) >>> 42

/-- The macro `RSTATE`: the state variables are read from the context. -/
def RSTATE (sc : sph_haval_context) : Regs :=
  { s0 := sc.s0, s1 := sc.s1, s2 := sc.s2, s3 := sc.s3,
    s4 := sc.s4, s5 := sc.s5, s6 := sc.s6, s7 := sc.s7 }

/-- Modelled from the spec: the function `sph_enc32le` of `sph_types.h` (not in
the sources), the little-endian encoding of a 32-bit word: the four bytes of
`val`, least significant first, are stored at `dst[off .. off + 3]`. A byte
buffer is a function from the byte offset to the byte. -/
def sph_enc32le (dst : Nat → Nat) (off val : Nat) : Nat → Nat :=
  dst
  |> (Function.update · off (val % 256))
  |> (Function.update · (off + 1) ((val >>> 8) % 256))
  |> (Function.update · (off + 2) ((val >>> 16) % 256))
  |> (Function.update · (off + 3) ((val >>> 24) % 256))

/-- Modelled from the spec: the function `sph_dec32le` of `sph_types.h` (not in
the sources), the little-endian decoding of the 32-bit word stored at
`src[off .. off + 3]`. -/
def sph_dec32le (src : Nat → Nat) (off : Nat) : Nat :=
  src off + src (off + 1) * 2 ^ 8 + src (off + 2) * 2 ^ 16 + src (off + 3) * 2 ^ 24

/-- The function `haval_out(sc, dst)`: the context `*sc` and the buffer `dst`
on return. -/
def haval_out (sc : sph_haval_context) (dst : Nat → Nat) :
    sph_haval_context × (Nat → Nat) :=
  let buf := dst
  let σ := RSTATE sc
  match sc.olen with
  | 4 =>
    (sc, buf
      |> (sph_enc32le · 0 (SPH_T32 (σ.s0 + mix128 σ.s7 σ.s4 σ.s5 σ.s6 24)))
      |> (sph_enc32le · 4 (SPH_T32 (σ.s1 + mix128 σ.s6 σ.s7 σ.s4 σ.s5 16)))
      |> (sph_enc32le · 8 (SPH_T32 (σ.s2 + mix128 σ.s5 σ.s6 σ.s7 σ.s4 8)))
      |> (sph_enc32le · 12 (SPH_T32 (σ.s3 + mix128 σ.s4 σ.s5 σ.s6 σ.s7 0))))
  | 5 =>
    (sc, buf
      |> (sph_enc32le · 0 (SPH_T32 (σ.s0 + mix160_0 σ.s5 σ.s6 σ.s7)))
      |> (sph_enc32le · 4 (SPH_T32 (σ.s1 + mix160_1 σ.s5 σ.s6 σ.s7)))
      |> (sph_enc32le · 8 (SPH_T32 (σ.s2 + mix160_2 σ.s5 σ.s6 σ.s7)))
      |> (sph_enc32le · 12 (SPH_T32 (σ.s3 + mix160_3 σ.s5 σ.s6 σ.s7)))
      |> (sph_enc32le · 16 (SPH_T32 (σ.s4 + mix160_4 σ.s5 σ.s6 σ.s7))))
  | 6 =>
    (sc, buf
      |> (sph_enc32le · 0 (SPH_T32 (σ.s0 + mix192_0 σ.s6 σ.s7)))
      |> (sph_enc32le · 4 (SPH_T32 (σ.s1 + mix192_1 σ.s6 σ.s7)))
      |> (sph_enc32le · 8 (SPH_T32 (σ.s2 + mix192_2 σ.s6 σ.s7)))
      |> (sph_enc32le · 12 (SPH_T32 (σ.s3 + mix192_3 σ.s6 σ.s7)))
      |> (sph_enc32le · 16 (SPH_T32 (σ.s4 + mix192_4 σ.s6 σ.s7)))
      |> (sph_enc32le · 20 (SPH_T32 (σ.s5 + mix192_5 σ.s6 σ.s7))))
  | 7 =>
    (sc, buf
      |> (sph_enc32le · 0 (SPH_T32 (σ.s0 + ((σ.s7 >>> 27) &&& 0x1F))))
      |> (sph_enc32le · 4 (SPH_T32 (σ.s1 + ((σ.s7 >>> 22) &&& 0x1F))))
      |> (sph_enc32le · 8 (SPH_T32 (σ.s2 + ((σ.s7 >>> 18) &&& 0x0F))))
      |> (sph_enc32le · 12 (SPH_T32 (σ.s3 + ((σ.s7 >>> 13) &&& 0x1F))))
      |> (sph_enc32le · 16 (SPH_T32 (σ.s4 + ((σ.s7 >>> 9) &&& 0x0F))))
      |> (sph_enc32le · 20 (SPH_T32 (σ.s5 + ((σ.s7 >>> 4) &&& 0x1F))))
      |> (sph_enc32le · 24 (SPH_T32 (σ.s6 + (σ.s7 &&& 0x0F)))))
  | 8 =>
    (sc, buf
      |> (sph_enc32le · 0 σ.s0)
      |> (sph_enc32le · 4 σ.s1)
      |> (sph_enc32le · 8 σ.s2)
      |> (sph_enc32le · 12 σ.s3)
      |> (sph_enc32le · 16 σ.s4)
      |> (sph_enc32le · 20 σ.s5)
      |> (sph_enc32le · 24 σ.s6)
      |> (sph_enc32le · 28 σ.s7))
  | _ => (sc, buf)

/-! ### Reading the digest -/

/-- The first `n` 32-bit words of a buffer, each decoded little-endian: word
`i` occupies the bytes `4 * i .. 4 * i + 3`. -/
def digestWords (buf : Nat → Nat) (n : Nat) : List Nat :=
  (List.range n).map (fun i => sph_dec32le buf (4 * i))

/-- Writing the words `ws` consecutively, little-endian, from byte offset
`off`. -/
def write_words : List Nat → Nat → (Nat → Nat) → (Nat → Nat)
  | [], _, buf => buf
  | w :: ws, off, buf => write_words ws (off + 4) (sph_enc32le buf off w)

/-- The `w`-bit field of `x` that starts at bit `a`, shifted down to bit 0. -/
def bitField (x a w : Nat) : Nat := (x / 2 ^ a) % 2 ^ w

/-- Byte number `k` of a word (byte 0 is the least significant). -/
def byteOf (x k : Nat) : Nat := (x / 2 ^ (8 * k)) % 256

/-- The word whose bytes 0, 1, 2, 3 are `b0`, `b1`, `b2`, `b3`. -/
def assembleBytes (b0 b1 b2 b3 : Nat) : Nat :=
  b0 + b1 * 2 ^ 8 + b2 * 2 ^ 16 + b3 * 2 ^ 24

/-- Every chaining-state word of the context is a 32-bit word (the type
`sph_u32`). -/
def state32 (sc : sph_haval_context) : Bool :=
  decide (sc.s0 < 2 ^ 32) && decide (sc.s1 < 2 ^ 32) && decide (sc.s2 < 2 ^ 32)
    && decide (sc.s3 < 2 ^ 32) && decide (sc.s4 < 2 ^ 32) && decide (sc.s5 < 2 ^ 32)
    && decide (sc.s6 < 2 ^ 32) && decide (sc.s7 < 2 ^ 32)

/-- The bit fields of `s7` used for a 7-word digest, as (first bit, width), in
the order of the output words. -/
def fields224 : List (Nat × Nat) :=
  [(27, 5), (22, 5), (18, 4), (13, 5), (9, 4), (4, 5), (0, 4)]

/-! ### The masks of the output tailoring -/

/-- The bit-masks applied to the state word `s_word` across the output words
`0 .. olen - 1` of a digest of `olen` words, in the order of the output words
(haval.c, `mix128` with the argument orders of `haval_out`, `mix160_0 .. 4`,
`mix192_0 .. 5`, and the fields of `haval_out` for 7 words, where the mask of
`(s7 >> k) & m` is `m << k`). -/
def tailorMasks (olen word : Nat) : List Nat :=
  match olen, word with
  | 4, 4 => [0x0000FF00, 0x00FF0000, 0xFF000000, 0x000000FF]
  | 4, 5 => [0x00FF0000, 0xFF000000, 0x000000FF, 0x0000FF00]
  | 4, 6 => [0xFF000000, 0x000000FF, 0x0000FF00, 0x00FF0000]
  | 4, 7 => [0x000000FF, 0x0000FF00, 0x00FF0000, 0xFF000000]
  | 5, 5 => [0x01F80000, 0xFE000000, 0x0000003F, 0x00000FC0, 0x0007F000]
  | 5, 6 => [0xFE000000, 0x0000003F, 0x00000FC0, 0x0007F000, 0x01F80000]
  | 5, 7 => [0x0000003F, 0x00000FC0, 0x0007F000, 0x01F80000, 0xFE000000]
  | 6, 6 => [0xFC000000, 0x0000001F, 0x000003E0, 0x0000FC00, 0x001F0000, 0x03E00000]
  | 6, 7 => [0x0000001F, 0x000003E0, 0x0000FC00, 0x001F0000, 0x03E00000, 0xFC000000]
  | 7, 7 => [0xF8000000, 0x07C00000, 0x003C0000, 0x0003E000, 0x00001E00, 0x000001F0,
      0x0000000F]
  | _, _ => []

/-- The mask applied to `s_word` in output word `i` of a digest of `olen`
words. -/
def maskAt (olen word i : Nat) : Nat := (tailorMasks olen word).getD i 0

/-- The bitwise OR of a list of masks. -/
def maskUnion (ms : List Nat) : Nat := ms.foldl (fun a m => a ||| m) 0

/-- The pairs (digest size in words, extra state word) of the tailoring. -/
def tailorPairs : List (Nat × Nat) :=
  [(4, 4), (4, 5), (4, 6), (4, 7), (5, 5), (5, 6), (5, 7), (6, 6), (6, 7), (7, 7)]

/-! ## Output tailoring with the definedness of each shift

In C a shift of a 32-bit word is defined only for a count in `0 .. 31`. The
checked forms below follow the same source text as the functions above; every
shift has no value (`none`) when its count is outside that range, and a
function has a value only when all the shifts it performs have one. -/

/-- The C operator `>>` on a 32-bit word, defined for a count in `0 .. 31`. -/
def shr32 (x n : Nat) : Option Nat := if n < 32 then some (x >>> n) else none

/-- The C operator `<<` on a 32-bit word, defined for a count in `0 .. 31` (the
value before the truncation to 32 bits, which `SPH_T32` performs). -/
def shl32 (x n : Nat) : Option Nat := if n < 32 then some (x <<< n) else none

/-- The macro `SPH_ROTL32(x, n)`, which shifts `x` left by `n` and right by
`32 - n`, with the definedness of both shifts. -/
def SPH_ROTL32_checked (x n : Nat) : Option Nat := do
  let a ← shl32 x n
  let b ← shr32 x (32 - n)
  pure (SPH_T32 (a ||| b))

/-- The function `mix128`, checked. -/
def mix128_checked (a0 a1 a2 a3 n : Nat) : Option Nat :=
  let tmp := (a0 &&& SPH_C32 0x000000FF)
    ||| (a1 &&& SPH_C32 0x0000FF00)
    ||| (a2 &&& SPH_C32 0x00FF0000)
    ||| (a3 &&& SPH_C32 0xFF000000)
  if n > 0 then SPH_ROTL32_checked tmp n else some tmp

/-- The function `mix160_0`, checked. -/
def mix160_0_checked (x5 x6 x7 : Nat) : Option Nat :=
  let tmp := (x5 &&& SPH_C32 0x01F80000)
    ||| (x6 &&& SPH_C32 0xFE000000)
    ||| (x7 &&& SPH_C32 0x0000003F)
  SPH_ROTL32_checked tmp 13

/-- The function `mix160_1`, checked. -/
def mix160_1_checked (x5 x6 x7 : Nat) : Option Nat :=
  let tmp := (x5 &&& SPH_C32 0xFE000000)
    ||| (x6 &&& SPH_C32 0x0000003F)
    ||| (x7 &&& SPH_C32 0x00000FC0)
  SPH_ROTL32_checked tmp 7

/-- The function `mix160_2`, checked. -/
def mix160_2_checked (x5 x6 x7 : Nat) : Option Nat :=
  let tmp := (x5 &&& SPH_C32 0x0000003F)
    ||| (x6 &&& SPH_C32 0x00000FC0)
    ||| (x7 &&& SPH_C32 0x0007F000)
  some tmp

/-- The function `mix160_3`, checked. -/
def mix160_3_checked (x5 x6 x7 : Nat) : Option Nat :=
  let tmp := (x5 &&& SPH_C32 0x00000FC0)
    ||| (x6 &&& SPH_C32 0x0007F000)
    ||| (x7 &&& SPH_C32 0x01F80000)
  shr32 tmp 6

/-- The function `mix160_4`, checked. -/
def mix160_4_checked (x5 x6 x7 : Nat) : Option Nat :=
  let tmp := (x5 &&& SPH_C32 0x0007F000)
    ||| (x6 &&& SPH_C32 0x01F80000)
    ||| (x7 &&& SPH_C32 0xFE000000)
  shr32 tmp 12

/-- The function `mix192_0`, checked. -/
def mix192_0_checked (x6 x7 : Nat) : Option Nat :=
  let tmp := (x6 &&& SPH_C32 0xFC000000) ||| (x7 &&& SPH_C32 0x0000001F)
  SPH_ROTL32_checked tmp 12

/-- The function `mix192_1`, checked. -/
def mix192_1_checked (x6 x7 : Nat) : Option Nat :=
  some ((x6 &&& SPH_C32 0x0000001F) ||| (x7 &&& SPH_C32 0x000003E0))

/-- The function `mix192_2`, checked. -/
def mix192_2_checked (x6 x7 : Nat) : Option Nat :=
  shr32 ((x6 &&& SPH_C32 0x000003E0) ||| (x7 &&& SPH_C32 0x0000FC00)) 10

/-- The function `mix192_3`, checked. -/
def mix192_3_checked (x6 x7 : Nat) : Option Nat :=
  shr32 ((x6 &&& SPH_C32 0x0000FC00) ||| (x7 &&& SPH_C32 0x001F0000)) 20

/-- The function `mix192_4`, checked. -/
def mix192_4_checked (x6 x7 : Nat) : Option Nat :=
  shr32 ((x6 &&& SPH_C32 0x001F0000) ||| (x7 &&& SPH_C32 0x03E00000)) 32

/-- The function `mix192_5`, checked. -/
def mix192_5_checked (x6 x7 : Nat) : Option Nat :=
  shr32 ((x6 &&& SPH_C32 0x03E00000) ||| (x7 &&& SPH_C32 0xFC000000)) 42

/-- The function `haval_out`, checked: it has a value when every shift and
rotation it performs is defined. -/
def haval_out_checked (sc : sph_haval_context) (dst : Nat → Nat) :
    Option (sph_haval_context × (Nat → Nat)) :=
  let buf := dst
  let σ := RSTATE sc
  match sc.olen with
  | 4 => do
    let m0 ← mix128_checked σ.s7 σ.s4 σ.s5 σ.s6 24
    let buf := sph_enc32le buf 0 (SPH_T32 (σ.s0 + m0))
    let m1 ← mix128_checked σ.s6 σ.s7 σ.s4 σ.s5 16
    let buf := sph_enc32le buf 4 (SPH_T32 (σ.s1 + m1))
    let m2 ← mix128_checked σ.s5 σ.s6 σ.s7 σ.s4 8
    let buf := sph_enc32le buf 8 (SPH_T32 (σ.s2 + m2))
    let m3 ← mix128_checked σ.s4 σ.s5 σ.s6 σ.s7 0
    let buf := sph_enc32le buf 12 (SPH_T32 (σ.s3 + m3))
    pure (sc, buf)
  | 5 => do
    let m0 ← mix160_0_checked σ.s5 σ.s6 σ.s7
    let buf := sph_enc32le buf 0 (SPH_T32 (σ.s0 + m0))
    let m1 ← mix160_1_checked σ.s5 σ.s6 σ.s7
    let buf := sph_enc32le buf 4 (SPH_T32 (σ.s1 + m1))
    let m2 ← mix160_2_checked σ.s5 σ.s6 σ.s7
    let buf := sph_enc32le buf 8 (SPH_T32 (σ.s2 + m2))
    let m3 ← mix160_3_checked σ.s5 σ.s6 σ.s7
    let buf := sph_enc32le buf 12 (SPH_T32 (σ.s3 + m3))
    let m4 ← mix160_4_checked σ.s5 σ.s6 σ.s7
    let buf := sph_enc32le buf 16 (SPH_T32 (σ.s4 + m4))
    pure (sc, buf)
  | 6 => do
    let m0 ← mix192_0_checked σ.s6 σ.s7
    let buf := sph_enc32le buf 0 (SPH_T32 (σ.s0 + m0))
    let m1 ← mix192_1_checked σ.s6 σ.s7
    let buf := sph_enc32le buf 4 (SPH_T32 (σ.s1 + m1))
    let m2 ← mix192_2_checked σ.s6 σ.s7
    let buf := sph_enc32le buf 8 (SPH_T32 (σ.s2 + m2))
    let m3 ← mix192_3_checked σ.s6 σ.s7
    let buf := sph_enc32le buf 12 (SPH_T32 (σ.s3 + m3))
    let m4 ← mix192_4_checked σ.s6 σ.s7
    let buf := sph_enc32le buf 16 (SPH_T32 (σ.s4 + m4))
    let m5 ← mix192_5_checked σ.s6 σ.s7
    let buf := sph_enc32le buf 20 (SPH_T32 (σ.s5 + m5))
    pure (sc, buf)
  | 7 => do
    let f0 ← shr32 σ.s7 27
    let buf := sph_enc32le buf 0 (SPH_T32 (σ.s0 + (f0 &&& 0x1F)))
    let f1 ← shr32 σ.s7 22
    let buf := sph_enc32le buf 4 (SPH_T32 (σ.s1 + (f1 &&& 0x1F)))
    let f2 ← shr32 σ.s7 18
    let buf := sph_enc32le buf 8 (SPH_T32 (σ.s2 + (f2 &&& 0x0F)))
    let f3 ← shr32 σ.s7 13
    let buf := sph_enc32le buf 12 (SPH_T32 (σ.s3 + (f3 &&& 0x1F)))
    let f4 ← shr32 σ.s7 9
    let buf := sph_enc32le buf 16 (SPH_T32 (σ.s4 + (f4 &&& 0x0F)))
    let f5 ← shr32 σ.s7 4
    let buf := sph_enc32le buf 20 (SPH_T32 (σ.s5 + (f5 &&& 0x1F)))
    let buf := sph_enc32le buf 24 (SPH_T32 (σ.s6 + (σ.s7 &&& 0x0F)))
    pure (sc, buf)
  | 8 =>
    some (sc, buf
      |> (sph_enc32le · 0 σ.s0)
      |> (sph_enc32le · 4 σ.s1)
      |> (sph_enc32le · 8 σ.s2)
      |> (sph_enc32le · 12 σ.s3)
      |> (sph_enc32le · 16 σ.s4)
      |> (sph_enc32le · 20 σ.s5)
      |> (sph_enc32le · 24 σ.s6)
      |> (sph_enc32le · 28 σ.s7))
  | _ => some (sc, buf)

/-! ## The schedules as data and the rotating window -/

/-- The variable `s_i`, the number `i` taken modulo 8. -/
def regOf (i : Nat) : Reg :=
  match i % 8 with
  | 0 => .s0
  | 1 => .s1
  | 2 => .s2
  | 3 => .s3
  | 4 => .s4
  | 5 => .s5
  | 6 => .s6
  | _ => .s7

/-- The variable that step `j` of a pass (`j = 0, 1, ...`) gives to `STEP` as its
argument `x_k`: the variable `s_((k - j) mod 8)`. -/
def windowReg (j k : Nat) : Reg := regOf (k + 8 - j % 8)

/-- Step `j` of pass `p` in rotating-window form: one `STEP` on the variables
`windowReg j 7 .. windowReg j 0`, with message word `w` and constant `c`. -/
def windowStep (n p j w c : Nat) (σ : Regs) : Regs :=
  STEP n p (windowReg j 7) (windowReg j 6) (windowReg j 5) (windowReg j 4)
    (windowReg j 3) (windowReg j 2) (windowReg j 1) (windowReg j 0) w c σ

/-- The steps `j`, `j + 1`, ... of pass `p`, one per entry (message index,
constant) of the list, in order. -/
def runFrom (n p : Nat) (inw : Nat → Nat) : Nat → List (Nat × Nat) → Regs → Regs
  | _, [], σ => σ
  | j, e :: es, σ => runFrom n p inw (j + 1) es (windowStep n p j (inw e.1) e.2 σ)

/-- A pass given by its schedule: step `j` is `windowStep` with entry `j`. -/
def runSchedule (n p : Nat) (sched : List (Nat × Nat)) (inw : Nat → Nat) (σ : Regs) : Regs :=
  runFrom n p inw 0 sched σ

/-- The schedule of the unrolled pass `p`: for each of its 32 steps, in order, the
index of the message word and the constant that the step is given (haval.c,
lines 587-775). -/
def Unrolled.schedule : Nat → List (Nat × Nat)
  | 1 =>
    [
      ( 0, 0x00000000), ( 1, 0x00000000), ( 2, 0x00000000), ( 3, 0x00000000),
      ( 4, 0x00000000), ( 5, 0x00000000), ( 6, 0x00000000), ( 7, 0x00000000),
      ( 8, 0x00000000), ( 9, 0x00000000), (10, 0x00000000), (11, 0x00000000),
      (12, 0x00000000), (13, 0x00000000), (14, 0x00000000), (15, 0x00000000),
      (16, 0x00000000), (17, 0x00000000), (18, 0x00000000), (19, 0x00000000),
      (20, 0x00000000), (21, 0x00000000), (22, 0x00000000), (23, 0x00000000),
      (24, 0x00000000), (25, 0x00000000), (26, 0x00000000), (27, 0x00000000),
      (28, 0x00000000), (29, 0x00000000), (30, 0x00000000), (31, 0x00000000)]
  | 2 =>
    [
      ( 5, 0x452821E6), (14, 0x38D01377), (26, 0xBE5466CF), (18, 0x34E90C6C),
      (11, 0xC0AC29B7), (28, 0xC97C50DD), ( 7, 0x3F84D5B5), (16, 0xB5470917),
      ( 0, 0x9216D5D9), (23, 0x8979FB1B), (20, 0xD1310BA6), (22, 0x98DFB5AC),
      ( 1, 0x2FFD72DB), (10, 0xD01ADFB7), ( 4, 0xB8E1AFED), ( 8, 0x6A267E96),
      (30, 0xBA7C9045), ( 3, 0xF12C7F99), (21, 0x24A19947), ( 9, 0xB3916CF7),
      (17, 0x0801F2E2), (24, 0x858EFC16), (29, 0x636920D8), ( 6, 0x71574E69),
      (19, 0xA458FEA3), (12, 0xF4933D7E), (15, 0x0D95748F), (13, 0x728EB658),
      ( 2, 0x718BCD58), (25, 0x82154AEE), (31, 0x7B54A41D), (27, 0xC25A59B5)]
  | 3 =>
    [
      (19, 0x9C30D539), ( 9, 0x2AF26013), ( 4, 0xC5D1B023), (20, 0x286085F0),
      (28, 0xCA417918), (17, 0xB8DB38EF), ( 8, 0x8E79DCB0), (22, 0x603A180E),
      (29, 0x6C9E0E8B), (14, 0xB01E8A3E), (25, 0xD71577C1), (12, 0xBD314B27),
      (24, 0x78AF2FDA), (30, 0x55605C60), (16, 0xE65525F3), (26, 0xAA55AB94),
      (31, 0x57489862), (15, 0x63E81440), ( 7, 0x55CA396A), ( 3, 0x2AAB10B6),
      ( 1, 0xB4CC5C34), ( 0, 0x1141E8CE), (18, 0xA15486AF), (27, 0x7C72E993),
      (13, 0xB3EE1411), ( 6, 0x636FBC2A), (21, 0x2BA9C55D), (10, 0x741831F6),
      (23, 0xCE5C3E16), (11, 0x9B87931E), ( 5, 0xAFD6BA33), ( 2, 0x6C24CF5C)]
  | 4 =>
    [
      (24, 0x7A325381), ( 4, 0x28958677), ( 0, 0x3B8F4898), (14, 0x6B4BB9AF),
      ( 2, 0xC4BFE81B), ( 7, 0x66282193), (28, 0x61D809CC), (23, 0xFB21A991),
      (26, 0x487CAC60), ( 6, 0x5DEC8032), (30, 0xEF845D5D), (20, 0xE98575B1),
      (18, 0xDC262302), (25, 0xEB651B88), (19, 0x23893E81), ( 3, 0xD396ACC5),
      (22, 0x0F6D6FF3), (11, 0x83F44239), (31, 0x2E0B4482), (21, 0xA4842004),
      ( 8, 0x69C8F04A), (27, 0x9E1F9B5E), (12, 0x21C66842), ( 9, 0xF6E96C9A),
      ( 1, 0x670C9C61), (29, 0xABD388F0), ( 5, 0x6A51A0D2), (15, 0xD8542F68),
      (17, 0x960FA728), (10, 0xAB5133A3), (16, 0x6EEF0B6C), (13, 0x137A3BE4)]
  | 5 =>
    [
      (27, 0xBA3BF050), ( 3, 0x7EFB2A98), (21, 0xA1F1651D), (26, 0x39AF0176),
      (17, 0x66CA593E), (11, 0x82430E88), (20, 0x8CEE8619), (29, 0x456F9FB4),
      (19, 0x7D84A5C3), ( 0, 0x3B8B5EBE), (12, 0xE06F75D8), ( 7, 0x85C12073),
      (13, 0x401A449F), ( 8, 0x56C16AA6), (31, 0x4ED3AA62), (10, 0x363F7706),
      ( 5, 0x1BFEDF72), ( 9, 0x429B023D), (14, 0x37D0D724), (30, 0xD00A1248),
      (18, 0xDB0FEAD3), ( 6, 0x49F1C09B), (28, 0x075372C9), (24, 0x80991B7B),
      ( 2, 0x25D479D8), (23, 0xF6E8DEF7), (16, 0xE3FE501A), (22, 0xB6794C3B),
      ( 4, 0x976CE0BD), ( 1, 0x04C006BA), (25, 0xC1A94FB6), (15, 0x409F60C4)]
  | _ => []

/-- The schedule that the table-driven pass `PASSG` takes from its tables: entry
`j` of `MPp` and of `RKp`, for `j = 0 .. 31`. -/
def SmallFootprint.tableSchedule (MPp RKp : List Nat) : List (Nat × Nat) :=
  (List.range 32).map (fun j => (MPp.getD j 0, RKp.getD j 0))

/-- One step on an array of eight registers `r0 .. r7` (the fields `s0 .. s7` of
the record): the new word is computed from `r7`, the oldest, and `r0 .. r6`;
then the window is rotated by one position, the new word becoming `r0` and
`r0 .. r6` becoming `r1 .. r7`. -/
def arrayStep (n p w c : Nat) (r : Regs) : Regs :=
  { s0 := SPH_T32 (SPH_ROTR32 (FP n p r.s6 r.s5 r.s4 r.s3 r.s2 r.s1 r.s0) 7
      + SPH_ROTR32 r.s7 11 + w + c),
    s1 := r.s0, s2 := r.s1, s3 := r.s2, s4 := r.s3, s5 := r.s4, s6 := r.s5, s7 := r.s6 }

/-- A pass on the array of registers: one `arrayStep` per entry of the
schedule. -/
def runArray (n p : Nat) (sched : List (Nat × Nat)) (inw : Nat → Nat) (r : Regs) : Regs :=
  sched.foldl (fun r e => arrayStep n p (inw e.1) e.2 r) r

/-- The window rotated by one position: `r0` receives `s7` and `r1 .. r7` receive
`s0 .. s6`. -/
def rotWin (τ : Regs) : Regs :=
  { s0 := τ.s7, s1 := τ.s0, s2 := τ.s1, s3 := τ.s2, s4 := τ.s3, s5 := τ.s4, s6 := τ.s5,
    s7 := τ.s6 }

/-- The variable before `r` in the cyclic order `s0, s1, ..., s7`. -/
def prevReg : Reg → Reg
  | .s0 => .s7
  | .s1 => .s0
  | .s2 => .s1
  | .s3 => .s2
  | .s4 => .s3
  | .s5 => .s4
  | .s6 => .s5
  | .s7 => .s6


/-- The schedule of pass `p` in the small-footprint build: pass 1 reads
`in(pass_count + k)` with the constant 0, passes 2 to 5 read their tables. -/
def SmallFootprint.schedule : Nat → List (Nat × Nat)
  | 1 => (List.range 32).map (fun j => (j, SPH_C32 0x00000000))
  | 2 => tableSchedule MP2 RK2
  | 3 => tableSchedule MP3 RK3
  | 4 => tableSchedule MP4 RK4
  | 5 => tableSchedule MP5 RK5
  | _ => []

/-- The schedule of pass `p` in the build selected by `small`. -/
def schedule (small : Bool) (p : Nat) : List (Nat × Nat) :=
  if small then SmallFootprint.schedule p else Unrolled.schedule p

/-- The steps of pass `p` from step number `j` on, one entry (pass, step number,
message index, constant) per `STEP`. -/
def traceFrom (p : Nat) : Nat → List (Nat × Nat) → List (Nat × Nat × Nat × Nat)
  | _, [] => []
  | j, e :: es => (p, j, e.1, e.2) :: traceFrom p (j + 1) es

/-- The steps of the passes `1 .. k`, in the order of execution. -/
def coreTrace (small : Bool) : Nat → List (Nat × Nat × Nat × Nat)
  | 0 => []
  | k + 1 => coreTrace small k ++ traceFrom (k + 1) 0 (schedule small (k + 1))

/-- Running a list of steps: one `STEP` (in rotating-window form) per entry. -/
def runTrace (n : Nat) (inw : Nat → Nat) (tr : List (Nat × Nat × Nat × Nat)) (σ : Regs) :
    Regs :=
  tr.foldl (fun σ t => windowStep n t.1 t.2.1 (inw t.2.2.1) t.2.2.2 σ) σ

/-! ### The wiring of the boolean functions -/

/-- The wiring of `FPn_p`: the list of the indices `i` of the arguments `x_i`
that `FPn_p(x6, ..., x0)` passes to `F_p`, in the order of the parameters
`x6, ..., x0` of `F_p` (haval.c, lines 123-148). -/
def phi : Nat → Nat → List Nat
  | 3, 1 => [1, 0, 3, 5, 6, 2, 4]
  | 3, 2 => [4, 2, 1, 0, 5, 3, 6]
  | 3, 3 => [6, 1, 2, 3, 4, 5, 0]
  | 4, 1 => [2, 6, 1, 4, 5, 3, 0]
  | 4, 2 => [3, 5, 2, 0, 1, 6, 4]
  | 4, 3 => [1, 4, 3, 6, 0, 2, 5]
  | 4, 4 => [6, 4, 0, 5, 2, 1, 3]
  | 5, 1 => [3, 4, 1, 0, 5, 2, 6]
  | 5, 2 => [6, 2, 1, 0, 3, 4, 5]
  | 5, 3 => [2, 6, 0, 4, 3, 1, 5]
  | 5, 4 => [1, 5, 3, 2, 0, 4, 6]
  | 5, 5 => [2, 5, 0, 6, 4, 3, 1]
  | _, _ => []

/-- The wiring as a map on `{0 .. 6}`: the parameter `x_i` of `F_p` receives the
argument `x_(sigma i)` of `FPn_p`. -/
def phiFin (n p : Nat) (i : Fin 7) : Fin 7 :=
  ⟨(phi n p).getD (6 - i.val) 0 % 7, Nat.mod_lt _ (by decide)⟩

/-- The boolean function of pass `p`. -/
def Fsel (p : Nat) (x6 x5 x4 x3 x2 x1 x0 : Nat) : Nat :=
  match p with
  | 1 => F1 x6 x5 x4 x3 x2 x1 x0
  | 2 => F2 x6 x5 x4 x3 x2 x1 x0
  | 3 => F3 x6 x5 x4 x3 x2 x1 x0
  | 4 => F4 x6 x5 x4 x3 x2 x1 x0
  | 5 => F5 x6 x5 x4 x3 x2 x1 x0
  | _ => 0

/-- The pairs (pass count, pass index) for which a macro `FPn_p` exists. -/
def passPairs : List (Nat × Nat) :=
  [(3, 1), (3, 2), (3, 3), (4, 1), (4, 2), (4, 3), (4, 4),
    (5, 1), (5, 2), (5, 3), (5, 4), (5, 5)]

/-! ## The public initialisation functions (haval.c, lines 1137-1177) -/

/-- The function `sph_haval ## xxx ## _ ## y ## _init(cc)` that the macro
`API(xxx, y)` defines: the context `*cc` on return. The flag `sph64` is the
value of `SPH_64`. -/
def API_init (sph64 : Bool) (xxx y : Nat) (cc : sph_haval_context) : sph_haval_context :=
  haval_init sph64 cc (xxx >>> 5) y

/-- The function `sph_haval128_3_init(cc)`, from `API(128, 3)`. -/
def sph_haval128_3_init (sph64 : Bool) (cc : sph_haval_context) : sph_haval_context :=
  API_init sph64 128 3 cc
/-- The function `sph_haval128_4_init(cc)`, from `API(128, 4)`. -/
def sph_haval128_4_init (sph64 : Bool) (cc : sph_haval_context) : sph_haval_context :=
  API_init sph64 128 4 cc
/-- The function `sph_haval128_5_init(cc)`, from `API(128, 5)`. -/
def sph_haval128_5_init (sph64 : Bool) (cc : sph_haval_context) : sph_haval_context :=
  API_init sph64 128 5 cc
/-- The function `sph_haval160_3_init(cc)`, from `API(160, 3)`. -/
def sph_haval160_3_init (sph64 : Bool) (cc : sph_haval_context) : sph_haval_context :=
  API_init sph64 160 3 cc
/-- The function `sph_haval160_4_init(cc)`, from `API(160, 4)`. -/
def sph_haval160_4_init (sph64 : Bool) (cc : sph_haval_context) : sph_haval_context :=
  API_init sph64 160 4 cc
/-- The function `sph_haval160_5_init(cc)`, from `API(160, 5)`. -/
def sph_haval160_5_init (sph64 : Bool) (cc : sph_haval_context) : sph_haval_context :=
  API_init sph64 160 5 cc
/-- The function `sph_haval192_3_init(cc)`, from `API(192, 3)`. -/
def sph_haval192_3_init (sph64 : Bool) (cc : sph_haval_context) : sph_haval_context :=
  API_init sph64 192 3 cc
/-- The function `sph_haval192_4_init(cc)`, from `API(192, 4)`. -/
def sph_haval192_4_init (sph64 : Bool) (cc : sph_haval_context) : sph_haval_context :=
  API_init sph64 192 4 cc
/-- The function `sph_haval192_5_init(cc)`, from `API(192, 5)`. -/
def sph_haval192_5_init (sph64 : Bool) (cc : sph_haval_context) : sph_haval_context :=
  API_init sph64 192 5 cc
/-- The function `sph_haval224_3_init(cc)`, from `API(224, 3)`. -/
def sph_haval224_3_init (sph64 : Bool) (cc : sph_haval_context) : sph_haval_context :=
  API_init sph64 224 3 cc
/-- The function `sph_haval224_4_init(cc)`, from `API(224, 4)`. -/
def sph_haval224_4_init (sph64 : Bool) (cc : sph_haval_context) : sph_haval_context :=
  API_init sph64 224 4 cc
/-- The function `sph_haval224_5_init(cc)`, from `API(224, 5)`. -/
def sph_haval224_5_init (sph64 : Bool) (cc : sph_haval_context) : sph_haval_context :=
  API_init sph64 224 5 cc
/-- The function `sph_haval256_3_init(cc)`, from `API(256, 3)`. -/
def sph_haval256_3_init (sph64 : Bool) (cc : sph_haval_context) : sph_haval_context :=
  API_init sph64 256 3 cc
/-- The function `sph_haval256_4_init(cc)`, from `API(256, 4)`. -/
def sph_haval256_4_init (sph64 : Bool) (cc : sph_haval_context) : sph_haval_context :=
  API_init sph64 256 4 cc
/-- The function `sph_haval256_5_init(cc)`, from `API(256, 5)`. -/
def sph_haval256_5_init (sph64 : Bool) (cc : sph_haval_context) : sph_haval_context :=
  API_init sph64 256 5 cc

/-- The fifteen instances `API(xxx, y)` of the file, in its order: the digest
length in bits, the pass count and the initialisation function defined. -/
def apiInits : List (Nat × Nat × (Bool → sph_haval_context → sph_haval_context)) :=
  [(128, 3, sph_haval128_3_init), (128, 4, sph_haval128_4_init),
    (128, 5, sph_haval128_5_init), (160, 3, sph_haval160_3_init),
    (160, 4, sph_haval160_4_init), (160, 5, sph_haval160_5_init),
    (192, 3, sph_haval192_3_init), (192, 4, sph_haval192_4_init),
    (192, 5, sph_haval192_5_init), (224, 3, sph_haval224_3_init),
    (224, 4, sph_haval224_4_init), (224, 5, sph_haval224_5_init),
    (256, 3, sph_haval256_3_init), (256, 4, sph_haval256_4_init),
    (256, 5, sph_haval256_5_init)]

/-! ## The pass network of the core -/

/-- The passes of `COREn(in)`, between `SAVE_STATE` and `UPDATE_STATE`:
`PASS1(n, in); ...; PASSn(n, in)` for `n` in `3 .. 5` (haval.c, lines 809-834);
no macro `COREn` exists for another `n`, and the registers are left as they
are. -/
def passNetwork (small : Bool) (n : Nat) (inw : Nat → Nat) (σ : Regs) : Regs :=
  match n with
  | 3 =>
    let σ := PASS1 small 3 inw σ
    let σ := PASS2 small 3 inw σ
    PASS3 small 3 inw σ
  | 4 =>
    let σ := PASS1 small 4 inw σ
    let σ := PASS2 small 4 inw σ
    let σ := PASS3 small 4 inw σ
    PASS4 small 4 inw σ
  | 5 =>
    let σ := PASS1 small 5 inw σ
    let σ := PASS2 small 5 inw σ
    let σ := PASS3 small 5 inw σ
    let σ := PASS4 small 5 inw σ
    PASS5 small 5 inw σ
  | _ => σ

/-- The eight registers hold 32-bit words. -/
def Regs.isWord32 (σ : Regs) : Prop :=
  σ.s0 < 2 ^ 32 ∧ σ.s1 < 2 ^ 32 ∧ σ.s2 < 2 ^ 32 ∧ σ.s3 < 2 ^ 32
    ∧ σ.s4 < 2 ^ 32 ∧ σ.s5 < 2 ^ 32 ∧ σ.s6 < 2 ^ 32 ∧ σ.s7 < 2 ^ 32

/-- Modelled from the spec: the inverse of one `STEP`, as the claim words it,
`x7_old = rotate_left(x7_new - rotate_right(FPn_p(x6..x0), 7) - w - c, 11)`,
the subtractions taken modulo `2 ^ 32`. -/
def STEP_inv (n p : Nat) (x7 x6 x5 x4 x3 x2 x1 x0 : Reg) (w c : Nat) (σ : Regs) : Regs :=
  let t := FP n p (σ.get x6) (σ.get x5) (σ.get x4) (σ.get x3) (σ.get x2) (σ.get x1) (σ.get x0)
  σ.set x7 (SPH_ROTL32
    ((((σ.get x7 : Nat) : Int) - ((SPH_ROTR32 t 7 : Nat) : Int) - (w : Int) - (c : Int))
      % 2 ^ 32).toNat 11)

/-- Modelled from the spec: step `j` of a pass undone, `STEP_inv` on the
variables of `windowStep`. -/
def windowStep_inv (n p j w c : Nat) (σ : Regs) : Regs :=
  STEP_inv n p (windowReg j 7) (windowReg j 6) (windowReg j 5) (windowReg j 4)
    (windowReg j 3) (windowReg j 2) (windowReg j 1) (windowReg j 0) w c σ

/-- Modelled from the spec: the steps `j`, `j + 1`, ... of a pass undone, the
last one first. -/
def runFrom_inv (n p : Nat) (inw : Nat → Nat) : Nat → List (Nat × Nat) → Regs → Regs
  | _, [], σ => σ
  | j, e :: es, σ => windowStep_inv n p j (inw e.1) e.2 (runFrom_inv n p inw (j + 1) es σ)

/-- Modelled from the spec: the pass network undone, the passes `n, ..., 1` in
this order, each with the schedule of the build. -/
def passNetwork_inv (small : Bool) (n : Nat) (inw : Nat → Nat) (σ : Regs) : Regs :=
  match n with
  | 3 =>
    let σ := runFrom_inv 3 3 inw 0 (schedule small 3) σ
    let σ := runFrom_inv 3 2 inw 0 (schedule small 2) σ
    runFrom_inv 3 1 inw 0 (schedule small 1) σ
  | 4 =>
    let σ := runFrom_inv 4 4 inw 0 (schedule small 4) σ
    let σ := runFrom_inv 4 3 inw 0 (schedule small 3) σ
    let σ := runFrom_inv 4 2 inw 0 (schedule small 2) σ
    runFrom_inv 4 1 inw 0 (schedule small 1) σ
  | 5 =>
    let σ := runFrom_inv 5 5 inw 0 (schedule small 5) σ
    let σ := runFrom_inv 5 4 inw 0 (schedule small 4) σ
    let σ := runFrom_inv 5 3 inw 0 (schedule small 3) σ
    let σ := runFrom_inv 5 2 inw 0 (schedule small 2) σ
    runFrom_inv 5 1 inw 0 (schedule small 1) σ
  | _ => σ

theorem testBit_mask32 (i : Nat) : Nat.testBit 0xFFFFFFFF i = decide (i < 32) := by
  have h : (0xFFFFFFFF : Nat) = 2 ^ 32 - 1 := by norm_num
  rw [h, Nat.testBit_two_pow_sub_one]

theorem testBit_not32 (x i : Nat) :
    (not32 x).testBit i = xor (x.testBit i) (decide (i < 32)) := by
  unfold not32
  rw [Nat.testBit_xor, testBit_mask32]

theorem testBit_word_high {x i : Nat} (hx : x < 2 ^ 32) (hi : 32 ≤ i) :
    x.testBit i = false :=
  Nat.testBit_lt_two_pow (lt_of_lt_of_le hx (Nat.pow_le_pow_right (by norm_num) hi))

theorem not32_lt {x : Nat} (hx : x < 2 ^ 32) : not32 x < 2 ^ 32 :=
  Nat.xor_lt_two_pow hx (by norm_num)

/-- Bit `i` of every lane function on a 32-bit lane, for `F1`. -/
theorem F1_testBit (x6 x5 x4 x3 x2 x1 x0 i : Nat) :
    (F1 x6 x5 x4 x3 x2 x1 x0).testBit i
      = F1_lane (x6.testBit i) (x5.testBit i) (x4.testBit i) (x3.testBit i)
          (x2.testBit i) (x1.testBit i) (x0.testBit i) := by
  simp only [F1, F1_lane, Nat.testBit_xor, Nat.testBit_and]

theorem F2_testBit (x6 x5 x4 x3 x2 x1 x0 i : Nat) (hi : i < 32) :
    (F2 x6 x5 x4 x3 x2 x1 x0).testBit i
      = F2_lane (x6.testBit i) (x5.testBit i) (x4.testBit i) (x3.testBit i)
          (x2.testBit i) (x1.testBit i) (x0.testBit i) := by
  simp only [F2, F2_lane, Nat.testBit_xor, Nat.testBit_and, testBit_not32, hi, decide_True,
    Bool.xor_true]

theorem F3_testBit (x6 x5 x4 x3 x2 x1 x0 i : Nat) :
    (F3 x6 x5 x4 x3 x2 x1 x0).testBit i
      = F3_lane (x6.testBit i) (x5.testBit i) (x4.testBit i) (x3.testBit i)
          (x2.testBit i) (x1.testBit i) (x0.testBit i) := by
  simp only [F3, F3_lane, Nat.testBit_xor, Nat.testBit_and]

theorem F4_testBit (x6 x5 x4 x3 x2 x1 x0 i : Nat) (hi : i < 32) :
    (F4 x6 x5 x4 x3 x2 x1 x0).testBit i
      = F4_lane (x6.testBit i) (x5.testBit i) (x4.testBit i) (x3.testBit i)
          (x2.testBit i) (x1.testBit i) (x0.testBit i) := by
  simp only [F4, F4_lane, Nat.testBit_xor, Nat.testBit_and, Nat.testBit_or, testBit_not32, hi,
    decide_True, Bool.xor_true]

theorem F5_testBit (x6 x5 x4 x3 x2 x1 x0 i : Nat) (hi : i < 32) :
    (F5 x6 x5 x4 x3 x2 x1 x0).testBit i
      = F5_lane (x6.testBit i) (x5.testBit i) (x4.testBit i) (x3.testBit i)
          (x2.testBit i) (x1.testBit i) (x0.testBit i) := by
  simp only [F5, F5_lane, Nat.testBit_xor, Nat.testBit_and, testBit_not32, hi, decide_True,
    Bool.xor_true]

/-! ### Results of the boolean functions are 32-bit words -/

theorem F1_lt {x6 x5 x4 x3 x2 x1 x0 : Nat} (h6 : x6 < 2 ^ 32) (h5 : x5 < 2 ^ 32)
    (h4 : x4 < 2 ^ 32) (h3 : x3 < 2 ^ 32) (h2 : x2 < 2 ^ 32) (h1 : x1 < 2 ^ 32)
    (h0 : x0 < 2 ^ 32) : F1 x6 x5 x4 x3 x2 x1 x0 < 2 ^ 32 := by
  apply Nat.lt_pow_two_of_testBit
  intro i hi
  have hn : ¬ i < 32 := Nat.not_lt_of_ge hi
  simp [F1, testBit_not32, hn, testBit_word_high h6 hi, testBit_word_high h5 hi,
    testBit_word_high h4 hi, testBit_word_high h3 hi, testBit_word_high h2 hi,
    testBit_word_high h1 hi, testBit_word_high h0 hi]

theorem F2_lt {x6 x5 x4 x3 x2 x1 x0 : Nat} (h6 : x6 < 2 ^ 32) (h5 : x5 < 2 ^ 32)
    (h4 : x4 < 2 ^ 32) (h3 : x3 < 2 ^ 32) (h2 : x2 < 2 ^ 32) (h1 : x1 < 2 ^ 32)
    (h0 : x0 < 2 ^ 32) : F2 x6 x5 x4 x3 x2 x1 x0 < 2 ^ 32 := by
  apply Nat.lt_pow_two_of_testBit
  intro i hi
  have hn : ¬ i < 32 := Nat.not_lt_of_ge hi
  simp [F2, testBit_not32, hn, testBit_word_high h6 hi, testBit_word_high h5 hi,
    testBit_word_high h4 hi, testBit_word_high h3 hi, testBit_word_high h2 hi,
    testBit_word_high h1 hi, testBit_word_high h0 hi]

theorem F3_lt {x6 x5 x4 x3 x2 x1 x0 : Nat} (h6 : x6 < 2 ^ 32) (h5 : x5 < 2 ^ 32)
    (h4 : x4 < 2 ^ 32) (h3 : x3 < 2 ^ 32) (h2 : x2 < 2 ^ 32) (h1 : x1 < 2 ^ 32)
    (h0 : x0 < 2 ^ 32) : F3 x6 x5 x4 x3 x2 x1 x0 < 2 ^ 32 := by
  apply Nat.lt_pow_two_of_testBit
  intro i hi
  have hn : ¬ i < 32 := Nat.not_lt_of_ge hi
  simp [F3, testBit_not32, hn, testBit_word_high h6 hi, testBit_word_high h5 hi,
    testBit_word_high h4 hi, testBit_word_high h3 hi, testBit_word_high h2 hi,
    testBit_word_high h1 hi, testBit_word_high h0 hi]

theorem F4_lt {x6 x5 x4 x3 x2 x1 x0 : Nat} (h6 : x6 < 2 ^ 32) (h5 : x5 < 2 ^ 32)
    (h4 : x4 < 2 ^ 32) (h3 : x3 < 2 ^ 32) (h2 : x2 < 2 ^ 32) (h1 : x1 < 2 ^ 32)
    (h0 : x0 < 2 ^ 32) : F4 x6 x5 x4 x3 x2 x1 x0 < 2 ^ 32 := by
  apply Nat.lt_pow_two_of_testBit
  intro i hi
  have hn : ¬ i < 32 := Nat.not_lt_of_ge hi
  simp [F4, testBit_not32, hn, testBit_word_high h6 hi, testBit_word_high h5 hi,
    testBit_word_high h4 hi, testBit_word_high h3 hi, testBit_word_high h2 hi,
    testBit_word_high h1 hi, testBit_word_high h0 hi]

theorem F5_lt {x6 x5 x4 x3 x2 x1 x0 : Nat} (h6 : x6 < 2 ^ 32) (h5 : x5 < 2 ^ 32)
    (h4 : x4 < 2 ^ 32) (h3 : x3 < 2 ^ 32) (h2 : x2 < 2 ^ 32) (h1 : x1 < 2 ^ 32)
    (h0 : x0 < 2 ^ 32) : F5 x6 x5 x4 x3 x2 x1 x0 < 2 ^ 32 := by
  apply Nat.lt_pow_two_of_testBit
  intro i hi
  have hn : ¬ i < 32 := Nat.not_lt_of_ge hi
  simp [F5, testBit_not32, hn, testBit_word_high h6 hi, testBit_word_high h5 hi,
    testBit_word_high h4 hi, testBit_word_high h3 hi, testBit_word_high h2 hi,
    testBit_word_high h1 hi, testBit_word_high h0 hi]

/-! ### Rotation of a 32-bit word, bit by bit -/

theorem SPH_T32_lt (x : Nat) : SPH_T32 x < 2 ^ 32 :=
  Nat.mod_lt _ (by norm_num)

theorem SPH_ROTL32_lt (x n : Nat) : SPH_ROTL32 x n < 2 ^ 32 :=
  SPH_T32_lt _

/-- Bit `i` of the rotation to the left by `r` is bit `(i + 32 - r) mod 32` of
the rotated word. -/
theorem testBit_SPH_ROTL32 {x r i : Nat} (hx : x < 2 ^ 32) (hr : r < 32) (hi : i < 32) :
    (SPH_ROTL32 x r).testBit i = x.testBit ((i + 32 - r) % 32) := by
  unfold SPH_ROTL32 SPH_T32
  rw [Nat.testBit_mod_two_pow, Nat.testBit_or, Nat.testBit_shiftLeft, Nat.testBit_shiftRight]
  by_cases h : r ≤ i
  · have e : (i + 32 - r) % 32 = i - r := by omega
    have hz : x.testBit (32 - r + i) = false := testBit_word_high hx (by omega)
    simp [hi, h, e, hz]
  · have e : (i + 32 - r) % 32 = 32 - r + i := by omega
    simp [hi, h, e]

/-- The modelled `SPH_ROTR32` is the rotation to the right: bit `i` of the
result is bit `(i + n) mod 32` of the rotated word. -/
theorem testBit_SPH_ROTR32 {x n i : Nat} (hx : x < 2 ^ 32) (hn0 : 0 < n) (hn : n < 32)
    (hi : i < 32) : (SPH_ROTR32 x n).testBit i = x.testBit ((i + n) % 32) := by
  unfold SPH_ROTR32
  rw [testBit_SPH_ROTL32 hx (by omega) hi]
  congr 1
  omega

/-! ## Theorems -/

/-- C1: for N = 3, 4, 5, in either build, `sph_haval_N_comp(msg, val)` leaves in
`val[i]` (i = 0..7) the value `(R[i] + val_in[i]) mod 2^32`, where `R` holds the
registers obtained by seeding them from `val_in` and running `PASS1`, ...,
`PASSN` in that order. -/
theorem sph_haval_comp_feed_forward (small : Bool) (msg val : Nat → Nat) (i : Fin 8) :
    sph_haval_3_comp small msg val i
        = ((PASS3 small 3 (INMSG msg) (PASS2 small 3 (INMSG msg)
            (PASS1 small 3 (INMSG msg) (RVAL val)))).word i + val i) % 2 ^ 32
    ∧ sph_haval_4_comp small msg val i
        = ((PASS4 small 4 (INMSG msg) (PASS3 small 4 (INMSG msg) (PASS2 small 4 (INMSG msg)
            (PASS1 small 4 (INMSG msg) (RVAL val))))).word i + val i) % 2 ^ 32
    ∧ sph_haval_5_comp small msg val i
        = ((PASS5 small 5 (INMSG msg) (PASS4 small 5 (INMSG msg) (PASS3 small 5 (INMSG msg)
            (PASS2 small 5 (INMSG msg) (PASS1 small 5 (INMSG msg) (RVAL val)))))).word i
            + val i) % 2 ^ 32 := by
  refine ⟨?_, ?_, ?_⟩ <;> fin_cases i <;>
    simp [sph_haval_3_comp, sph_haval_4_comp, sph_haval_5_comp, CORE3, CORE4, CORE5, WVAL,
      UPDATE_STATE, SAVE_STATE, Regs.word, SPH_T32, Function.update] <;>
    rfl

/-- C2: `STEP(n, p, x7, ..., x0, w, c)` sets `x7` to
`(rotate_right(FPn_p(x6,...,x0), 7) + rotate_right(x7_old, 11) + w + c) mod 2^32`
and leaves every other register unchanged. -/
theorem STEP_spec (n p : Nat) (x7 x6 x5 x4 x3 x2 x1 x0 : Reg) (w c : Nat) (σ : Regs) :
    (STEP n p x7 x6 x5 x4 x3 x2 x1 x0 w c σ).get x7
        = (SPH_ROTR32 (FP n p (σ.get x6) (σ.get x5) (σ.get x4) (σ.get x3) (σ.get x2)
              (σ.get x1) (σ.get x0)) 7
            + SPH_ROTR32 (σ.get x7) 11 + w + c) % 2 ^ 32
    ∧ ∀ r : Reg, r ≠ x7 → (STEP n p x7 x6 x5 x4 x3 x2 x1 x0 w c σ).get r = σ.get r := by
  constructor
  · cases x7 <;> rfl
  · intro r hr
    cases x7 <;> cases r <;> first | rfl | exact absurd rfl hr

/-- Witness of C2: the first step of pass 1 of the 3-pass core on the
registers `1, 2, ..., 8`; register `s3` is not the one assigned. -/
theorem STEP_spec_witness :
    (STEP 3 1 s7 s6 s5 s4 s3 s2 s1 s0 5 0 ⟨1, 2, 3, 4, 5, 6, 7, 8⟩).get s7
        = (SPH_ROTR32 (FP 3 1 7 6 5 4 3 2 1) 7 + SPH_ROTR32 8 11 + 5 + 0) % 2 ^ 32
    ∧ (s3 ≠ s7 ∧ (STEP 3 1 s7 s6 s5 s4 s3 s2 s1 s0 5 0 ⟨1, 2, 3, 4, 5, 6, 7, 8⟩).get s3 = 4) :=
  ⟨(STEP_spec 3 1 s7 s6 s5 s4 s3 s2 s1 s0 5 0 ⟨1, 2, 3, 4, 5, 6, 7, 8⟩).1,
    by decide,
    (STEP_spec 3 1 s7 s6 s5 s4 s3 s2 s1 s0 5 0 ⟨1, 2, 3, 4, 5, 6, 7, 8⟩).2 s3 (by decide)⟩

/-- C3: the implemented `F1` equals the reference-paper definition given in the
comment above it, for all words (no bound on the inputs is needed). -/
theorem F1_eq_paper (x6 x5 x4 x3 x2 x1 x0 : Nat) :
    F1 x6 x5 x4 x3 x2 x1 x0 = F1_paper x6 x5 x4 x3 x2 x1 x0 := by
  apply Nat.eq_of_testBit_eq; intro i
  simp only [F1, F1_paper, Nat.testBit_xor, Nat.testBit_and]
  cases x6.testBit i <;> cases x5.testBit i <;> cases x4.testBit i <;>
    cases x3.testBit i <;> cases x2.testBit i <;> cases x1.testBit i <;>
    cases x0.testBit i <;> rfl

/-- C4: for all 32-bit words, the implemented `F2` equals the reference-paper
definition given in the comment above it. -/
theorem F2_eq_paper (x6 x5 x4 x3 x2 x1 x0 : Nat) (h6 : x6 < 2 ^ 32) (h5 : x5 < 2 ^ 32)
    (h4 : x4 < 2 ^ 32) (h3 : x3 < 2 ^ 32) (h2 : x2 < 2 ^ 32) (h1 : x1 < 2 ^ 32)
    (h0 : x0 < 2 ^ 32) :
    F2 x6 x5 x4 x3 x2 x1 x0 = F2_paper x6 x5 x4 x3 x2 x1 x0 := by
  apply Nat.eq_of_testBit_eq; intro i
  by_cases hi : i < 32
  · simp only [F2, F2_paper, Nat.testBit_xor, Nat.testBit_and, Nat.testBit_or,
      testBit_not32, hi, decide_True]
    cases x6.testBit i <;> cases x5.testBit i <;> cases x4.testBit i <;>
      cases x3.testBit i <;> cases x2.testBit i <;> cases x1.testBit i <;>
      cases x0.testBit i <;> rfl
  · have hi' : 32 ≤ i := Nat.le_of_not_lt hi
    simp only [F2, F2_paper, Nat.testBit_xor, Nat.testBit_and, Nat.testBit_or,
      testBit_not32, testBit_word_high h6 hi', testBit_word_high h5 hi',
      testBit_word_high h4 hi', testBit_word_high h3 hi', testBit_word_high h2 hi',
      testBit_word_high h1 hi', testBit_word_high h0 hi']
    rfl

/-- Witness of C4: the words `0xFFFFFFFF, 0x0F0F0F0F, 0x33333333, 0x55555555,
0x00FF00FF, 0x0000FFFF, 0x12345678` are 32-bit words, and the two forms of
`F2` agree on them. -/
theorem F2_eq_paper_witness :
    (0xFFFFFFFF < 2 ^ 32 ∧ 0x0F0F0F0F < 2 ^ 32 ∧ 0x33333333 < 2 ^ 32 ∧ 0x55555555 < 2 ^ 32
      ∧ 0x00FF00FF < 2 ^ 32 ∧ 0x0000FFFF < 2 ^ 32 ∧ 0x12345678 < 2 ^ 32)
    ∧ F2 0xFFFFFFFF 0x0F0F0F0F 0x33333333 0x55555555 0x00FF00FF 0x0000FFFF 0x12345678
        = F2_paper 0xFFFFFFFF 0x0F0F0F0F 0x33333333 0x55555555 0x00FF00FF 0x0000FFFF
            0x12345678 :=
  ⟨by decide,
    F2_eq_paper 0xFFFFFFFF 0x0F0F0F0F 0x33333333 0x55555555 0x00FF00FF 0x0000FFFF 0x12345678
      (by decide) (by decide) (by decide) (by decide) (by decide) (by decide) (by decide)⟩

/-- C5: the implemented `F3` equals the reference-paper definition given in the
comment above it, for all words (no bound on the inputs is needed). -/
theorem F3_eq_paper (x6 x5 x4 x3 x2 x1 x0 : Nat) :
    F3 x6 x5 x4 x3 x2 x1 x0 = F3_paper x6 x5 x4 x3 x2 x1 x0 := by
  apply Nat.eq_of_testBit_eq; intro i
  simp only [F3, F3_paper, Nat.testBit_xor, Nat.testBit_and]
  cases x6.testBit i <;> cases x5.testBit i <;> cases x4.testBit i <;>
    cases x3.testBit i <;> cases x2.testBit i <;> cases x1.testBit i <;>
    cases x0.testBit i <;> rfl

/-- C6: for all 32-bit words, the implemented `F4` equals the reference-paper
definition given in the comment above it. -/
theorem F4_eq_paper (x6 x5 x4 x3 x2 x1 x0 : Nat) (h6 : x6 < 2 ^ 32) (h5 : x5 < 2 ^ 32)
    (h4 : x4 < 2 ^ 32) (h3 : x3 < 2 ^ 32) (h2 : x2 < 2 ^ 32) (h1 : x1 < 2 ^ 32)
    (h0 : x0 < 2 ^ 32) :
    F4 x6 x5 x4 x3 x2 x1 x0 = F4_paper x6 x5 x4 x3 x2 x1 x0 := by
  apply Nat.eq_of_testBit_eq; intro i
  by_cases hi : i < 32
  · simp only [F4, F4_paper, Nat.testBit_xor, Nat.testBit_and, Nat.testBit_or,
      testBit_not32, hi, decide_True]
    cases x6.testBit i <;> cases x5.testBit i <;> cases x4.testBit i <;>
      cases x3.testBit i <;> cases x2.testBit i <;> cases x1.testBit i <;>
      cases x0.testBit i <;> rfl
  · have hi' : 32 ≤ i := Nat.le_of_not_lt hi
    simp only [F4, F4_paper, Nat.testBit_xor, Nat.testBit_and, Nat.testBit_or,
      testBit_not32, testBit_word_high h6 hi', testBit_word_high h5 hi',
      testBit_word_high h4 hi', testBit_word_high h3 hi', testBit_word_high h2 hi',
      testBit_word_high h1 hi', testBit_word_high h0 hi']
    rfl

/-- Witness of C6: the words `0xFFFFFFFF, 0x0F0F0F0F, 0x33333333, 0x55555555,
0x00FF00FF, 0x0000FFFF, 0x12345678` are 32-bit words, and the two forms of
`F4` agree on them. -/
theorem F4_eq_paper_witness :
    (0xFFFFFFFF < 2 ^ 32 ∧ 0x0F0F0F0F < 2 ^ 32 ∧ 0x33333333 < 2 ^ 32 ∧ 0x55555555 < 2 ^ 32
      ∧ 0x00FF00FF < 2 ^ 32 ∧ 0x0000FFFF < 2 ^ 32 ∧ 0x12345678 < 2 ^ 32)
    ∧ F4 0xFFFFFFFF 0x0F0F0F0F 0x33333333 0x55555555 0x00FF00FF 0x0000FFFF 0x12345678
        = F4_paper 0xFFFFFFFF 0x0F0F0F0F 0x33333333 0x55555555 0x00FF00FF 0x0000FFFF
            0x12345678 :=
  ⟨by decide,
    F4_eq_paper 0xFFFFFFFF 0x0F0F0F0F 0x33333333 0x55555555 0x00FF00FF 0x0000FFFF 0x12345678
      (by decide) (by decide) (by decide) (by decide) (by decide) (by decide) (by decide)⟩

/-- C7: for all 32-bit words, the implemented `F5` equals the reference-paper
definition given in the comment above it. -/
theorem F5_eq_paper (x6 x5 x4 x3 x2 x1 x0 : Nat) (h6 : x6 < 2 ^ 32) (h5 : x5 < 2 ^ 32)
    (h4 : x4 < 2 ^ 32) (h3 : x3 < 2 ^ 32) (h2 : x2 < 2 ^ 32) (h1 : x1 < 2 ^ 32)
    (h0 : x0 < 2 ^ 32) :
    F5 x6 x5 x4 x3 x2 x1 x0 = F5_paper x6 x5 x4 x3 x2 x1 x0 := by
  apply Nat.eq_of_testBit_eq; intro i
  by_cases hi : i < 32
  · simp only [F5, F5_paper, Nat.testBit_xor, Nat.testBit_and, Nat.testBit_or,
      testBit_not32, hi, decide_True]
    cases x6.testBit i <;> cases x5.testBit i <;> cases x4.testBit i <;>
      cases x3.testBit i <;> cases x2.testBit i <;> cases x1.testBit i <;>
      cases x0.testBit i <;> rfl
  · have hi' : 32 ≤ i := Nat.le_of_not_lt hi
    simp only [F5, F5_paper, Nat.testBit_xor, Nat.testBit_and, Nat.testBit_or,
      testBit_not32, testBit_word_high h6 hi', testBit_word_high h5 hi',
      testBit_word_high h4 hi', testBit_word_high h3 hi', testBit_word_high h2 hi',
      testBit_word_high h1 hi', testBit_word_high h0 hi']
    rfl

/-- Witness of C7: the words `0xFFFFFFFF, 0x0F0F0F0F, 0x33333333, 0x55555555,
0x00FF00FF, 0x0000FFFF, 0x12345678` are 32-bit words, and the two forms of
`F5` agree on them. -/
theorem F5_eq_paper_witness :
    (0xFFFFFFFF < 2 ^ 32 ∧ 0x0F0F0F0F < 2 ^ 32 ∧ 0x33333333 < 2 ^ 32 ∧ 0x55555555 < 2 ^ 32
      ∧ 0x00FF00FF < 2 ^ 32 ∧ 0x0000FFFF < 2 ^ 32 ∧ 0x12345678 < 2 ^ 32)
    ∧ F5 0xFFFFFFFF 0x0F0F0F0F 0x33333333 0x55555555 0x00FF00FF 0x0000FFFF 0x12345678
        = F5_paper 0xFFFFFFFF 0x0F0F0F0F 0x33333333 0x55555555 0x00FF00FF 0x0000FFFF
            0x12345678 :=
  ⟨by decide,
    F5_eq_paper 0xFFFFFFFF 0x0F0F0F0F 0x33333333 0x55555555 0x00FF00FF 0x0000FFFF 0x12345678
      (by decide) (by decide) (by decide) (by decide) (by decide) (by decide) (by decide)⟩

/-- A lane-wise function with 32-bit results commutes with rotation. -/
theorem commutesWithRotation_of_laneWise
    {F : Nat → Nat → Nat → Nat → Nat → Nat → Nat → Nat}
    {lane : Bool → Bool → Bool → Bool → Bool → Bool → Bool → Bool}
    (hlane : LaneWise F lane)
    (hlt : ∀ x6 x5 x4 x3 x2 x1 x0 : Nat, x6 < 2 ^ 32 → x5 < 2 ^ 32 → x4 < 2 ^ 32 →
      x3 < 2 ^ 32 → x2 < 2 ^ 32 → x1 < 2 ^ 32 → x0 < 2 ^ 32 →
      F x6 x5 x4 x3 x2 x1 x0 < 2 ^ 32) :
    CommutesWithRotation F := by
  intro x6 x5 x4 x3 x2 x1 x0 r h6 h5 h4 h3 h2 h1 h0 hr
  have hF := hlt x6 x5 x4 x3 x2 x1 x0 h6 h5 h4 h3 h2 h1 h0
  have hR := hlt _ _ _ _ _ _ _ (SPH_ROTL32_lt x6 r) (SPH_ROTL32_lt x5 r) (SPH_ROTL32_lt x4 r)
    (SPH_ROTL32_lt x3 r) (SPH_ROTL32_lt x2 r) (SPH_ROTL32_lt x1 r) (SPH_ROTL32_lt x0 r)
  apply Nat.eq_of_testBit_eq; intro i
  by_cases hi : i < 32
  · have hj : (i + 32 - r) % 32 < 32 := Nat.mod_lt _ (by norm_num)
    rw [hlane _ _ _ _ _ _ _ i hi, testBit_SPH_ROTL32 hF hr hi,
      hlane _ _ _ _ _ _ _ _ hj, testBit_SPH_ROTL32 h6 hr hi, testBit_SPH_ROTL32 h5 hr hi,
      testBit_SPH_ROTL32 h4 hr hi, testBit_SPH_ROTL32 h3 hr hi, testBit_SPH_ROTL32 h2 hr hi,
      testBit_SPH_ROTL32 h1 hr hi, testBit_SPH_ROTL32 h0 hr hi]
  · have hi' : 32 ≤ i := Nat.le_of_not_lt hi
    rw [testBit_word_high hR hi', testBit_word_high (SPH_ROTL32_lt _ r) hi']

/-- C8: each of `F1 .. F5` is lane-wise: at every bit position `i` in `0 .. 31`,
bit `i` of `Fk(x6, ..., x0)` is one fixed boolean function (`Fk_lane`, the same
for every `i`) of bit `i` of `x6 .. x0`; and each `Fk` commutes with rotating
all seven 32-bit inputs by the same amount. -/
theorem F_lane_wise :
    (LaneWise F1 F1_lane ∧ LaneWise F2 F2_lane ∧ LaneWise F3 F3_lane
      ∧ LaneWise F4 F4_lane ∧ LaneWise F5 F5_lane)
    ∧ (CommutesWithRotation F1 ∧ CommutesWithRotation F2 ∧ CommutesWithRotation F3
      ∧ CommutesWithRotation F4 ∧ CommutesWithRotation F5) := by
  have l1 : LaneWise F1 F1_lane := fun x6 x5 x4 x3 x2 x1 x0 i _ =>
    F1_testBit x6 x5 x4 x3 x2 x1 x0 i
  have l2 : LaneWise F2 F2_lane := F2_testBit
  have l3 : LaneWise F3 F3_lane := fun x6 x5 x4 x3 x2 x1 x0 i _ =>
    F3_testBit x6 x5 x4 x3 x2 x1 x0 i
  have l4 : LaneWise F4 F4_lane := F4_testBit
  have l5 : LaneWise F5 F5_lane := F5_testBit
  exact ⟨⟨l1, l2, l3, l4, l5⟩,
    commutesWithRotation_of_laneWise l1 (fun _ _ _ _ _ _ _ => F1_lt),
    commutesWithRotation_of_laneWise l2 (fun _ _ _ _ _ _ _ => F2_lt),
    commutesWithRotation_of_laneWise l3 (fun _ _ _ _ _ _ _ => F3_lt),
    commutesWithRotation_of_laneWise l4 (fun _ _ _ _ _ _ _ => F4_lt),
    commutesWithRotation_of_laneWise l5 (fun _ _ _ _ _ _ _ => F5_lt)⟩

/-- Witness of C8: bit 5 of `F4` on seven concrete words is `F4_lane` of their
bits 5, and `F5` commutes with the rotation by 9 of seven concrete 32-bit
words. -/
theorem F_lane_wise_witness :
    (5 < 32
      ∧ (F4 0xFFFFFFFF 0x0F0F0F0F 0x33333333 0x55555555 0x00FF00FF 0x0000FFFF
            0x12345678).testBit 5
          = F4_lane (Nat.testBit 0xFFFFFFFF 5) (Nat.testBit 0x0F0F0F0F 5)
              (Nat.testBit 0x33333333 5) (Nat.testBit 0x55555555 5)
              (Nat.testBit 0x00FF00FF 5) (Nat.testBit 0x0000FFFF 5)
              (Nat.testBit 0x12345678 5))
    ∧ ((0xFFFFFFFF < 2 ^ 32 ∧ 0x0F0F0F0F < 2 ^ 32 ∧ 0x33333333 < 2 ^ 32
          ∧ 0x55555555 < 2 ^ 32 ∧ 0x00FF00FF < 2 ^ 32 ∧ 0x0000FFFF < 2 ^ 32
          ∧ 0x12345678 < 2 ^ 32 ∧ 9 < 32)
      ∧ F5 (SPH_ROTL32 0xFFFFFFFF 9) (SPH_ROTL32 0x0F0F0F0F 9) (SPH_ROTL32 0x33333333 9)
            (SPH_ROTL32 0x55555555 9) (SPH_ROTL32 0x00FF00FF 9) (SPH_ROTL32 0x0000FFFF 9)
            (SPH_ROTL32 0x12345678 9)
          = SPH_ROTL32 (F5 0xFFFFFFFF 0x0F0F0F0F 0x33333333 0x55555555 0x00FF00FF
              0x0000FFFF 0x12345678) 9) :=
  ⟨⟨by decide,
      F_lane_wise.1.2.2.2.1 0xFFFFFFFF 0x0F0F0F0F 0x33333333 0x55555555 0x00FF00FF
        0x0000FFFF 0x12345678 5 (by decide)⟩,
    by decide,
    F_lane_wise.2.2.2.2.2 0xFFFFFFFF 0x0F0F0F0F 0x33333333 0x55555555 0x00FF00FF
      0x0000FFFF 0x12345678 9 (by decide) (by decide) (by decide) (by decide) (by decide)
      (by decide) (by decide) (by decide)⟩

/-- C9: `haval_init` sets the chaining state to the fixed IV whatever `olen` and
`passes` are, records `olen` and `passes` unchanged, and zeroes the input bit
counter (`count` when `SPH_64` is set, `count_high` and `count_low` otherwise). -/
theorem haval_init_spec (sph64 : Bool) (sc : sph_haval_context) (olen passes : Nat) :
    ((haval_init sph64 sc olen passes).s0 = 0x243F6A88
      ∧ (haval_init sph64 sc olen passes).s1 = 0x85A308D3
      ∧ (haval_init sph64 sc olen passes).s2 = 0x13198A2E
      ∧ (haval_init sph64 sc olen passes).s3 = 0x03707344
      ∧ (haval_init sph64 sc olen passes).s4 = 0xA4093822
      ∧ (haval_init sph64 sc olen passes).s5 = 0x299F31D0
      ∧ (haval_init sph64 sc olen passes).s6 = 0x082EFA98
      ∧ (haval_init sph64 sc olen passes).s7 = 0xEC4E6C89)
    ∧ (haval_init sph64 sc olen passes).olen = olen
    ∧ (haval_init sph64 sc olen passes).passes = passes
    ∧ (haval_init true sc olen passes).count = 0
    ∧ (haval_init false sc olen passes).count_high = 0
    ∧ (haval_init false sc olen passes).count_low = 0 := by
  cases sph64 <;> simp [haval_init, SPH_C32]

/-- C10, as stated, fails: the request `olen = 9`, `passes = 7` is outside the
enumerated sets, and `haval_init` does not reject it but produces a context
that records `olen = 9` and `passes = 7` over the IV. -/
theorem haval_init_accepts_invalid :
    validConfig 9 7 = false
    ∧ haval_init true ⟨0, 0, 0, 0, 0, 0, 0, 0, 0, 0, 0, 0, 0⟩ 9 7
        = ⟨0x243F6A88, 0x85A308D3, 0x13198A2E, 0x03707344, 0xA4093822, 0x299F31D0,
            0x082EFA98, 0xEC4E6C89, 9, 7, 0, 0, 0⟩ := by
  decide

/-- C10, amended: `haval_init` has no failure path. For every `olen` and
`passes` outside the enumerated sets it still returns a context, which holds the
IV and records `olen` and `passes` as given. -/
theorem haval_init_no_validation (sph64 : Bool) (sc : sph_haval_context) (olen passes : Nat)
    (_h : validConfig olen passes = false) :
    ∃ c : sph_haval_context, haval_init sph64 sc olen passes = c
      ∧ c.olen = olen ∧ c.passes = passes
      ∧ c.s0 = 0x243F6A88 ∧ c.s1 = 0x85A308D3 ∧ c.s2 = 0x13198A2E ∧ c.s3 = 0x03707344
      ∧ c.s4 = 0xA4093822 ∧ c.s5 = 0x299F31D0 ∧ c.s6 = 0x082EFA98 ∧ c.s7 = 0xEC4E6C89 := by
  refine ⟨_, rfl, ?_⟩
  cases sph64 <;> simp [haval_init, SPH_C32]

/-- Witness of C10, amended: `olen = 3`, `passes = 6` is outside the enumerated
sets. -/
theorem haval_init_no_validation_witness :
    validConfig 3 6 = false
    ∧ ∃ c : sph_haval_context,
        haval_init false ⟨1, 2, 3, 4, 5, 6, 7, 8, 8, 5, 1024, 0, 1024⟩ 3 6 = c
      ∧ c.olen = 3 ∧ c.passes = 6
      ∧ c.s0 = 0x243F6A88 ∧ c.s1 = 0x85A308D3 ∧ c.s2 = 0x13198A2E ∧ c.s3 = 0x03707344
      ∧ c.s4 = 0xA4093822 ∧ c.s5 = 0x299F31D0 ∧ c.s6 = 0x082EFA98 ∧ c.s7 = 0xEC4E6C89 :=
  ⟨by decide,
    haval_init_no_validation false ⟨1, 2, 3, 4, 5, 6, 7, 8, 8, 5, 1024, 0, 1024⟩ 3 6 (by decide)⟩

/-! ### The little-endian encoding -/

theorem sph_enc32le_outside (dst : Nat → Nat) (off val j : Nat) (h : j < off ∨ off + 4 ≤ j) :
    sph_enc32le dst off val j = dst j := by
  unfold sph_enc32le
  have h0 : j ≠ off := by omega
  have h1 : j ≠ off + 1 := by omega
  have h2 : j ≠ off + 2 := by omega
  have h3 : j ≠ off + 3 := by omega
  simp [Function.update, h0, h1, h2, h3]

theorem sph_enc32le_inside (dst dst' : Nat → Nat) (off val j : Nat) (h1 : off ≤ j)
    (h2 : j < off + 4) : sph_enc32le dst off val j = sph_enc32le dst' off val j := by
  unfold sph_enc32le
  have h : j = off ∨ j = off + 1 ∨ j = off + 2 ∨ j = off + 3 := by omega
  rcases h with h | h | h | h <;> subst h <;> simp [Function.update]

theorem sph_dec32le_enc_same (dst : Nat → Nat) (off val : Nat) :
    sph_dec32le (sph_enc32le dst off val) off = val % 2 ^ 32 := by
  unfold sph_dec32le sph_enc32le
  simp [Function.update, Nat.shiftRight_eq_div_pow]
  omega

theorem sph_dec32le_enc_other (dst : Nat → Nat) (off off' val : Nat)
    (h : off' + 4 ≤ off ∨ off + 4 ≤ off') :
    sph_dec32le (sph_enc32le dst off val) off' = sph_dec32le dst off' := by
  unfold sph_dec32le
  rw [sph_enc32le_outside _ _ _ _ (by omega), sph_enc32le_outside _ _ _ _ (by omega),
    sph_enc32le_outside _ _ _ _ (by omega), sph_enc32le_outside _ _ _ _ (by omega)]

theorem write_words_outside (ws : List Nat) (off : Nat) (buf : Nat → Nat) (j : Nat)
    (h : j < off ∨ off + 4 * ws.length ≤ j) : write_words ws off buf j = buf j := by
  induction ws generalizing off buf with
  | nil => rfl
  | cons w ws ih =>
    simp only [write_words, List.length_cons] at h ⊢
    rw [ih (off + 4) _ (by omega), sph_enc32le_outside _ _ _ _ (by omega)]

theorem write_words_inside (ws : List Nat) (off : Nat) (buf buf' : Nat → Nat) (j : Nat)
    (h1 : off ≤ j) (h2 : j < off + 4 * ws.length) :
    write_words ws off buf j = write_words ws off buf' j := by
  induction ws generalizing off buf buf' with
  | nil => simp at h2; omega
  | cons w ws ih =>
    simp only [write_words, List.length_cons] at h2 ⊢
    by_cases h : j < off + 4
    · rw [write_words_outside _ _ _ _ (Or.inl h), write_words_outside _ _ _ _ (Or.inl h)]
      exact sph_enc32le_inside _ _ _ _ _ h1 h
    · exact ih (off + 4) _ _ (by omega) (by omega)

theorem write_words_byte (ws : List Nat) (off : Nat) (buf : Nat → Nat) (j : Nat)
    (h1 : off ≤ j) (h2 : j < off + 4 * ws.length) : write_words ws off buf j < 256 := by
  induction ws generalizing off buf with
  | nil => simp at h2; omega
  | cons w ws ih =>
    simp only [write_words, List.length_cons] at h2 ⊢
    by_cases h : j < off + 4
    · rw [write_words_outside _ _ _ _ (Or.inl h)]
      have hj : j = off ∨ j = off + 1 ∨ j = off + 2 ∨ j = off + 3 := by omega
      unfold sph_enc32le
      rcases hj with hj | hj | hj | hj <;> subst hj <;> simp [Function.update] <;> omega
    · exact ih (off + 4) _ (by omega) (by omega)

theorem sph_dec32le_write_words_before (ws : List Nat) (off off' : Nat) (buf : Nat → Nat)
    (h : off' + 4 ≤ off) :
    sph_dec32le (write_words ws off buf) off' = sph_dec32le buf off' := by
  unfold sph_dec32le
  rw [write_words_outside _ _ _ _ (Or.inl (by omega)),
    write_words_outside _ _ _ _ (Or.inl (by omega)),
    write_words_outside _ _ _ _ (Or.inl (by omega)),
    write_words_outside _ _ _ _ (Or.inl (by omega))]

theorem map_dec_write_words (ws : List Nat) (off : Nat) (buf : Nat → Nat) :
    (List.range ws.length).map (fun i => sph_dec32le (write_words ws off buf) (off + 4 * i))
      = ws.map (fun w => w % 2 ^ 32) := by
  induction ws generalizing off buf with
  | nil => rfl
  | cons w ws ih =>
    rw [List.length_cons, List.range_succ_eq_map, List.map_cons, List.map_map, List.map_cons]
    congr 1
    · simp only [write_words, Nat.mul_zero, Nat.add_zero]
      rw [sph_dec32le_write_words_before _ _ _ _ (by omega), sph_dec32le_enc_same]
    · rw [← ih (off + 4) (sph_enc32le buf off w)]
      apply List.map_congr_left
      intro i _
      simp only [Function.comp, write_words]
      congr 1
      omega

/-- The digest words read back from what `write_words` wrote. -/
theorem digestWords_write_words (ws : List Nat) (buf : Nat → Nat) :
    digestWords (write_words ws 0 buf) ws.length = ws.map (fun w => w % 2 ^ 32) := by
  have h := map_dec_write_words ws 0 buf
  simpa [digestWords] using h

/-! ### The output of `haval_out` for each digest length -/

theorem haval_out_buf_4 (sc : sph_haval_context) (dst : Nat → Nat) (h : sc.olen = 4) :
    (haval_out sc dst).2 = write_words
      [SPH_T32 (sc.s0 + mix128 sc.s7 sc.s4 sc.s5 sc.s6 24),
        SPH_T32 (sc.s1 + mix128 sc.s6 sc.s7 sc.s4 sc.s5 16),
        SPH_T32 (sc.s2 + mix128 sc.s5 sc.s6 sc.s7 sc.s4 8),
        SPH_T32 (sc.s3 + mix128 sc.s4 sc.s5 sc.s6 sc.s7 0)] 0 dst := by
  simp only [haval_out, h, write_words, RSTATE]

theorem haval_out_buf_5 (sc : sph_haval_context) (dst : Nat → Nat) (h : sc.olen = 5) :
    (haval_out sc dst).2 = write_words
      [SPH_T32 (sc.s0 + mix160_0 sc.s5 sc.s6 sc.s7),
        SPH_T32 (sc.s1 + mix160_1 sc.s5 sc.s6 sc.s7),
        SPH_T32 (sc.s2 + mix160_2 sc.s5 sc.s6 sc.s7),
        SPH_T32 (sc.s3 + mix160_3 sc.s5 sc.s6 sc.s7),
        SPH_T32 (sc.s4 + mix160_4 sc.s5 sc.s6 sc.s7)] 0 dst := by
  simp only [haval_out, h, write_words, RSTATE]

theorem haval_out_buf_6 (sc : sph_haval_context) (dst : Nat → Nat) (h : sc.olen = 6) :
    (haval_out sc dst).2 = write_words
      [SPH_T32 (sc.s0 + mix192_0 sc.s6 sc.s7),
        SPH_T32 (sc.s1 + mix192_1 sc.s6 sc.s7),
        SPH_T32 (sc.s2 + mix192_2 sc.s6 sc.s7),
        SPH_T32 (sc.s3 + mix192_3 sc.s6 sc.s7),
        SPH_T32 (sc.s4 + mix192_4 sc.s6 sc.s7),
        SPH_T32 (sc.s5 + mix192_5 sc.s6 sc.s7)] 0 dst := by
  simp only [haval_out, h, write_words, RSTATE]

theorem haval_out_buf_7 (sc : sph_haval_context) (dst : Nat → Nat) (h : sc.olen = 7) :
    (haval_out sc dst).2 = write_words
      [SPH_T32 (sc.s0 + ((sc.s7 >>> 27) &&& 0x1F)),
        SPH_T32 (sc.s1 + ((sc.s7 >>> 22) &&& 0x1F)),
        SPH_T32 (sc.s2 + ((sc.s7 >>> 18) &&& 0x0F)),
        SPH_T32 (sc.s3 + ((sc.s7 >>> 13) &&& 0x1F)),
        SPH_T32 (sc.s4 + ((sc.s7 >>> 9) &&& 0x0F)),
        SPH_T32 (sc.s5 + ((sc.s7 >>> 4) &&& 0x1F)),
        SPH_T32 (sc.s6 + (sc.s7 &&& 0x0F))] 0 dst := by
  simp only [haval_out, h, write_words, RSTATE]

theorem haval_out_buf_8 (sc : sph_haval_context) (dst : Nat → Nat) (h : sc.olen = 8) :
    (haval_out sc dst).2 = write_words
      [sc.s0, sc.s1, sc.s2, sc.s3, sc.s4, sc.s5, sc.s6, sc.s7] 0 dst := by
  simp only [haval_out, h, write_words, RSTATE]

/-- The words that `haval_out` writes, in order, for the context `sc`. -/
theorem haval_out_eq_write_words (sc : sph_haval_context) (h4 : 4 ≤ sc.olen)
    (h8 : sc.olen ≤ 8) :
    ∃ ws : List Nat, ws.length = sc.olen ∧
      ∀ dst, (haval_out sc dst).2 = write_words ws 0 dst := by
  have h : sc.olen = 4 ∨ sc.olen = 5 ∨ sc.olen = 6 ∨ sc.olen = 7 ∨ sc.olen = 8 := by omega
  rcases h with h | h | h | h | h
  · exact ⟨_, by simp [h], fun dst => haval_out_buf_4 sc dst h⟩
  · exact ⟨_, by simp [h], fun dst => haval_out_buf_5 sc dst h⟩
  · exact ⟨_, by simp [h], fun dst => haval_out_buf_6 sc dst h⟩
  · exact ⟨_, by simp [h], fun dst => haval_out_buf_7 sc dst h⟩
  · exact ⟨_, by simp [h], fun dst => haval_out_buf_8 sc dst h⟩

theorem SPH_T32_mod (x : Nat) : SPH_T32 x % 2 ^ 32 = SPH_T32 x := by
  unfold SPH_T32
  exact Nat.mod_mod _ _

/-- C11: `haval_out` does not mutate the context: whatever the digest length,
the context on return (chaining state `s0 .. s7`, `olen`, `passes` and the
bit counter) is the context it was given. -/
theorem haval_out_context_unchanged (sc : sph_haval_context) (dst : Nat → Nat) :
    (haval_out sc dst).1 = sc := by
  unfold haval_out
  split <;> rfl

/-- C12: for `olen` in `4 .. 8`, `haval_out` writes exactly `olen` 32-bit words
consecutively from offset 0: the buffer on return is the given one with a list
of `olen` words stored from byte 0, so the bytes from `4 * olen` on are
untouched and each of the `4 * olen` bytes below is overwritten with a byte
that does not depend on the previous contents. -/
theorem haval_out_writes_olen_words (sc : sph_haval_context) (dst : Nat → Nat)
    (h4 : 4 ≤ sc.olen) (h8 : sc.olen ≤ 8) :
    (∃ ws : List Nat, ws.length = sc.olen ∧
      ∀ dst', (haval_out sc dst').2 = write_words ws 0 dst')
    ∧ (∀ j, 4 * sc.olen ≤ j → (haval_out sc dst).2 j = dst j)
    ∧ (∀ j, j < 4 * sc.olen → (haval_out sc dst).2 j < 256
        ∧ ∀ dst', (haval_out sc dst').2 j = (haval_out sc dst).2 j) := by
  obtain ⟨ws, hlen, hws⟩ := haval_out_eq_write_words sc h4 h8
  refine ⟨⟨ws, hlen, hws⟩, ?_, ?_⟩
  · intro j hj
    rw [hws dst]
    exact write_words_outside ws 0 dst j (Or.inr (by omega))
  · intro j hj
    refine ⟨?_, fun dst' => ?_⟩
    · rw [hws dst]
      exact write_words_byte ws 0 dst j (Nat.zero_le _) (by omega)
    · rw [hws dst, hws dst']
      exact write_words_inside ws 0 dst' dst j (Nat.zero_le _) (by omega)

/-- Witness of C12: a context with `olen = 5`; byte 25 of the buffer is kept,
byte 3 is written. -/
theorem haval_out_writes_olen_words_witness :
    (4 ≤ 5 ∧ 5 ≤ 8)
    ∧ (haval_out ⟨1, 2, 3, 4, 5, 6, 7, 8, 5, 3, 0, 0, 0⟩ (fun _ => 999)).2 25 = 999
    ∧ (haval_out ⟨1, 2, 3, 4, 5, 6, 7, 8, 5, 3, 0, 0, 0⟩ (fun _ => 999)).2 3 < 256 :=
  ⟨by decide,
    (haval_out_writes_olen_words ⟨1, 2, 3, 4, 5, 6, 7, 8, 5, 3, 0, 0, 0⟩ (fun _ => 999)
      (by decide) (by decide)).2.1 25 (by decide),
    ((haval_out_writes_olen_words ⟨1, 2, 3, 4, 5, 6, 7, 8, 5, 3, 0, 0, 0⟩ (fun _ => 999)
      (by decide) (by decide)).2.2 3 (by decide)).1⟩

/-- C13: for `olen = 8`, `haval_out` stores the eight state words `s0 .. s7`
themselves, in that order, without mixing: the buffer receives them from byte
0, and the eight words read back from it are `s0 .. s7`. -/
theorem haval_out_256_direct_copy (sc : sph_haval_context) (dst : Nat → Nat)
    (h : sc.olen = 8) (hw : state32 sc = true) :
    (haval_out sc dst).2
        = write_words [sc.s0, sc.s1, sc.s2, sc.s3, sc.s4, sc.s5, sc.s6, sc.s7] 0 dst
    ∧ digestWords (haval_out sc dst).2 8
        = [sc.s0, sc.s1, sc.s2, sc.s3, sc.s4, sc.s5, sc.s6, sc.s7] := by
  refine ⟨haval_out_buf_8 sc dst h, ?_⟩
  rw [haval_out_buf_8 sc dst h]
  have e := digestWords_write_words
    [sc.s0, sc.s1, sc.s2, sc.s3, sc.s4, sc.s5, sc.s6, sc.s7] dst
  simp only [List.length_cons, List.length_nil, List.map_cons, List.map_nil] at e
  simp only [state32, Bool.and_eq_true, decide_eq_true_eq] at hw
  rw [e]
  obtain ⟨⟨⟨⟨⟨⟨⟨h0, h1⟩, h2⟩, h3⟩, h4⟩, h5⟩, h6⟩, h7⟩ := hw
  rw [Nat.mod_eq_of_lt h0, Nat.mod_eq_of_lt h1, Nat.mod_eq_of_lt h2, Nat.mod_eq_of_lt h3,
    Nat.mod_eq_of_lt h4, Nat.mod_eq_of_lt h5, Nat.mod_eq_of_lt h6, Nat.mod_eq_of_lt h7]

/-- Witness of C13: a context with `olen = 8` and 32-bit state words. -/
theorem haval_out_256_direct_copy_witness :
    ((⟨0x243F6A88, 0x85A308D3, 0x13198A2E, 0x03707344, 0xA4093822, 0x299F31D0,
        0x082EFA98, 0xEC4E6C89, 8, 5, 0, 0, 0⟩ : sph_haval_context).olen = 8
      ∧ state32 ⟨0x243F6A88, 0x85A308D3, 0x13198A2E, 0x03707344, 0xA4093822, 0x299F31D0,
        0x082EFA98, 0xEC4E6C89, 8, 5, 0, 0, 0⟩ = true)
    ∧ digestWords (haval_out ⟨0x243F6A88, 0x85A308D3, 0x13198A2E, 0x03707344, 0xA4093822,
        0x299F31D0, 0x082EFA98, 0xEC4E6C89, 8, 5, 0, 0, 0⟩ (fun _ => 0)).2 8
      = [0x243F6A88, 0x85A308D3, 0x13198A2E, 0x03707344, 0xA4093822, 0x299F31D0,
          0x082EFA98, 0xEC4E6C89] :=
  ⟨by decide,
    (haval_out_256_direct_copy ⟨0x243F6A88, 0x85A308D3, 0x13198A2E, 0x03707344, 0xA4093822,
      0x299F31D0, 0x082EFA98, 0xEC4E6C89, 8, 5, 0, 0, 0⟩ (fun _ => 0) (by decide)
      (by decide)).2⟩

/-! ### Bit fields -/

theorem shiftRight_and_low (x a w : Nat) : (x >>> a) &&& (2 ^ w - 1) = bitField x a w := by
  unfold bitField
  rw [Nat.and_pow_two_sub_one_eq_mod, Nat.shiftRight_eq_div_pow]

theorem bitField_lt (x a w : Nat) : bitField x a w < 2 ^ w :=
  Nat.mod_lt _ (Nat.two_pow_pos w)

theorem and_shifted_mask (x a w : Nat) :
    x &&& ((2 ^ w - 1) <<< a) = bitField x a w * 2 ^ a := by
  apply Nat.eq_of_testBit_eq; intro i
  rw [Nat.mul_comm, Nat.testBit_mul_pow_two, Nat.testBit_and, Nat.testBit_shiftLeft,
    Nat.testBit_two_pow_sub_one]
  unfold bitField
  rw [Nat.testBit_mod_two_pow, ← Nat.shiftRight_eq_div_pow, Nat.testBit_shiftRight]
  by_cases h : a ≤ i
  · have e : a + (i - a) = i := by omega
    simp [h, e, Bool.and_comm]
  · simp [h]

theorem shiftRight_and_eq (x m k : Nat) : (x >>> k) &&& m = (x &&& (m <<< k)) >>> k := by
  apply Nat.eq_of_testBit_eq; intro i
  simp [Nat.testBit_and, Nat.testBit_shiftRight, Nat.testBit_shiftLeft]

/-- C14: for `olen = 7`, output word `i` (`i = 0 .. 6`) is `(s_i + f_i) mod 2^32`
where `f_i` is the field of `s7` listed in `fields224` (4 or 5 bits wide,
shifted down to bit 0, so below 32); each of the 32 bit positions of `s7` lies
in exactly one of the seven fields, and `s7` is the sum of the fields put back
in place, so `s7` is determined by them. -/
theorem haval_out_224_fields (sc : sph_haval_context) (dst : Nat → Nat)
    (h : sc.olen = 7) (h7 : sc.s7 < 2 ^ 32) :
    digestWords (haval_out sc dst).2 7
        = List.zipWith (fun s f => (s + bitField sc.s7 f.1 f.2) % 2 ^ 32)
            [sc.s0, sc.s1, sc.s2, sc.s3, sc.s4, sc.s5, sc.s6] fields224
    ∧ (∀ f ∈ fields224, (f.2 = 4 ∨ f.2 = 5) ∧ bitField sc.s7 f.1 f.2 < 32)
    ∧ (∀ b, b < 32 →
        (fields224.filter (fun f => decide (f.1 ≤ b) && decide (b < f.1 + f.2))).length = 1)
    ∧ sc.s7 = (fields224.map (fun f => bitField sc.s7 f.1 f.2 * 2 ^ f.1)).sum
    ∧ (∀ t, t < 2 ^ 32 → (∀ f ∈ fields224, bitField t f.1 f.2 = bitField sc.s7 f.1 f.2) →
        t = sc.s7) := by
  have hsum : ∀ t, t < 2 ^ 32 →
      t = (fields224.map (fun f => bitField t f.1 f.2 * 2 ^ f.1)).sum := by
    intro t ht
    simp only [fields224, bitField, List.map_cons, List.map_nil, List.sum_cons, List.sum_nil]
    omega
  refine ⟨?_, ?_, ?_, hsum _ h7, ?_⟩
  · rw [haval_out_buf_7 sc dst h]
    have e := digestWords_write_words
      [SPH_T32 (sc.s0 + ((sc.s7 >>> 27) &&& 0x1F)),
        SPH_T32 (sc.s1 + ((sc.s7 >>> 22) &&& 0x1F)),
        SPH_T32 (sc.s2 + ((sc.s7 >>> 18) &&& 0x0F)),
        SPH_T32 (sc.s3 + ((sc.s7 >>> 13) &&& 0x1F)),
        SPH_T32 (sc.s4 + ((sc.s7 >>> 9) &&& 0x0F)),
        SPH_T32 (sc.s5 + ((sc.s7 >>> 4) &&& 0x1F)),
        SPH_T32 (sc.s6 + (sc.s7 &&& 0x0F))] dst
    simp only [List.length_cons, List.length_nil, List.map_cons, List.map_nil,
      SPH_T32_mod] at e
    rw [e]
    have e5 : ∀ a, (sc.s7 >>> a) &&& 0x1F = bitField sc.s7 a 5 :=
      fun a => shiftRight_and_low sc.s7 a 5
    have e4 : ∀ a, (sc.s7 >>> a) &&& 0x0F = bitField sc.s7 a 4 :=
      fun a => shiftRight_and_low sc.s7 a 4
    have e0 : sc.s7 &&& 0x0F = bitField sc.s7 0 4 := by
      have := shiftRight_and_low sc.s7 0 4
      simpa using this
    simp only [e5, e4, e0, SPH_T32, fields224, List.zipWith_cons_cons, List.zipWith_nil_right]
  · intro f hf
    simp only [fields224, List.mem_cons, List.mem_singleton, List.mem_nil_iff, or_false] at hf
    rcases hf with hf | hf | hf | hf | hf | hf | hf <;> subst hf <;>
      refine ⟨by simp, ?_⟩ <;>
      exact lt_of_lt_of_le (bitField_lt _ _ _) (by norm_num)
  · decide
  · intro t ht hf
    rw [hsum t ht, hsum sc.s7 h7]
    simp only [fields224, List.forall_mem_cons, List.mem_nil_iff, false_implies,
      implies_true, and_true] at hf
    simp only [fields224, List.map_cons, List.map_nil, hf.1, hf.2.1, hf.2.2.1, hf.2.2.2.1,
      hf.2.2.2.2.1, hf.2.2.2.2.2.1, hf.2.2.2.2.2.2]

/-- Witness of C14: a context with `olen = 7` and `s7 = 0xEC4E6C89`. -/
theorem haval_out_224_fields_witness :
    ((⟨1, 2, 3, 4, 5, 6, 7, 0xEC4E6C89, 7, 3, 0, 0, 0⟩ : sph_haval_context).olen = 7
      ∧ (⟨1, 2, 3, 4, 5, 6, 7, 0xEC4E6C89, 7, 3, 0, 0, 0⟩ : sph_haval_context).s7 < 2 ^ 32)
    ∧ digestWords (haval_out ⟨1, 2, 3, 4, 5, 6, 7, 0xEC4E6C89, 7, 3, 0, 0, 0⟩
        (fun _ => 0)).2 7
      = List.zipWith (fun s f => (s + bitField 0xEC4E6C89 f.1 f.2) % 2 ^ 32)
          [1, 2, 3, 4, 5, 6, 7] fields224 :=
  ⟨by decide,
    (haval_out_224_fields ⟨1, 2, 3, 4, 5, 6, 7, 0xEC4E6C89, 7, 3, 0, 0, 0⟩ (fun _ => 0)
      (by decide) (by decide)).1⟩

/-- C15: for each digest size in `{4,5,6,7}` words and each extra state word,
the masks applied to that word across the tailored output words (one per output
word) have bitwise OR `0xFFFFFFFF` and pairwise AND `0`; and these are the
masks of the code: every addend of `haval_out` is the OR of the extra words
under their masks, then rotated or shifted. -/
theorem tailoring_masks_partition (s4 s5 s6 s7 : Nat) :
    (∀ p ∈ tailorPairs,
      (tailorMasks p.1 p.2).length = p.1
      ∧ maskUnion (tailorMasks p.1 p.2) = 0xFFFFFFFF
      ∧ (tailorMasks p.1 p.2).Pairwise (fun a b => a &&& b = 0))
    ∧ (mix128 s7 s4 s5 s6 24
          = SPH_ROTL32 ((s7 &&& maskAt 4 7 0) ||| (s4 &&& maskAt 4 4 0)
              ||| (s5 &&& maskAt 4 5 0) ||| (s6 &&& maskAt 4 6 0)) 24
      ∧ mix128 s6 s7 s4 s5 16
          = SPH_ROTL32 ((s6 &&& maskAt 4 6 1) ||| (s7 &&& maskAt 4 7 1)
              ||| (s4 &&& maskAt 4 4 1) ||| (s5 &&& maskAt 4 5 1)) 16
      ∧ mix128 s5 s6 s7 s4 8
          = SPH_ROTL32 ((s5 &&& maskAt 4 5 2) ||| (s6 &&& maskAt 4 6 2)
              ||| (s7 &&& maskAt 4 7 2) ||| (s4 &&& maskAt 4 4 2)) 8
      ∧ mix128 s4 s5 s6 s7 0
          = ((s4 &&& maskAt 4 4 3) ||| (s5 &&& maskAt 4 5 3)
              ||| (s6 &&& maskAt 4 6 3) ||| (s7 &&& maskAt 4 7 3)))
    ∧ (mix160_0 s5 s6 s7
          = SPH_ROTL32 ((s5 &&& maskAt 5 5 0) ||| (s6 &&& maskAt 5 6 0)
              ||| (s7 &&& maskAt 5 7 0)) 13
      ∧ mix160_1 s5 s6 s7
          = SPH_ROTL32 ((s5 &&& maskAt 5 5 1) ||| (s6 &&& maskAt 5 6 1)
              ||| (s7 &&& maskAt 5 7 1)) 7
      ∧ mix160_2 s5 s6 s7
          = ((s5 &&& maskAt 5 5 2) ||| (s6 &&& maskAt 5 6 2) ||| (s7 &&& maskAt 5 7 2))
      ∧ mix160_3 s5 s6 s7
          = ((s5 &&& maskAt 5 5 3) ||| (s6 &&& maskAt 5 6 3) ||| (s7 &&& maskAt 5 7 3)) >>> 6
      ∧ mix160_4 s5 s6 s7
          = ((s5 &&& maskAt 5 5 4) ||| (s6 &&& maskAt 5 6 4) ||| (s7 &&& maskAt 5 7 4))
              >>> 12)
    ∧ (mix192_0 s6 s7 = SPH_ROTL32 ((s6 &&& maskAt 6 6 0) ||| (s7 &&& maskAt 6 7 0)) 12
      ∧ mix192_1 s6 s7 = ((s6 &&& maskAt 6 6 1) ||| (s7 &&& maskAt 6 7 1))
      ∧ mix192_2 s6 s7 = ((s6 &&& maskAt 6 6 2) ||| (s7 &&& maskAt 6 7 2)) >>> 10
      ∧ mix192_3 s6 s7 = ((s6 &&& maskAt 6 6 3) ||| (s7 &&& maskAt 6 7 3)) >>> 20
      ∧ mix192_4 s6 s7 = ((s6 &&& maskAt 6 6 4) ||| (s7 &&& maskAt 6 7 4)) >>> 32
      ∧ mix192_5 s6 s7 = ((s6 &&& maskAt 6 6 5) ||| (s7 &&& maskAt 6 7 5)) >>> 42)
    ∧ ((s7 >>> 27) &&& 0x1F = (s7 &&& maskAt 7 7 0) >>> 27
      ∧ (s7 >>> 22) &&& 0x1F = (s7 &&& maskAt 7 7 1) >>> 22
      ∧ (s7 >>> 18) &&& 0x0F = (s7 &&& maskAt 7 7 2) >>> 18
      ∧ (s7 >>> 13) &&& 0x1F = (s7 &&& maskAt 7 7 3) >>> 13
      ∧ (s7 >>> 9) &&& 0x0F = (s7 &&& maskAt 7 7 4) >>> 9
      ∧ (s7 >>> 4) &&& 0x1F = (s7 &&& maskAt 7 7 5) >>> 4
      ∧ s7 &&& 0x0F = s7 &&& maskAt 7 7 6) := by
  refine ⟨by decide, ⟨rfl, rfl, rfl, rfl⟩, ⟨rfl, rfl, rfl, rfl, rfl⟩,
    ⟨rfl, rfl, rfl, rfl, rfl, rfl⟩, ?_⟩
  exact ⟨shiftRight_and_eq s7 0x1F 27, shiftRight_and_eq s7 0x1F 22,
    shiftRight_and_eq s7 0x0F 18, shiftRight_and_eq s7 0x1F 13, shiftRight_and_eq s7 0x0F 9,
    shiftRight_and_eq s7 0x1F 4, rfl⟩

/-! ### The byte assembly of `mix128` -/

theorem byteOf_eq_bitField (x k : Nat) : byteOf x k = bitField x (8 * k) 8 := rfl

theorem or_bytes (f0 f1 f2 f3 : Nat) (h0 : f0 < 2 ^ 8) (h1 : f1 < 2 ^ 8) (h2 : f2 < 2 ^ 8) :
    f0 ||| f1 * 2 ^ 8 ||| f2 * 2 ^ 16 ||| f3 * 2 ^ 24 = assembleBytes f0 f1 f2 f3 := by
  unfold assembleBytes
  have e1 : f0 ||| f1 * 2 ^ 8 = f0 + f1 * 2 ^ 8 := by
    rw [Nat.or_comm, Nat.mul_comm, ← Nat.mul_add_lt_is_or h0]
    omega
  have e2 : (f0 + f1 * 2 ^ 8) ||| f2 * 2 ^ 16 = f0 + f1 * 2 ^ 8 + f2 * 2 ^ 16 := by
    rw [Nat.or_comm, Nat.mul_comm, ← Nat.mul_add_lt_is_or (by omega)]
    omega
  have e3 : (f0 + f1 * 2 ^ 8 + f2 * 2 ^ 16) ||| f3 * 2 ^ 24
      = f0 + f1 * 2 ^ 8 + f2 * 2 ^ 16 + f3 * 2 ^ 24 := by
    rw [Nat.or_comm, Nat.mul_comm, ← Nat.mul_add_lt_is_or (by omega)]
    omega
  rw [e1, e2, e3]

/-- The word that `mix128` assembles before rotating: byte 0 of `a0`, byte 1 of
`a1`, byte 2 of `a2`, byte 3 of `a3`. -/
theorem mix128_assemble (a0 a1 a2 a3 : Nat) :
    (a0 &&& SPH_C32 0x000000FF) ||| (a1 &&& SPH_C32 0x0000FF00)
        ||| (a2 &&& SPH_C32 0x00FF0000) ||| (a3 &&& SPH_C32 0xFF000000)
      = assembleBytes (byteOf a0 0) (byteOf a1 1) (byteOf a2 2) (byteOf a3 3) := by
  have m0 : SPH_C32 0x000000FF = (2 ^ 8 - 1) <<< 0 := by decide
  have m1 : SPH_C32 0x0000FF00 = (2 ^ 8 - 1) <<< 8 := by decide
  have m2 : SPH_C32 0x00FF0000 = (2 ^ 8 - 1) <<< 16 := by decide
  have m3 : SPH_C32 0xFF000000 = (2 ^ 8 - 1) <<< 24 := by decide
  rw [m0, m1, m2, m3, and_shifted_mask, and_shifted_mask, and_shifted_mask, and_shifted_mask,
    Nat.pow_zero, Nat.mul_one]
  exact or_bytes _ _ _ _ (bitField_lt _ _ _) (bitField_lt _ _ _) (bitField_lt _ _ _)

theorem mix128_eq (a0 a1 a2 a3 n : Nat) :
    mix128 a0 a1 a2 a3 n
      = if n > 0 then
          SPH_ROTL32 (assembleBytes (byteOf a0 0) (byteOf a1 1) (byteOf a2 2) (byteOf a3 3)) n
        else assembleBytes (byteOf a0 0) (byteOf a1 1) (byteOf a2 2) (byteOf a3 3) := by
  unfold mix128
  simp only [mix128_assemble]

/-- C16: for `olen = 4`, output word `i` (`i = 0 .. 3`) is `(s_i + m_i) mod 2^32`
where `m_i` is the word assembled from byte 0 of the first argument, byte 1 of
the second, byte 2 of the third and byte 3 of the fourth, the argument orders
being `(s7,s4,s5,s6)`, `(s6,s7,s4,s5)`, `(s5,s6,s7,s4)`, `(s4,s5,s6,s7)`,
rotated left by 24, 16, 8 and 0 bits; `mix128` with `n = 0` returns the
assembled word unrotated. -/
theorem haval_out_128_bytes (sc : sph_haval_context) (dst : Nat → Nat) (h : sc.olen = 4) :
    digestWords (haval_out sc dst).2 4
        = [(sc.s0 + SPH_ROTL32 (assembleBytes (byteOf sc.s7 0) (byteOf sc.s4 1)
              (byteOf sc.s5 2) (byteOf sc.s6 3)) 24) % 2 ^ 32,
            (sc.s1 + SPH_ROTL32 (assembleBytes (byteOf sc.s6 0) (byteOf sc.s7 1)
              (byteOf sc.s4 2) (byteOf sc.s5 3)) 16) % 2 ^ 32,
            (sc.s2 + SPH_ROTL32 (assembleBytes (byteOf sc.s5 0) (byteOf sc.s6 1)
              (byteOf sc.s7 2) (byteOf sc.s4 3)) 8) % 2 ^ 32,
            (sc.s3 + assembleBytes (byteOf sc.s4 0) (byteOf sc.s5 1)
              (byteOf sc.s6 2) (byteOf sc.s7 3)) % 2 ^ 32]
    ∧ ∀ a0 a1 a2 a3 : Nat,
        mix128 a0 a1 a2 a3 0
          = assembleBytes (byteOf a0 0) (byteOf a1 1) (byteOf a2 2) (byteOf a3 3) := by
  constructor
  · rw [haval_out_buf_4 sc dst h]
    have e := digestWords_write_words
      [SPH_T32 (sc.s0 + mix128 sc.s7 sc.s4 sc.s5 sc.s6 24),
        SPH_T32 (sc.s1 + mix128 sc.s6 sc.s7 sc.s4 sc.s5 16),
        SPH_T32 (sc.s2 + mix128 sc.s5 sc.s6 sc.s7 sc.s4 8),
        SPH_T32 (sc.s3 + mix128 sc.s4 sc.s5 sc.s6 sc.s7 0)] dst
    simp only [List.length_cons, List.length_nil, List.map_cons, List.map_nil,
      SPH_T32_mod] at e
    rw [e]
    simp [mix128_eq, SPH_T32]
  · intro a0 a1 a2 a3
    simp [mix128_eq]

/-- Witness of C16: a context with `olen = 4`. -/
theorem haval_out_128_bytes_witness :
    (⟨1, 2, 3, 4, 0x11223344, 0x55667788, 0x99AABBCC, 0xDDEEFF00, 4, 3, 0, 0, 0⟩ :
        sph_haval_context).olen = 4
    ∧ digestWords (haval_out
        ⟨1, 2, 3, 4, 0x11223344, 0x55667788, 0x99AABBCC, 0xDDEEFF00, 4, 3, 0, 0, 0⟩
        (fun _ => 0)).2 4
      = [(1 + SPH_ROTL32 (assembleBytes (byteOf 0xDDEEFF00 0) (byteOf 0x11223344 1)
            (byteOf 0x55667788 2) (byteOf 0x99AABBCC 3)) 24) % 2 ^ 32,
          (2 + SPH_ROTL32 (assembleBytes (byteOf 0x99AABBCC 0) (byteOf 0xDDEEFF00 1)
            (byteOf 0x11223344 2) (byteOf 0x55667788 3)) 16) % 2 ^ 32,
          (3 + SPH_ROTL32 (assembleBytes (byteOf 0x55667788 0) (byteOf 0x99AABBCC 1)
            (byteOf 0xDDEEFF00 2) (byteOf 0x11223344 3)) 8) % 2 ^ 32,
          (4 + assembleBytes (byteOf 0x11223344 0) (byteOf 0x55667788 1)
            (byteOf 0x99AABBCC 2) (byteOf 0xDDEEFF00 3)) % 2 ^ 32]
    ∧ mix128 0x11223344 0x55667788 0x99AABBCC 0xDDEEFF00 0
        = assembleBytes (byteOf 0x11223344 0) (byteOf 0x55667788 1) (byteOf 0x99AABBCC 2)
            (byteOf 0xDDEEFF00 3) :=
  ⟨by decide,
    (haval_out_128_bytes
      ⟨1, 2, 3, 4, 0x11223344, 0x55667788, 0x99AABBCC, 0xDDEEFF00, 4, 3, 0, 0, 0⟩
      (fun _ => 0) (by decide)).1,
    (haval_out_128_bytes
      ⟨1, 2, 3, 4, 0x11223344, 0x55667788, 0x99AABBCC, 0xDDEEFF00, 4, 3, 0, 0, 0⟩
      (fun _ => 0) (by decide)).2 0x11223344 0x55667788 0x99AABBCC 0xDDEEFF00⟩

/-! ### Recovering the masked words from a tailoring addend -/

theorem masked3_and (x y z a b c m : Nat) :
    ((x &&& a) ||| (y &&& b) ||| (z &&& c)) &&& m
      = (x &&& (a &&& m)) ||| (y &&& (b &&& m)) ||| (z &&& (c &&& m)) := by
  rw [Nat.and_distrib_right, Nat.and_distrib_right, Nat.and_assoc, Nat.and_assoc,
    Nat.and_assoc]

/-- Three words under pairwise disjoint masks are recovered from their OR. -/
theorem masked3_inj {a b c x y z x' y' z' : Nat} (hab : a &&& b = 0) (hac : a &&& c = 0)
    (hbc : b &&& c = 0)
    (h : (x &&& a) ||| (y &&& b) ||| (z &&& c) = (x' &&& a) ||| (y' &&& b) ||| (z' &&& c)) :
    x &&& a = x' &&& a ∧ y &&& b = y' &&& b ∧ z &&& c = z' &&& c := by
  have hba : b &&& a = 0 := by rw [Nat.and_comm]; exact hab
  have hca : c &&& a = 0 := by rw [Nat.and_comm]; exact hac
  have hcb : c &&& b = 0 := by rw [Nat.and_comm]; exact hbc
  have ea := congrArg (fun t => t &&& a) h
  have eb := congrArg (fun t => t &&& b) h
  have ec := congrArg (fun t => t &&& c) h
  simp only [masked3_and, Nat.and_self, hba, hca, hab, hcb, hac, hbc, Nat.and_zero,
    Nat.or_zero, Nat.zero_or] at ea eb ec
  exact ⟨ea, eb, ec⟩

/-- The OR of three masked words has no bit in `l` when no mask has. -/
theorem masked3_low {a b c l : Nat} (x y z : Nat) (ha : a &&& l = 0) (hb : b &&& l = 0)
    (hc : c &&& l = 0) : ((x &&& a) ||| (y &&& b) ||| (z &&& c)) &&& l = 0 := by
  simp only [masked3_and, ha, hb, hc, Nat.and_zero, Nat.or_zero]

theorem masked3_lt {a b c : Nat} (x y z : Nat) (ha : a < 2 ^ 32) (hb : b < 2 ^ 32)
    (hc : c < 2 ^ 32) : (x &&& a) ||| (y &&& b) ||| (z &&& c) < 2 ^ 32 :=
  Nat.or_lt_two_pow (Nat.or_lt_two_pow (Nat.and_lt_two_pow _ ha) (Nat.and_lt_two_pow _ hb))
    (Nat.and_lt_two_pow _ hc)

/-- A right shift loses nothing of a word whose low `k` bits are zero. -/
theorem shiftRight_inj {t t' k : Nat} (hz : t &&& (2 ^ k - 1) = 0)
    (hz' : t' &&& (2 ^ k - 1) = 0) (h : t >>> k = t' >>> k) : t = t' := by
  rw [Nat.and_pow_two_sub_one_eq_mod] at hz hz'
  rw [Nat.shiftRight_eq_div_pow, Nat.shiftRight_eq_div_pow] at h
  rw [← Nat.div_add_mod t (2 ^ k), ← Nat.div_add_mod t' (2 ^ k), hz, hz', h]

/-- The rotation of 32-bit words is injective. -/
theorem SPH_ROTL32_inj {x y r : Nat} (hx : x < 2 ^ 32) (hy : y < 2 ^ 32) (hr : r < 32)
    (h : SPH_ROTL32 x r = SPH_ROTL32 y r) : x = y := by
  apply Nat.eq_of_testBit_eq; intro j
  by_cases hj : j < 32
  · have hi : (j + r) % 32 < 32 := Nat.mod_lt _ (by norm_num)
    have e := congrArg (fun t => t.testBit ((j + r) % 32)) h
    simp only [testBit_SPH_ROTL32 hx hr hi, testBit_SPH_ROTL32 hy hr hi] at e
    have ej : ((j + r) % 32 + 32 - r) % 32 = j := by omega
    rwa [ej] at e
  · rw [testBit_word_high hx (by omega), testBit_word_high hy (by omega)]

/-- Addition modulo `2^32` of a fixed word is injective on 32-bit words. -/
theorem add_mod_inj {s m m' : Nat} (hm : m < 2 ^ 32) (hm' : m' < 2 ^ 32)
    (h : (s + m) % 2 ^ 32 = (s + m') % 2 ^ 32) : m = m' := by
  omega

/-- A 32-bit word is determined by what it has under masks whose OR is
`0xFFFFFFFF`. -/
theorem word_eq_of_and_eq {x y m : Nat} (hx : x < 2 ^ 32) (hy : y < 2 ^ 32)
    (hm : m = 0xFFFFFFFF) (h : x &&& m = y &&& m) : x = y := by
  subst hm
  have ex := Nat.and_pow_two_sub_one_of_lt_two_pow hx
  have ey := Nat.and_pow_two_sub_one_of_lt_two_pow hy
  norm_num at ex ey
  rw [← ex, ← ey]
  exact h

theorem and_or_eq {x y a b : Nat} (ha : x &&& a = y &&& a) (hb : x &&& b = y &&& b) :
    x &&& (a ||| b) = y &&& (a ||| b) := by
  rw [Nat.and_or_distrib_left, Nat.and_or_distrib_left, ha, hb]

/-- The five addends of the 160-bit tailoring determine `x5`, `x6`, `x7`. -/
theorem mix160_injective {x5 x6 x7 y5 y6 y7 : Nat} (hx5 : x5 < 2 ^ 32) (hx6 : x6 < 2 ^ 32)
    (hx7 : x7 < 2 ^ 32) (hy5 : y5 < 2 ^ 32) (hy6 : y6 < 2 ^ 32) (hy7 : y7 < 2 ^ 32)
    (h0 : mix160_0 x5 x6 x7 = mix160_0 y5 y6 y7)
    (h1 : mix160_1 x5 x6 x7 = mix160_1 y5 y6 y7)
    (h2 : mix160_2 x5 x6 x7 = mix160_2 y5 y6 y7)
    (h3 : mix160_3 x5 x6 x7 = mix160_3 y5 y6 y7)
    (h4 : mix160_4 x5 x6 x7 = mix160_4 y5 y6 y7) :
    x5 = y5 ∧ x6 = y6 ∧ x7 = y7 := by
  simp only [mix160_0, mix160_1, mix160_2, mix160_3, mix160_4, SPH_C32] at h0 h1 h2 h3 h4
  have t0 := SPH_ROTL32_inj
    (masked3_lt x5 x6 x7 (by decide) (by decide) (by decide))
    (masked3_lt y5 y6 y7 (by decide) (by decide) (by decide)) (by decide) h0
  have t1 := SPH_ROTL32_inj
    (masked3_lt x5 x6 x7 (by decide) (by decide) (by decide))
    (masked3_lt y5 y6 y7 (by decide) (by decide) (by decide)) (by decide) h1
  have t3 := shiftRight_inj
    (masked3_low x5 x6 x7 (by decide) (by decide) (by decide))
    (masked3_low y5 y6 y7 (by decide) (by decide) (by decide)) h3
  have t4 := shiftRight_inj
    (masked3_low x5 x6 x7 (by decide) (by decide) (by decide))
    (masked3_low y5 y6 y7 (by decide) (by decide) (by decide)) h4
  obtain ⟨a0, b0, c0⟩ := masked3_inj (by decide) (by decide) (by decide) t0
  obtain ⟨a1, b1, c1⟩ := masked3_inj (by decide) (by decide) (by decide) t1
  obtain ⟨a2, b2, c2⟩ := masked3_inj (by decide) (by decide) (by decide) h2
  obtain ⟨a3, b3, c3⟩ := masked3_inj (by decide) (by decide) (by decide) t3
  obtain ⟨a4, b4, c4⟩ := masked3_inj (by decide) (by decide) (by decide) t4
  exact ⟨word_eq_of_and_eq hx5 hy5 (by decide)
      (and_or_eq (and_or_eq (and_or_eq (and_or_eq a0 a1) a2) a3) a4),
    word_eq_of_and_eq hx6 hy6 (by decide)
      (and_or_eq (and_or_eq (and_or_eq (and_or_eq b0 b1) b2) b3) b4),
    word_eq_of_and_eq hx7 hy7 (by decide)
      (and_or_eq (and_or_eq (and_or_eq (and_or_eq c0 c1) c2) c3) c4)⟩

theorem masked4_and (x y z w a b c d m : Nat) :
    ((x &&& a) ||| (y &&& b) ||| (z &&& c) ||| (w &&& d)) &&& m
      = (x &&& (a &&& m)) ||| (y &&& (b &&& m)) ||| (z &&& (c &&& m))
          ||| (w &&& (d &&& m)) := by
  rw [Nat.and_distrib_right, masked3_and, Nat.and_assoc]

/-- Four words under pairwise disjoint masks are recovered from their OR. -/
theorem masked4_inj {a b c d x y z w x' y' z' w' : Nat} (hab : a &&& b = 0)
    (hac : a &&& c = 0) (had : a &&& d = 0) (hbc : b &&& c = 0) (hbd : b &&& d = 0)
    (hcd : c &&& d = 0)
    (h : (x &&& a) ||| (y &&& b) ||| (z &&& c) ||| (w &&& d)
      = (x' &&& a) ||| (y' &&& b) ||| (z' &&& c) ||| (w' &&& d)) :
    x &&& a = x' &&& a ∧ y &&& b = y' &&& b ∧ z &&& c = z' &&& c ∧ w &&& d = w' &&& d := by
  have hba : b &&& a = 0 := by rw [Nat.and_comm]; exact hab
  have hca : c &&& a = 0 := by rw [Nat.and_comm]; exact hac
  have hda : d &&& a = 0 := by rw [Nat.and_comm]; exact had
  have hcb : c &&& b = 0 := by rw [Nat.and_comm]; exact hbc
  have hdb : d &&& b = 0 := by rw [Nat.and_comm]; exact hbd
  have hdc : d &&& c = 0 := by rw [Nat.and_comm]; exact hcd
  have ea := congrArg (fun t => t &&& a) h
  have eb := congrArg (fun t => t &&& b) h
  have ec := congrArg (fun t => t &&& c) h
  have ed := congrArg (fun t => t &&& d) h
  simp only [masked4_and, Nat.and_self, hab, hac, had, hbc, hbd, hcd, hba, hca, hda, hcb,
    hdb, hdc, Nat.and_zero, Nat.or_zero, Nat.zero_or] at ea eb ec ed
  exact ⟨ea, eb, ec, ed⟩

theorem masked4_lt {a b c d : Nat} (x y z w : Nat) (ha : a < 2 ^ 32) (hb : b < 2 ^ 32)
    (hc : c < 2 ^ 32) (hd : d < 2 ^ 32) :
    (x &&& a) ||| (y &&& b) ||| (z &&& c) ||| (w &&& d) < 2 ^ 32 :=
  Nat.or_lt_two_pow (masked3_lt x y z ha hb hc) (Nat.and_lt_two_pow _ hd)

/-- The four `mix128` addends of the 128-bit tailoring determine `x4 .. x7`. -/
theorem mix128_injective {x4 x5 x6 x7 y4 y5 y6 y7 : Nat} (hx4 : x4 < 2 ^ 32)
    (hx5 : x5 < 2 ^ 32) (hx6 : x6 < 2 ^ 32) (hx7 : x7 < 2 ^ 32) (hy4 : y4 < 2 ^ 32)
    (hy5 : y5 < 2 ^ 32) (hy6 : y6 < 2 ^ 32) (hy7 : y7 < 2 ^ 32)
    (h0 : mix128 x7 x4 x5 x6 24 = mix128 y7 y4 y5 y6 24)
    (h1 : mix128 x6 x7 x4 x5 16 = mix128 y6 y7 y4 y5 16)
    (h2 : mix128 x5 x6 x7 x4 8 = mix128 y5 y6 y7 y4 8)
    (h3 : mix128 x4 x5 x6 x7 0 = mix128 y4 y5 y6 y7 0) :
    x4 = y4 ∧ x5 = y5 ∧ x6 = y6 ∧ x7 = y7 := by
  simp only [mix128, SPH_C32, gt_iff_lt, Nat.lt_irrefl, if_false, Nat.zero_lt_succ,
    show (0 : Nat) < 24 from by decide, show (0 : Nat) < 16 from by decide,
    show (0 : Nat) < 8 from by decide, if_true] at h0 h1 h2 h3
  have t0 := SPH_ROTL32_inj
    (masked4_lt x7 x4 x5 x6 (by decide) (by decide) (by decide) (by decide))
    (masked4_lt y7 y4 y5 y6 (by decide) (by decide) (by decide) (by decide)) (by decide) h0
  have t1 := SPH_ROTL32_inj
    (masked4_lt x6 x7 x4 x5 (by decide) (by decide) (by decide) (by decide))
    (masked4_lt y6 y7 y4 y5 (by decide) (by decide) (by decide) (by decide)) (by decide) h1
  have t2 := SPH_ROTL32_inj
    (masked4_lt x5 x6 x7 x4 (by decide) (by decide) (by decide) (by decide))
    (masked4_lt y5 y6 y7 y4 (by decide) (by decide) (by decide) (by decide)) (by decide) h2
  obtain ⟨a0, b0, c0, d0⟩ :=
    masked4_inj (by decide) (by decide) (by decide) (by decide) (by decide) (by decide) t0
  obtain ⟨a1, b1, c1, d1⟩ :=
    masked4_inj (by decide) (by decide) (by decide) (by decide) (by decide) (by decide) t1
  obtain ⟨a2, b2, c2, d2⟩ :=
    masked4_inj (by decide) (by decide) (by decide) (by decide) (by decide) (by decide) t2
  obtain ⟨a3, b3, c3, d3⟩ :=
    masked4_inj (by decide) (by decide) (by decide) (by decide) (by decide) (by decide) h3
  exact ⟨word_eq_of_and_eq hx4 hy4 (by decide) (and_or_eq (and_or_eq (and_or_eq a3 b0) c1) d2),
    word_eq_of_and_eq hx5 hy5 (by decide) (and_or_eq (and_or_eq (and_or_eq a2 b3) c0) d1),
    word_eq_of_and_eq hx6 hy6 (by decide) (and_or_eq (and_or_eq (and_or_eq a1 b2) c3) d0),
    word_eq_of_and_eq hx7 hy7 (by decide) (and_or_eq (and_or_eq (and_or_eq a0 b1) c2) d3)⟩

theorem shiftRight_lt {t k : Nat} (h : t < 2 ^ 32) : t >>> k < 2 ^ 32 := by
  rw [Nat.shiftRight_eq_div_pow]
  exact lt_of_le_of_lt (Nat.div_le_self _ _) h

theorem mix160_lt (x5 x6 x7 : Nat) :
    mix160_0 x5 x6 x7 < 2 ^ 32 ∧ mix160_1 x5 x6 x7 < 2 ^ 32 ∧ mix160_2 x5 x6 x7 < 2 ^ 32
      ∧ mix160_3 x5 x6 x7 < 2 ^ 32 ∧ mix160_4 x5 x6 x7 < 2 ^ 32 := by
  refine ⟨SPH_ROTL32_lt _ _, SPH_ROTL32_lt _ _,
    masked3_lt x5 x6 x7 (by decide) (by decide) (by decide), ?_, ?_⟩
  · exact shiftRight_lt (masked3_lt x5 x6 x7 (by decide) (by decide) (by decide))
  · exact shiftRight_lt (masked3_lt x5 x6 x7 (by decide) (by decide) (by decide))

theorem mix128_lt (a0 a1 a2 a3 n : Nat) : mix128 a0 a1 a2 a3 n < 2 ^ 32 := by
  unfold mix128
  by_cases h : n > 0
  · simp only [h, if_true]
    exact SPH_ROTL32_lt _ _
  · simp only [h, if_false]
    exact masked4_lt a0 a1 a2 a3 (by decide) (by decide) (by decide) (by decide)

theorem digestWords_haval_out_4 (sc : sph_haval_context) (dst : Nat → Nat) (h : sc.olen = 4) :
    digestWords (haval_out sc dst).2 4
      = [(sc.s0 + mix128 sc.s7 sc.s4 sc.s5 sc.s6 24) % 2 ^ 32,
          (sc.s1 + mix128 sc.s6 sc.s7 sc.s4 sc.s5 16) % 2 ^ 32,
          (sc.s2 + mix128 sc.s5 sc.s6 sc.s7 sc.s4 8) % 2 ^ 32,
          (sc.s3 + mix128 sc.s4 sc.s5 sc.s6 sc.s7 0) % 2 ^ 32] := by
  rw [haval_out_buf_4 sc dst h]
  have e := digestWords_write_words
    [SPH_T32 (sc.s0 + mix128 sc.s7 sc.s4 sc.s5 sc.s6 24),
      SPH_T32 (sc.s1 + mix128 sc.s6 sc.s7 sc.s4 sc.s5 16),
      SPH_T32 (sc.s2 + mix128 sc.s5 sc.s6 sc.s7 sc.s4 8),
      SPH_T32 (sc.s3 + mix128 sc.s4 sc.s5 sc.s6 sc.s7 0)] dst
  simp only [List.length_cons, List.length_nil, List.map_cons, List.map_nil,
    SPH_T32_mod] at e
  rw [e]
  rfl

theorem digestWords_haval_out_5 (sc : sph_haval_context) (dst : Nat → Nat) (h : sc.olen = 5) :
    digestWords (haval_out sc dst).2 5
      = [(sc.s0 + mix160_0 sc.s5 sc.s6 sc.s7) % 2 ^ 32,
          (sc.s1 + mix160_1 sc.s5 sc.s6 sc.s7) % 2 ^ 32,
          (sc.s2 + mix160_2 sc.s5 sc.s6 sc.s7) % 2 ^ 32,
          (sc.s3 + mix160_3 sc.s5 sc.s6 sc.s7) % 2 ^ 32,
          (sc.s4 + mix160_4 sc.s5 sc.s6 sc.s7) % 2 ^ 32] := by
  rw [haval_out_buf_5 sc dst h]
  have e := digestWords_write_words
    [SPH_T32 (sc.s0 + mix160_0 sc.s5 sc.s6 sc.s7),
      SPH_T32 (sc.s1 + mix160_1 sc.s5 sc.s6 sc.s7),
      SPH_T32 (sc.s2 + mix160_2 sc.s5 sc.s6 sc.s7),
      SPH_T32 (sc.s3 + mix160_3 sc.s5 sc.s6 sc.s7),
      SPH_T32 (sc.s4 + mix160_4 sc.s5 sc.s6 sc.s7)] dst
  simp only [List.length_cons, List.length_nil, List.map_cons, List.map_nil,
    SPH_T32_mod] at e
  rw [e]
  rfl

/-- C17, at the failing input: two contexts with `olen = 6` that differ only in
bit 5 of `s6` give the same output, because `mix192_2` shifts the field of `s6`
at bits 5..9 right by 10: the 192-bit tailoring is not injective in
`(s6, s7)`. Moreover the addends `mix192_4` and `mix192_5`, shifted right by 32
and 42, are 0 for all words. -/
theorem haval_out_192_not_injective :
    (⟨1, 2, 3, 4, 5, 6, 0x082EFA98, 0xEC4E6C89, 6, 3, 0, 0, 0⟩ : sph_haval_context).s6
        ≠ (⟨1, 2, 3, 4, 5, 6, 0x082EFAB8, 0xEC4E6C89, 6, 3, 0, 0, 0⟩ : sph_haval_context).s6
    ∧ (∀ dst : Nat → Nat,
        (haval_out ⟨1, 2, 3, 4, 5, 6, 0x082EFA98, 0xEC4E6C89, 6, 3, 0, 0, 0⟩ dst).2
          = (haval_out ⟨1, 2, 3, 4, 5, 6, 0x082EFAB8, 0xEC4E6C89, 6, 3, 0, 0, 0⟩ dst).2)
    ∧ mix192_2 0x082EFA98 0xEC4E6C89 = mix192_2 0x082EFAB8 0xEC4E6C89
    ∧ (∀ x6 x7 : Nat, mix192_4 x6 x7 = 0 ∧ mix192_5 x6 x7 = 0) := by
  refine ⟨by decide, fun dst => ?_, by decide, fun x6 x7 => ?_⟩
  · have e0 : mix192_0 0x082EFA98 0xEC4E6C89 = mix192_0 0x082EFAB8 0xEC4E6C89 := by decide
    have e1 : mix192_1 0x082EFA98 0xEC4E6C89 = mix192_1 0x082EFAB8 0xEC4E6C89 := by decide
    have e2 : mix192_2 0x082EFA98 0xEC4E6C89 = mix192_2 0x082EFAB8 0xEC4E6C89 := by decide
    have e3 : mix192_3 0x082EFA98 0xEC4E6C89 = mix192_3 0x082EFAB8 0xEC4E6C89 := by decide
    have e4 : mix192_4 0x082EFA98 0xEC4E6C89 = mix192_4 0x082EFAB8 0xEC4E6C89 := by decide
    have e5 : mix192_5 0x082EFA98 0xEC4E6C89 = mix192_5 0x082EFAB8 0xEC4E6C89 := by decide
    simp only [haval_out, RSTATE, e0, e1, e2, e3, e4, e5]
  · have b4 : (x6 &&& SPH_C32 0x001F0000) ||| (x7 &&& SPH_C32 0x03E00000) < 2 ^ 32 :=
      Nat.or_lt_two_pow (Nat.and_lt_two_pow _ (by decide)) (Nat.and_lt_two_pow _ (by decide))
    have b5 : (x6 &&& SPH_C32 0x03E00000) ||| (x7 &&& SPH_C32 0xFC000000) < 2 ^ 32 :=
      Nat.or_lt_two_pow (Nat.and_lt_two_pow _ (by decide)) (Nat.and_lt_two_pow _ (by decide))
    constructor
    · unfold mix192_4
      rw [Nat.shiftRight_eq_div_pow]
      exact Nat.div_eq_of_lt b4
    · unfold mix192_5
      rw [Nat.shiftRight_eq_div_pow]
      exact Nat.div_eq_of_lt (lt_trans b5 (by norm_num))

/-- C18: for `olen = 5` and 32-bit state words, the five addends
`mix160_0 .. mix160_4` of `(s5, s6, s7)` determine `s5`, `s6` and `s7`, and for
fixed `s0 .. s4` the five output words determine them: the map from
`(s5, s6, s7)` to the output is injective. -/
theorem haval_out_160_injective (sc sc' : sph_haval_context) (dst dst' : Nat → Nat)
    (h : sc.olen = 5) (h' : sc'.olen = 5)
    (hs : sc.s0 = sc'.s0 ∧ sc.s1 = sc'.s1 ∧ sc.s2 = sc'.s2 ∧ sc.s3 = sc'.s3
      ∧ sc.s4 = sc'.s4)
    (hx : sc.s5 < 2 ^ 32 ∧ sc.s6 < 2 ^ 32 ∧ sc.s7 < 2 ^ 32)
    (hy : sc'.s5 < 2 ^ 32 ∧ sc'.s6 < 2 ^ 32 ∧ sc'.s7 < 2 ^ 32) :
    ((mix160_0 sc.s5 sc.s6 sc.s7 = mix160_0 sc'.s5 sc'.s6 sc'.s7
        ∧ mix160_1 sc.s5 sc.s6 sc.s7 = mix160_1 sc'.s5 sc'.s6 sc'.s7
        ∧ mix160_2 sc.s5 sc.s6 sc.s7 = mix160_2 sc'.s5 sc'.s6 sc'.s7
        ∧ mix160_3 sc.s5 sc.s6 sc.s7 = mix160_3 sc'.s5 sc'.s6 sc'.s7
        ∧ mix160_4 sc.s5 sc.s6 sc.s7 = mix160_4 sc'.s5 sc'.s6 sc'.s7) →
      sc.s5 = sc'.s5 ∧ sc.s6 = sc'.s6 ∧ sc.s7 = sc'.s7)
    ∧ (digestWords (haval_out sc dst).2 5 = digestWords (haval_out sc' dst').2 5 →
      sc.s5 = sc'.s5 ∧ sc.s6 = sc'.s6 ∧ sc.s7 = sc'.s7) := by
  have key : (mix160_0 sc.s5 sc.s6 sc.s7 = mix160_0 sc'.s5 sc'.s6 sc'.s7
        ∧ mix160_1 sc.s5 sc.s6 sc.s7 = mix160_1 sc'.s5 sc'.s6 sc'.s7
        ∧ mix160_2 sc.s5 sc.s6 sc.s7 = mix160_2 sc'.s5 sc'.s6 sc'.s7
        ∧ mix160_3 sc.s5 sc.s6 sc.s7 = mix160_3 sc'.s5 sc'.s6 sc'.s7
        ∧ mix160_4 sc.s5 sc.s6 sc.s7 = mix160_4 sc'.s5 sc'.s6 sc'.s7) →
      sc.s5 = sc'.s5 ∧ sc.s6 = sc'.s6 ∧ sc.s7 = sc'.s7 := fun e =>
    mix160_injective hx.1 hx.2.1 hx.2.2 hy.1 hy.2.1 hy.2.2 e.1 e.2.1 e.2.2.1 e.2.2.2.1
      e.2.2.2.2
  refine ⟨key, fun e => key ?_⟩
  rw [digestWords_haval_out_5 sc dst h, digestWords_haval_out_5 sc' dst' h'] at e
  simp only [List.cons.injEq, and_true] at e
  obtain ⟨l, l', k, k', j⟩ := mix160_lt sc.s5 sc.s6 sc.s7
  obtain ⟨m, m', n, n', o⟩ := mix160_lt sc'.s5 sc'.s6 sc'.s7
  rw [← hs.1, ← hs.2.1, ← hs.2.2.1, ← hs.2.2.2.1, ← hs.2.2.2.2] at e
  exact ⟨add_mod_inj l m e.1, add_mod_inj l' m' e.2.1, add_mod_inj k n e.2.2.1,
    add_mod_inj k' n' e.2.2.2.1, add_mod_inj j o e.2.2.2.2⟩

/-- Witness of C18: two contexts with `olen = 5`, the same 32-bit state, and
different pass counts and bit counters. -/
theorem haval_out_160_injective_witness :
    ((⟨1, 2, 3, 4, 5, 0x299F31D0, 0x082EFA98, 0xEC4E6C89, 5, 3, 0, 0, 0⟩ :
          sph_haval_context).olen = 5
      ∧ (⟨1, 2, 3, 4, 5, 0x299F31D0, 0x082EFA98, 0xEC4E6C89, 5, 4, 8, 0, 8⟩ :
          sph_haval_context).olen = 5)
    ∧ (⟨1, 2, 3, 4, 5, 0x299F31D0, 0x082EFA98, 0xEC4E6C89, 5, 3, 0, 0, 0⟩ :
          sph_haval_context).s5
        = (⟨1, 2, 3, 4, 5, 0x299F31D0, 0x082EFA98, 0xEC4E6C89, 5, 4, 8, 0, 8⟩ :
          sph_haval_context).s5 :=
  ⟨by decide,
    ((haval_out_160_injective
      ⟨1, 2, 3, 4, 5, 0x299F31D0, 0x082EFA98, 0xEC4E6C89, 5, 3, 0, 0, 0⟩
      ⟨1, 2, 3, 4, 5, 0x299F31D0, 0x082EFA98, 0xEC4E6C89, 5, 4, 8, 0, 8⟩
      (fun _ => 0) (fun _ => 0) (by decide) (by decide) (by decide) (by decide)
      (by decide)).2 (by decide)).1⟩

/-- C19: for `olen = 4` and 32-bit state words, the four `mix128` addends
determine `s4`, `s5`, `s6` and `s7`, and for fixed `s0 .. s3` the four output
words determine them: the map from `(s4, s5, s6, s7)` to the output is
injective. -/
theorem haval_out_128_injective (sc sc' : sph_haval_context) (dst dst' : Nat → Nat)
    (h : sc.olen = 4) (h' : sc'.olen = 4)
    (hs : sc.s0 = sc'.s0 ∧ sc.s1 = sc'.s1 ∧ sc.s2 = sc'.s2 ∧ sc.s3 = sc'.s3)
    (hx : sc.s4 < 2 ^ 32 ∧ sc.s5 < 2 ^ 32 ∧ sc.s6 < 2 ^ 32 ∧ sc.s7 < 2 ^ 32)
    (hy : sc'.s4 < 2 ^ 32 ∧ sc'.s5 < 2 ^ 32 ∧ sc'.s6 < 2 ^ 32 ∧ sc'.s7 < 2 ^ 32) :
    ((mix128 sc.s7 sc.s4 sc.s5 sc.s6 24 = mix128 sc'.s7 sc'.s4 sc'.s5 sc'.s6 24
        ∧ mix128 sc.s6 sc.s7 sc.s4 sc.s5 16 = mix128 sc'.s6 sc'.s7 sc'.s4 sc'.s5 16
        ∧ mix128 sc.s5 sc.s6 sc.s7 sc.s4 8 = mix128 sc'.s5 sc'.s6 sc'.s7 sc'.s4 8
        ∧ mix128 sc.s4 sc.s5 sc.s6 sc.s7 0 = mix128 sc'.s4 sc'.s5 sc'.s6 sc'.s7 0) →
      sc.s4 = sc'.s4 ∧ sc.s5 = sc'.s5 ∧ sc.s6 = sc'.s6 ∧ sc.s7 = sc'.s7)
    ∧ (digestWords (haval_out sc dst).2 4 = digestWords (haval_out sc' dst').2 4 →
      sc.s4 = sc'.s4 ∧ sc.s5 = sc'.s5 ∧ sc.s6 = sc'.s6 ∧ sc.s7 = sc'.s7) := by
  have key : (mix128 sc.s7 sc.s4 sc.s5 sc.s6 24 = mix128 sc'.s7 sc'.s4 sc'.s5 sc'.s6 24
        ∧ mix128 sc.s6 sc.s7 sc.s4 sc.s5 16 = mix128 sc'.s6 sc'.s7 sc'.s4 sc'.s5 16
        ∧ mix128 sc.s5 sc.s6 sc.s7 sc.s4 8 = mix128 sc'.s5 sc'.s6 sc'.s7 sc'.s4 8
        ∧ mix128 sc.s4 sc.s5 sc.s6 sc.s7 0 = mix128 sc'.s4 sc'.s5 sc'.s6 sc'.s7 0) →
      sc.s4 = sc'.s4 ∧ sc.s5 = sc'.s5 ∧ sc.s6 = sc'.s6 ∧ sc.s7 = sc'.s7 := fun e =>
    mix128_injective hx.1 hx.2.1 hx.2.2.1 hx.2.2.2 hy.1 hy.2.1 hy.2.2.1 hy.2.2.2
      e.1 e.2.1 e.2.2.1 e.2.2.2
  refine ⟨key, fun e => key ?_⟩
  rw [digestWords_haval_out_4 sc dst h, digestWords_haval_out_4 sc' dst' h'] at e
  simp only [List.cons.injEq, and_true] at e
  rw [← hs.1, ← hs.2.1, ← hs.2.2.1, ← hs.2.2.2] at e
  exact ⟨add_mod_inj (mix128_lt _ _ _ _ _) (mix128_lt _ _ _ _ _) e.1,
    add_mod_inj (mix128_lt _ _ _ _ _) (mix128_lt _ _ _ _ _) e.2.1,
    add_mod_inj (mix128_lt _ _ _ _ _) (mix128_lt _ _ _ _ _) e.2.2.1,
    add_mod_inj (mix128_lt _ _ _ _ _) (mix128_lt _ _ _ _ _) e.2.2.2⟩

/-- Witness of C19: two contexts with `olen = 4`, the same 32-bit state, and
different pass counts and bit counters. -/
theorem haval_out_128_injective_witness :
    ((⟨1, 2, 3, 4, 0xA4093822, 0x299F31D0, 0x082EFA98, 0xEC4E6C89, 4, 3, 0, 0, 0⟩ :
          sph_haval_context).olen = 4
      ∧ (⟨1, 2, 3, 4, 0xA4093822, 0x299F31D0, 0x082EFA98, 0xEC4E6C89, 4, 5, 8, 0, 8⟩ :
          sph_haval_context).olen = 4)
    ∧ (⟨1, 2, 3, 4, 0xA4093822, 0x299F31D0, 0x082EFA98, 0xEC4E6C89, 4, 3, 0, 0, 0⟩ :
          sph_haval_context).s4
        = (⟨1, 2, 3, 4, 0xA4093822, 0x299F31D0, 0x082EFA98, 0xEC4E6C89, 4, 5, 8, 0, 8⟩ :
          sph_haval_context).s4 :=
  ⟨by decide,
    ((haval_out_128_injective
      ⟨1, 2, 3, 4, 0xA4093822, 0x299F31D0, 0x082EFA98, 0xEC4E6C89, 4, 3, 0, 0, 0⟩
      ⟨1, 2, 3, 4, 0xA4093822, 0x299F31D0, 0x082EFA98, 0xEC4E6C89, 4, 5, 8, 0, 8⟩
      (fun _ => 0) (fun _ => 0) (by decide) (by decide) (by decide) (by decide)
      (by decide)).2 (by decide)).1⟩

/-! ### The checked tailoring -/

theorem SPH_ROTL32_checked_eq {x n : Nat} (h0 : 0 < n) (hn : n < 32) :
    SPH_ROTL32_checked x n = some (SPH_ROTL32 x n) := by
  have h2 : 32 - n < 32 := by omega
  simp [SPH_ROTL32_checked, shl32, shr32, SPH_ROTL32, hn, h2]

/-- For every digest length other than 6 words every shift of `haval_out` is
defined, and the checked form returns what `haval_out` returns. -/
theorem haval_out_checked_eq (sc : sph_haval_context) (dst : Nat → Nat) (h : sc.olen ≠ 6) :
    haval_out_checked sc dst = some (haval_out sc dst) := by
  by_cases h4 : sc.olen = 4
  · simp [haval_out_checked, haval_out, h4, mix128_checked, mix128, SPH_ROTL32_checked_eq]
  by_cases h5 : sc.olen = 5
  · simp [haval_out_checked, haval_out, h5, mix160_0_checked, mix160_1_checked,
      mix160_2_checked, mix160_3_checked, mix160_4_checked, mix160_0, mix160_1, mix160_2,
      mix160_3, mix160_4, SPH_ROTL32_checked_eq, shr32]
  by_cases h7 : sc.olen = 7
  · simp [haval_out_checked, haval_out, h7, shr32]
  by_cases h8 : sc.olen = 8
  · simp [haval_out_checked, haval_out, h8]
  unfold haval_out_checked haval_out
  split <;> first | contradiction | rfl

/-- C20, at the failing input: in `mix192_4` the shift count is 32 and in
`mix192_5` it is 42, outside `0 .. 31`, so for a context with `olen = 6`
`haval_out` performs an undefined shift, whatever the state. -/
theorem haval_out_192_shift_undefined :
    (∀ x6 x7 : Nat, mix192_4_checked x6 x7 = none ∧ mix192_5_checked x6 x7 = none)
    ∧ (∀ dst : Nat → Nat,
        haval_out_checked ⟨0x243F6A88, 0x85A308D3, 0x13198A2E, 0x03707344, 0xA4093822,
          0x299F31D0, 0x082EFA98, 0xEC4E6C89, 6, 3, 0, 0, 0⟩ dst = none) := by
  refine ⟨fun x6 x7 => ⟨rfl, rfl⟩, fun dst => ?_⟩
  simp [haval_out_checked, mix192_4_checked, shr32]

/-! ### The passes as runs of their schedules -/

theorem windowStep_phase (n p j w c : Nat) (σ : Regs) :
    windowStep n p (8 * j) w c σ = STEP n p s7 s6 s5 s4 s3 s2 s1 s0 w c σ
    ∧ windowStep n p (8 * j + 1) w c σ = STEP n p s6 s5 s4 s3 s2 s1 s0 s7 w c σ
    ∧ windowStep n p (8 * j + 2) w c σ = STEP n p s5 s4 s3 s2 s1 s0 s7 s6 w c σ
    ∧ windowStep n p (8 * j + 3) w c σ = STEP n p s4 s3 s2 s1 s0 s7 s6 s5 w c σ
    ∧ windowStep n p (8 * j + 4) w c σ = STEP n p s3 s2 s1 s0 s7 s6 s5 s4 w c σ
    ∧ windowStep n p (8 * j + 5) w c σ = STEP n p s2 s1 s0 s7 s6 s5 s4 s3 w c σ
    ∧ windowStep n p (8 * j + 6) w c σ = STEP n p s1 s0 s7 s6 s5 s4 s3 s2 w c σ
    ∧ windowStep n p (8 * j + 7) w c σ = STEP n p s0 s7 s6 s5 s4 s3 s2 s1 w c σ := by
  have e0 : 8 * j % 8 = 0 := by omega
  have e1 : (8 * j + 1) % 8 = 1 := by omega
  have e2 : (8 * j + 2) % 8 = 2 := by omega
  have e3 : (8 * j + 3) % 8 = 3 := by omega
  have e4 : (8 * j + 4) % 8 = 4 := by omega
  have e5 : (8 * j + 5) % 8 = 5 := by omega
  have e6 : (8 * j + 6) % 8 = 6 := by omega
  have e7 : (8 * j + 7) % 8 = 7 := by omega
  simp only [windowStep, windowReg, e0, e1, e2, e3, e4, e5, e6, e7]
  refine ⟨rfl, rfl, rfl, rfl, rfl, rfl, rfl, rfl⟩

/-- Eight consecutive steps of a schedule, from a step number that is a multiple
of 8, are the eight `STEP` lines of the source. -/
theorem runFrom_eight (n p : Nat) (inw : Nat → Nat) (j : Nat)
    (e0 e1 e2 e3 e4 e5 e6 e7 : Nat × Nat) (es : List (Nat × Nat)) (σ : Regs) :
    runFrom n p inw (8 * j) (e0 :: e1 :: e2 :: e3 :: e4 :: e5 :: e6 :: e7 :: es) σ
      = runFrom n p inw (8 * (j + 1)) es
          (σ
          |> STEP n p s7 s6 s5 s4 s3 s2 s1 s0 (inw e0.1) e0.2
          |> STEP n p s6 s5 s4 s3 s2 s1 s0 s7 (inw e1.1) e1.2
          |> STEP n p s5 s4 s3 s2 s1 s0 s7 s6 (inw e2.1) e2.2
          |> STEP n p s4 s3 s2 s1 s0 s7 s6 s5 (inw e3.1) e3.2
          |> STEP n p s3 s2 s1 s0 s7 s6 s5 s4 (inw e4.1) e4.2
          |> STEP n p s2 s1 s0 s7 s6 s5 s4 s3 (inw e5.1) e5.2
          |> STEP n p s1 s0 s7 s6 s5 s4 s3 s2 (inw e6.1) e6.2
          |> STEP n p s0 s7 s6 s5 s4 s3 s2 s1 (inw e7.1) e7.2) := by
  have h0 := fun w c σ => (windowStep_phase n p j w c σ).1
  have h1 := fun w c σ => (windowStep_phase n p j w c σ).2.1
  have h2 := fun w c σ => (windowStep_phase n p j w c σ).2.2.1
  have h3 := fun w c σ => (windowStep_phase n p j w c σ).2.2.2.1
  have h4 := fun w c σ => (windowStep_phase n p j w c σ).2.2.2.2.1
  have h5 := fun w c σ => (windowStep_phase n p j w c σ).2.2.2.2.2.1
  have h6 := fun w c σ => (windowStep_phase n p j w c σ).2.2.2.2.2.2.1
  have h7 := fun w c σ => (windowStep_phase n p j w c σ).2.2.2.2.2.2.2
  simp only [runFrom, Nat.add_assoc, Nat.reduceAdd, h0, h1, h2, h3, h4, h5, h6, h7,
    Nat.mul_add, Nat.mul_one]

theorem unrolled_PASS1_eq_run (n : Nat) (inw : Nat → Nat) (σ : Regs) :
    Unrolled.PASS1 n inw σ = runSchedule n 1 (Unrolled.schedule 1) inw σ := by
  unfold runSchedule Unrolled.schedule
  have h := runFrom_eight n 1 inw
  rw [show (0 : Nat) = 8 * 0 from rfl, h, h, h, h]
  rfl

theorem unrolled_PASS2_eq_run (n : Nat) (inw : Nat → Nat) (σ : Regs) :
    Unrolled.PASS2 n inw σ = runSchedule n 2 (Unrolled.schedule 2) inw σ := by
  unfold runSchedule Unrolled.schedule
  have h := runFrom_eight n 2 inw
  rw [show (0 : Nat) = 8 * 0 from rfl, h, h, h, h]
  rfl

theorem unrolled_PASS3_eq_run (n : Nat) (inw : Nat → Nat) (σ : Regs) :
    Unrolled.PASS3 n inw σ = runSchedule n 3 (Unrolled.schedule 3) inw σ := by
  unfold runSchedule Unrolled.schedule
  have h := runFrom_eight n 3 inw
  rw [show (0 : Nat) = 8 * 0 from rfl, h, h, h, h]
  rfl

theorem unrolled_PASS4_eq_run (n : Nat) (inw : Nat → Nat) (σ : Regs) :
    Unrolled.PASS4 n inw σ = runSchedule n 4 (Unrolled.schedule 4) inw σ := by
  unfold runSchedule Unrolled.schedule
  have h := runFrom_eight n 4 inw
  rw [show (0 : Nat) = 8 * 0 from rfl, h, h, h, h]
  rfl

theorem unrolled_PASS5_eq_run (n : Nat) (inw : Nat → Nat) (σ : Regs) :
    Unrolled.PASS5 n inw σ = runSchedule n 5 (Unrolled.schedule 5) inw σ := by
  unfold runSchedule Unrolled.schedule
  have h := runFrom_eight n 5 inw
  rw [show (0 : Nat) = 8 * 0 from rfl, h, h, h, h]
  rfl

theorem small_pass_loop_four (body : Nat → Regs → Regs) (σ : Regs) :
    SmallFootprint.pass_loop body 0 σ = body 24 (body 16 (body 8 (body 0 σ))) := by
  rw [SmallFootprint.pass_loop, if_pos (by decide), SmallFootprint.pass_loop,
    if_pos (by decide), SmallFootprint.pass_loop, if_pos (by decide),
    SmallFootprint.pass_loop, if_pos (by decide), SmallFootprint.pass_loop,
    if_neg (by decide)]

theorem small_PASSG_eq_run (p n : Nat) (MPp RKp : List Nat) (inw : Nat → Nat)
    (σ : Regs) :
    SmallFootprint.PASSG p n MPp RKp inw σ
      = runSchedule n p (SmallFootprint.tableSchedule MPp RKp) inw σ := by
  unfold SmallFootprint.PASSG runSchedule SmallFootprint.tableSchedule
  rw [small_pass_loop_four]
  have h := runFrom_eight n p inw
  simp only [List.range, List.range.loop, List.map]
  rw [show (0 : Nat) = 8 * 0 from rfl, h, h, h, h]
  rfl

theorem small_PASS1_eq_run (n : Nat) (inw : Nat → Nat) (σ : Regs) :
    SmallFootprint.PASS1 n inw σ = runSchedule n 1 (SmallFootprint.schedule 1) inw σ := by
  unfold SmallFootprint.PASS1 runSchedule SmallFootprint.schedule
  rw [small_pass_loop_four]
  have h := runFrom_eight n 1 inw
  simp only [List.range, List.range.loop, List.map]
  rw [show (0 : Nat) = 8 * 0 from rfl, h, h, h, h]
  rfl

theorem PASS1_eq_run (small : Bool) (n : Nat) (inw : Nat → Nat) (σ : Regs) :
    PASS1 small n inw σ = runSchedule n 1 (schedule small 1) inw σ := by
  cases small
  · exact unrolled_PASS1_eq_run n inw σ
  · exact small_PASS1_eq_run n inw σ

theorem PASS2_eq_run (small : Bool) (n : Nat) (inw : Nat → Nat) (σ : Regs) :
    PASS2 small n inw σ = runSchedule n 2 (schedule small 2) inw σ := by
  cases small
  · exact unrolled_PASS2_eq_run n inw σ
  · exact small_PASSG_eq_run 2 n _ _ inw σ

theorem PASS3_eq_run (small : Bool) (n : Nat) (inw : Nat → Nat) (σ : Regs) :
    PASS3 small n inw σ = runSchedule n 3 (schedule small 3) inw σ := by
  cases small
  · exact unrolled_PASS3_eq_run n inw σ
  · exact small_PASSG_eq_run 3 n _ _ inw σ

theorem PASS4_eq_run (small : Bool) (n : Nat) (inw : Nat → Nat) (σ : Regs) :
    PASS4 small n inw σ = runSchedule n 4 (schedule small 4) inw σ := by
  cases small
  · exact unrolled_PASS4_eq_run n inw σ
  · exact small_PASSG_eq_run 4 n _ _ inw σ

theorem PASS5_eq_run (small : Bool) (n : Nat) (inw : Nat → Nat) (σ : Regs) :
    PASS5 small n inw σ = runSchedule n 5 (schedule small 5) inw σ := by
  cases small
  · exact unrolled_PASS5_eq_run n inw σ
  · exact small_PASSG_eq_run 5 n _ _ inw σ

/-! ### The array form of a pass -/

theorem rotWin_get (τ : Regs) (r : Reg) : (rotWin τ).get r = τ.get (prevReg r) := by
  cases r <;> rfl

theorem rotWin_set (τ : Regs) (r : Reg) (v : Nat) :
    (rotWin τ).set r v = rotWin (τ.set (prevReg r) v) := by
  cases r <;> rfl

/-- A step on the rotated window is the step on the variables one place
before, followed by the rotation. -/
theorem STEP_rotWin (n p : Nat) (x7 x6 x5 x4 x3 x2 x1 x0 : Reg) (w c : Nat) (τ : Regs) :
    STEP n p x7 x6 x5 x4 x3 x2 x1 x0 w c (rotWin τ)
      = rotWin (STEP n p (prevReg x7) (prevReg x6) (prevReg x5) (prevReg x4) (prevReg x3)
          (prevReg x2) (prevReg x1) (prevReg x0) w c τ) := by
  simp only [STEP, rotWin_get, rotWin_set]

theorem arrayStep_eq (n p w c : Nat) (σ : Regs) :
    arrayStep n p w c σ = rotWin (STEP n p s7 s6 s5 s4 s3 s2 s1 s0 w c σ) := rfl

theorem rotWin_eight (τ : Regs) :
    rotWin (rotWin (rotWin (rotWin (rotWin (rotWin (rotWin (rotWin τ))))))) = τ := rfl

/-- Eight array steps are the eight `STEP` lines of the source. -/
theorem runArray_eight (n p : Nat) (inw : Nat → Nat)
    (e0 e1 e2 e3 e4 e5 e6 e7 : Nat × Nat) (es : List (Nat × Nat)) (σ : Regs) :
    runArray n p (e0 :: e1 :: e2 :: e3 :: e4 :: e5 :: e6 :: e7 :: es) inw σ
      = runArray n p es inw
          (σ
          |> STEP n p s7 s6 s5 s4 s3 s2 s1 s0 (inw e0.1) e0.2
          |> STEP n p s6 s5 s4 s3 s2 s1 s0 s7 (inw e1.1) e1.2
          |> STEP n p s5 s4 s3 s2 s1 s0 s7 s6 (inw e2.1) e2.2
          |> STEP n p s4 s3 s2 s1 s0 s7 s6 s5 (inw e3.1) e3.2
          |> STEP n p s3 s2 s1 s0 s7 s6 s5 s4 (inw e4.1) e4.2
          |> STEP n p s2 s1 s0 s7 s6 s5 s4 s3 (inw e5.1) e5.2
          |> STEP n p s1 s0 s7 s6 s5 s4 s3 s2 (inw e6.1) e6.2
          |> STEP n p s0 s7 s6 s5 s4 s3 s2 s1 (inw e7.1) e7.2) := by
  simp only [runArray, List.foldl, arrayStep_eq, STEP_rotWin, prevReg, rotWin_eight]

/-- A schedule of `8 * k` entries run on the array is the same schedule run in
rotating-window form on the named variables. -/
theorem runFrom_eq_runArray (n p : Nat) (inw : Nat → Nat) (k : Nat) :
    ∀ (sched : List (Nat × Nat)), sched.length = 8 * k → ∀ (j : Nat) (σ : Regs),
      runFrom n p inw (8 * j) sched σ = runArray n p sched inw σ := by
  induction k with
  | zero =>
    intro sched h j σ
    have : sched = [] := List.length_eq_zero.mp (by simpa using h)
    subst this
    rfl
  | succ k ih =>
    intro sched h j σ
    match sched, h with
    | e0 :: e1 :: e2 :: e3 :: e4 :: e5 :: e6 :: e7 :: es, h =>
      rw [runFrom_eight, runArray_eight]
      exact ih es (by simp only [List.length_cons] at h; omega) (j + 1) _
    | [], h => simp at h
    | [_], h => simp at h; omega
    | [_, _], h => simp at h; omega
    | [_, _, _], h => simp at h; omega
    | [_, _, _, _], h => simp at h; omega
    | [_, _, _, _, _], h => simp at h; omega
    | [_, _, _, _, _, _], h => simp at h; omega
    | [_, _, _, _, _, _, _], h => simp at h; omega

theorem runSchedule_eq_runArray (n p : Nat) (inw : Nat → Nat) (sched : List (Nat × Nat))
    (σ : Regs) (h : sched.length = 32) :
    runSchedule n p sched inw σ = runArray n p sched inw σ :=
  runFrom_eq_runArray n p inw 4 sched h 0 σ

/-! ### Traces -/

theorem runTrace_traceFrom (n p : Nat) (inw : Nat → Nat) (es : List (Nat × Nat)) :
    ∀ (j : Nat) (σ : Regs), runTrace n inw (traceFrom p j es) σ = runFrom n p inw j es σ := by
  induction es with
  | nil => intro j σ; rfl
  | cons e es ih =>
    intro j σ
    simp only [traceFrom, runTrace, List.foldl, runFrom]
    exact ih (j + 1) _

theorem runTrace_append (n : Nat) (inw : Nat → Nat) (t1 t2 : List (Nat × Nat × Nat × Nat))
    (σ : Regs) : runTrace n inw (t1 ++ t2) σ = runTrace n inw t2 (runTrace n inw t1 σ) := by
  simp only [runTrace, List.foldl_append]

theorem runTrace_pass (n p : Nat) (inw : Nat → Nat) (sched : List (Nat × Nat)) (σ : Regs) :
    runTrace n inw (traceFrom p 0 sched) σ = runSchedule n p sched inw σ :=
  runTrace_traceFrom n p inw sched 0 σ

/-! ## Theorems on the schedules -/

/-- C21: in either build and for every pass count, pass 1 consumes the message
words in natural order with zero constants: it is the run of the schedule whose
entry `j` (`j = 0 .. 31`) is message index `j` with constant 0, so its step `j` is
one `STEP` given `in(j)`, that is `msg[j]`, and the constant 0. -/
theorem PASS1_natural_order (small : Bool) (n : Nat) (msg : Nat → Nat) (σ : Regs) :
    schedule small 1 = (List.range 32).map (fun j => (j, 0))
    ∧ PASS1 small n (INMSG msg) σ
        = runSchedule n 1 ((List.range 32).map (fun j => (j, 0))) (INMSG msg) σ
    ∧ ∀ j c : Nat, ∀ τ : Regs,
        runFrom n 1 (INMSG msg) j [(j, c)] τ = windowStep n 1 j (msg j) c τ := by
  have h : schedule small 1 = (List.range 32).map (fun j => (j, 0)) := by
    cases small <;> decide
  refine ⟨h, ?_, fun j c τ => rfl⟩
  rw [PASS1_eq_run, h]

/-- C22: in the unrolled schedule, for each pass `p` in `2 .. 5`, the 32 message
indices consumed by `PASSp` are a permutation of `0 .. 31`: there are 32 of
them and every index in `0 .. 31` occurs exactly once. -/
theorem unrolled_schedule_permutation (n : Nat) (inw : Nat → Nat) (σ : Regs) :
    (∀ p ∈ [2, 3, 4, 5],
      ((Unrolled.schedule p).map Prod.fst).length = 32
      ∧ (∀ i, i < 32 → ((Unrolled.schedule p).map Prod.fst).count i = 1)
      ∧ ((Unrolled.schedule p).map Prod.fst).Perm (List.range 32))
    ∧ Unrolled.PASS2 n inw σ = runSchedule n 2 (Unrolled.schedule 2) inw σ
    ∧ Unrolled.PASS3 n inw σ = runSchedule n 3 (Unrolled.schedule 3) inw σ
    ∧ Unrolled.PASS4 n inw σ = runSchedule n 4 (Unrolled.schedule 4) inw σ
    ∧ Unrolled.PASS5 n inw σ = runSchedule n 5 (Unrolled.schedule 5) inw σ :=
  ⟨by decide, unrolled_PASS2_eq_run n inw σ, unrolled_PASS3_eq_run n inw σ,
    unrolled_PASS4_eq_run n inw σ, unrolled_PASS5_eq_run n inw σ⟩

/-- C25: for every pass `p` in `2 .. 5` and every `j` in `0 .. 31`, the table
constant `RKp[j]` is the constant of step `j` of the unrolled `PASSp`. -/
theorem table_constants_match_unrolled :
    (SmallFootprint.RK2.take 32 = (Unrolled.schedule 2).map Prod.snd
      ∧ SmallFootprint.RK3.take 32 = (Unrolled.schedule 3).map Prod.snd
      ∧ SmallFootprint.RK4.take 32 = (Unrolled.schedule 4).map Prod.snd
      ∧ SmallFootprint.RK5.take 32 = (Unrolled.schedule 5).map Prod.snd)
    ∧ (∀ j, j < 32 →
        SmallFootprint.RK2.getD j 0 = ((Unrolled.schedule 2).getD j (0, 0)).2
        ∧ SmallFootprint.RK3.getD j 0 = ((Unrolled.schedule 3).getD j (0, 0)).2
        ∧ SmallFootprint.RK4.getD j 0 = ((Unrolled.schedule 4).getD j (0, 0)).2
        ∧ SmallFootprint.RK5.getD j 0 = ((Unrolled.schedule 5).getD j (0, 0)).2)
    ∧ (∀ (n : Nat) (inw : Nat → Nat) (σ : Regs),
        Unrolled.PASS2 n inw σ = runSchedule n 2 (Unrolled.schedule 2) inw σ
        ∧ Unrolled.PASS3 n inw σ = runSchedule n 3 (Unrolled.schedule 3) inw σ
        ∧ Unrolled.PASS4 n inw σ = runSchedule n 4 (Unrolled.schedule 4) inw σ
        ∧ Unrolled.PASS5 n inw σ = runSchedule n 5 (Unrolled.schedule 5) inw σ) :=
  ⟨by decide, by decide, fun n inw σ =>
    ⟨unrolled_PASS2_eq_run n inw σ, unrolled_PASS3_eq_run n inw σ,
      unrolled_PASS4_eq_run n inw σ, unrolled_PASS5_eq_run n inw σ⟩⟩

/-- C26: for every pass count, message block and register state, the
small-footprint `PASS1` (the loop of 4 iterations of 8 steps) leaves the same
eight registers as the unrolled `PASS1` of 32 steps. -/
theorem PASS1_small_eq_unrolled (n : Nat) (inw : Nat → Nat) (σ : Regs) :
    SmallFootprint.PASS1 n inw σ = Unrolled.PASS1 n inw σ := by
  rw [small_PASS1_eq_run, unrolled_PASS1_eq_run]
  have h : SmallFootprint.schedule 1 = Unrolled.schedule 1 := by decide
  rw [h]

/-- C27: the table-driven pass reads the entries `0 .. 31` of its tables and no
other: it is the run of the schedule made of these 32 entries, and two pairs of
tables that agree on their first 32 entries give the same pass result. -/
theorem PASSG_reads_first_32 (p n : Nat) (MPp MPq RKp RKq : List Nat) (inw : Nat → Nat)
    (σ : Regs) (hM : ∀ j, j < 32 → MPp.getD j 0 = MPq.getD j 0)
    (hR : ∀ j, j < 32 → RKp.getD j 0 = RKq.getD j 0) :
    SmallFootprint.PASSG p n MPp RKp inw σ = SmallFootprint.PASSG p n MPq RKq inw σ
    ∧ SmallFootprint.PASSG p n MPp RKp inw σ
        = runSchedule n p ((List.range 32).map (fun j => (MPp.getD j 0, RKp.getD j 0)))
            inw σ := by
  refine ⟨?_, small_PASSG_eq_run p n MPp RKp inw σ⟩
  rw [small_PASSG_eq_run, small_PASSG_eq_run]
  congr 1
  unfold SmallFootprint.tableSchedule
  apply List.map_congr_left
  intro j hj
  rw [List.mem_range] at hj
  rw [hM j hj, hR j hj]

/-- Witness of C27: the tables of pass 2 against their first 32 entries followed
by other values. -/
theorem PASSG_reads_first_32_witness :
    ((∀ j, j < 32 → SmallFootprint.MP2.getD j 0
          = (SmallFootprint.MP2.take 32 ++ [7, 7, 7]).getD j 0)
      ∧ (∀ j, j < 32 → SmallFootprint.RK2.getD j 0 = (SmallFootprint.RK2.take 32).getD j 0))
    ∧ SmallFootprint.PASSG 2 3 SmallFootprint.MP2 SmallFootprint.RK2 (fun i => i)
          ⟨1, 2, 3, 4, 5, 6, 7, 8⟩
        = SmallFootprint.PASSG 2 3 (SmallFootprint.MP2.take 32 ++ [7, 7, 7])
            (SmallFootprint.RK2.take 32) (fun i => i) ⟨1, 2, 3, 4, 5, 6, 7, 8⟩ :=
  ⟨by decide,
    (PASSG_reads_first_32 2 3 SmallFootprint.MP2 (SmallFootprint.MP2.take 32 ++ [7, 7, 7])
      SmallFootprint.RK2 (SmallFootprint.RK2.take 32) (fun i => i) ⟨1, 2, 3, 4, 5, 6, 7, 8⟩
      (by decide) (by decide)).1⟩

theorem runTrace_nil (n : Nat) (inw : Nat → Nat) (σ : Regs) : runTrace n inw [] σ = σ := rfl

theorem regOf_congr {a b : Nat} (h : a % 8 = b % 8) : regOf a = regOf b := by
  unfold regOf
  rw [h]

set_option maxRecDepth 8192 in
/-- C28: for `n = 3, 4, 5`, in either build, `COREn` is `SAVE_STATE`, then the
steps of the passes `1 .. n` in this order, each pass being exactly 32 `STEP`
operations (step numbers `0 .. 31`), `32 * n` steps in all, then
`UPDATE_STATE`; and the loop of the small-footprint passes runs its body of 8
steps exactly 4 times, for `pass_count = 0, 8, 16, 24`. -/
theorem CORE_step_count (small : Bool) (inw : Nat → Nat) (σ : Regs) :
    (CORE3 small inw σ = UPDATE_STATE (runTrace 3 inw (coreTrace small 3) σ) (SAVE_STATE σ)
      ∧ CORE4 small inw σ
          = UPDATE_STATE (runTrace 4 inw (coreTrace small 4) σ) (SAVE_STATE σ)
      ∧ CORE5 small inw σ
          = UPDATE_STATE (runTrace 5 inw (coreTrace small 5) σ) (SAVE_STATE σ))
    ∧ ((coreTrace small 3).length = 32 * 3 ∧ (coreTrace small 4).length = 32 * 4
      ∧ (coreTrace small 5).length = 32 * 5)
    ∧ ((coreTrace small 3).map (fun t => t.1)
          = List.replicate 32 1 ++ List.replicate 32 2 ++ List.replicate 32 3
      ∧ (coreTrace small 4).map (fun t => t.1)
          = List.replicate 32 1 ++ List.replicate 32 2 ++ List.replicate 32 3
              ++ List.replicate 32 4
      ∧ (coreTrace small 5).map (fun t => t.1)
          = List.replicate 32 1 ++ List.replicate 32 2 ++ List.replicate 32 3
              ++ List.replicate 32 4 ++ List.replicate 32 5)
    ∧ ((coreTrace small 5).map (fun t => t.2.1)
          = List.range 32 ++ List.range 32 ++ List.range 32 ++ List.range 32
              ++ List.range 32)
    ∧ (∀ (body : Nat → Regs → Regs) (τ : Regs),
        SmallFootprint.pass_loop body 0 τ = body 24 (body 16 (body 8 (body 0 τ)))) := by
  refine ⟨⟨?_, ?_, ?_⟩, ?_, ?_, ?_, small_pass_loop_four⟩
  · simp only [CORE3, coreTrace, runTrace_append, runTrace_pass, runTrace_nil, PASS1_eq_run,
      PASS2_eq_run, PASS3_eq_run]
  · simp only [CORE4, coreTrace, runTrace_append, runTrace_pass, runTrace_nil, PASS1_eq_run,
      PASS2_eq_run, PASS3_eq_run, PASS4_eq_run]
  · simp only [CORE5, coreTrace, runTrace_append, runTrace_pass, runTrace_nil, PASS1_eq_run,
      PASS2_eq_run, PASS3_eq_run, PASS4_eq_run, PASS5_eq_run]
  · cases small <;> decide
  · cases small <;> decide
  · cases small <;> decide

/-- C29: within every pass the named-register form is a rotating window. Each
pass is the run of its schedule in which step `j` is one `STEP` on the variables
`windowReg j 7, ..., windowReg j 0`, that is `s_((k - j) mod 8)` for the argument
`x_k`: step `j` overwrites `s_(7 - j mod 8)`, the arguments move up by one
position from one step to the next, the variable written by step `j` is the
`x0` of step `j + 1`, and each variable is overwritten 4 times in the 32 steps.
Equivalently the pass is 32 applications of the array step `arrayStep`. -/
theorem pass_rotating_window (n : Nat) (inw : Nat → Nat) (σ : Regs) :
    (Unrolled.PASS1 n inw σ = runSchedule n 1 (Unrolled.schedule 1) inw σ
      ∧ Unrolled.PASS2 n inw σ = runSchedule n 2 (Unrolled.schedule 2) inw σ
      ∧ Unrolled.PASS3 n inw σ = runSchedule n 3 (Unrolled.schedule 3) inw σ
      ∧ Unrolled.PASS4 n inw σ = runSchedule n 4 (Unrolled.schedule 4) inw σ
      ∧ Unrolled.PASS5 n inw σ = runSchedule n 5 (Unrolled.schedule 5) inw σ
      ∧ SmallFootprint.PASS1 n inw σ = runSchedule n 1 (SmallFootprint.schedule 1) inw σ
      ∧ ∀ (p : Nat) (MPp RKp : List Nat),
          SmallFootprint.PASSG p n MPp RKp inw σ
            = runSchedule n p (SmallFootprint.tableSchedule MPp RKp) inw σ)
    ∧ (∀ (p j w c : Nat) (τ : Regs),
        windowStep n p j w c τ
          = STEP n p (windowReg j 7) (windowReg j 6) (windowReg j 5) (windowReg j 4)
              (windowReg j 3) (windowReg j 2) (windowReg j 1) (windowReg j 0) w c τ)
    ∧ (∀ j k, windowReg j k = regOf (k + 8 - j % 8))
    ∧ (∀ j, windowReg j 7 = regOf (7 - j % 8))
    ∧ (∀ j k, windowReg (j + 1) (k + 1) = windowReg j k)
    ∧ (∀ j, windowReg (j + 1) 0 = windowReg j 7)
    ∧ (∀ r : Reg, ((List.range 32).filter (fun j => decide (windowReg j 7 = r))).length = 4)
    ∧ (Unrolled.PASS1 n inw σ = runArray n 1 (Unrolled.schedule 1) inw σ
      ∧ Unrolled.PASS2 n inw σ = runArray n 2 (Unrolled.schedule 2) inw σ
      ∧ Unrolled.PASS3 n inw σ = runArray n 3 (Unrolled.schedule 3) inw σ
      ∧ Unrolled.PASS4 n inw σ = runArray n 4 (Unrolled.schedule 4) inw σ
      ∧ Unrolled.PASS5 n inw σ = runArray n 5 (Unrolled.schedule 5) inw σ
      ∧ SmallFootprint.PASS1 n inw σ = runArray n 1 (SmallFootprint.schedule 1) inw σ
      ∧ ∀ (p : Nat) (MPp RKp : List Nat),
          SmallFootprint.PASSG p n MPp RKp inw σ
            = runArray n p (SmallFootprint.tableSchedule MPp RKp) inw σ) := by
  refine ⟨⟨unrolled_PASS1_eq_run n inw σ, unrolled_PASS2_eq_run n inw σ,
      unrolled_PASS3_eq_run n inw σ, unrolled_PASS4_eq_run n inw σ,
      unrolled_PASS5_eq_run n inw σ, small_PASS1_eq_run n inw σ,
      fun p MPp RKp => small_PASSG_eq_run p n MPp RKp inw σ⟩,
    fun _ _ _ _ _ => rfl, fun _ _ => rfl, ?_, ?_, ?_, ?_, ?_⟩
  · intro j
    exact regOf_congr (by omega)
  · intro j k
    exact regOf_congr (by omega)
  · intro j
    exact regOf_congr (by omega)
  · intro r
    cases r <;> decide
  · refine ⟨?_, ?_, ?_, ?_, ?_, ?_, fun p MPp RKp => ?_⟩
    · rw [unrolled_PASS1_eq_run]; exact runSchedule_eq_runArray n 1 inw _ σ (by decide)
    · rw [unrolled_PASS2_eq_run]; exact runSchedule_eq_runArray n 2 inw _ σ (by decide)
    · rw [unrolled_PASS3_eq_run]; exact runSchedule_eq_runArray n 3 inw _ σ (by decide)
    · rw [unrolled_PASS4_eq_run]; exact runSchedule_eq_runArray n 4 inw _ σ (by decide)
    · rw [unrolled_PASS5_eq_run]; exact runSchedule_eq_runArray n 5 inw _ σ (by decide)
    · rw [small_PASS1_eq_run]
      exact runSchedule_eq_runArray n 1 inw _ σ (by decide)
    · rw [small_PASSG_eq_run]
      exact runSchedule_eq_runArray n p inw _ σ
        (by simp [SmallFootprint.tableSchedule])

/-- C30: for every pass count `n` in `{3,4,5}` and pass index `p` in `1 .. n`,
`FPn_p` is `F_p` applied to a permutation of its seven arguments: the wiring
`phi n p` lists each of `0 .. 6` once, the map `phiFin n p` on `{0 .. 6}` is a
bijection, and `FPn_p(x6, ..., x0) = F_p(x_sigma(6), ..., x_sigma(0))` for all
inputs with `sigma = phiFin n p`; pass `p` of every run uses `F_p`. -/
theorem FP_is_permuted_F :
    ∀ np ∈ passPairs,
      (1 ≤ np.2 ∧ np.2 ≤ np.1)
      ∧ (phi np.1 np.2).Perm [0, 1, 2, 3, 4, 5, 6]
      ∧ Function.Bijective (phiFin np.1 np.2)
      ∧ ∀ x : Fin 7 → Nat,
          FP np.1 np.2 (x 6) (x 5) (x 4) (x 3) (x 2) (x 1) (x 0)
            = Fsel np.2 (x (phiFin np.1 np.2 6)) (x (phiFin np.1 np.2 5))
                (x (phiFin np.1 np.2 4)) (x (phiFin np.1 np.2 3)) (x (phiFin np.1 np.2 2))
                (x (phiFin np.1 np.2 1)) (x (phiFin np.1 np.2 0)) := by
  intro np h
  simp only [passPairs, List.mem_cons, List.mem_singleton, List.mem_nil_iff, or_false] at h
  rcases h with h | h | h | h | h | h | h | h | h | h | h | h <;> subst h <;>
    exact ⟨by decide, by decide, by decide, fun x => rfl⟩

/-- Witness of C30: the pair `n = 4`, `p = 3` on the inputs
`x6, ..., x0 = 16, ..., 10`: `FP4_3` is `F3` on `x1, x4, x3, x6, x0, x2, x5`. -/
theorem FP_is_permuted_F_witness :
    (4, 3) ∈ passPairs
    ∧ (phi 4 3).Perm [0, 1, 2, 3, 4, 5, 6]
    ∧ Function.Bijective (phiFin 4 3)
    ∧ FP 4 3 16 15 14 13 12 11 10 = Fsel 3 11 14 13 16 10 12 15 :=
  ⟨by decide, (FP_is_permuted_F (4, 3) (by decide)).2.1,
    (FP_is_permuted_F (4, 3) (by decide)).2.2.1,
    (FP_is_permuted_F (4, 3) (by decide)).2.2.2 (fun i => 10 + i.val)⟩

/-! ## Theorems on the wirings across pass counts -/

/-- C31: the wirings are not shared across pass counts: for every pass index
`p` and every two distinct pass counts `n`, `m` in `{3, 4, 5}` that both have a
pass `p`, there are 32-bit inputs `x6 .. x0` on which `FPn_p` and `FPm_p`
return different words; in particular `FP3_1`, `FP4_1` and `FP5_1` are pairwise
different functions. -/
theorem FP_not_shared_across_pass_counts (n m p : Nat)
    (hn : n = 3 ∨ n = 4 ∨ n = 5) (hm : m = 3 ∨ m = 4 ∨ m = 5) (hnm : n ≠ m)
    (hp : 1 ≤ p) (hpn : p ≤ n) (hpm : p ≤ m) :
    (∃ x6 x5 x4 x3 x2 x1 x0 : Nat,
      (x6 < 2 ^ 32 ∧ x5 < 2 ^ 32 ∧ x4 < 2 ^ 32 ∧ x3 < 2 ^ 32 ∧ x2 < 2 ^ 32 ∧ x1 < 2 ^ 32
        ∧ x0 < 2 ^ 32)
      ∧ FP n p x6 x5 x4 x3 x2 x1 x0 ≠ FP m p x6 x5 x4 x3 x2 x1 x0)
    ∧ FP3_1 ≠ FP4_1 ∧ FP3_1 ≠ FP5_1 ∧ FP4_1 ≠ FP5_1 := by
  refine ⟨?_, ?_, ?_, ?_⟩
  · have hp5 : p ≤ 5 := by omega
    rcases hn with rfl | rfl | rfl <;> rcases hm with rfl | rfl | rfl <;>
      first
      | exact absurd rfl hnm
      | (interval_cases p <;>
          first
          | omega
          | exact ⟨0, 0, 0, 0, 0, 0, 1, by decide, by decide⟩
          | exact ⟨0, 0, 1, 0, 0, 0, 0, by decide, by decide⟩
          | exact ⟨0, 1, 0, 0, 0, 0, 0, by decide, by decide⟩
          | exact ⟨0, 0, 0, 0, 0, 1, 1, by decide, by decide⟩
          | exact ⟨0, 0, 0, 1, 0, 0, 0, by decide, by decide⟩)
  · intro h
    exact absurd (congrFun (congrFun (congrFun (congrFun (congrFun (congrFun (congrFun h
      0) 0) 0) 0) 0) 0) 1) (by decide)
  · intro h
    exact absurd (congrFun (congrFun (congrFun (congrFun (congrFun (congrFun (congrFun h
      0) 0) 1) 0) 0) 0) 0) (by decide)
  · intro h
    exact absurd (congrFun (congrFun (congrFun (congrFun (congrFun (congrFun (congrFun h
      0) 0) 0) 0) 0) 0) 1) (by decide)

/-- Witness of C31: pass 2 of the 3-pass and of the 5-pass core. -/
theorem FP_not_shared_across_pass_counts_witness :
    (((3 : Nat) = 3 ∨ (3 : Nat) = 4 ∨ (3 : Nat) = 5)
      ∧ ((5 : Nat) = 3 ∨ (5 : Nat) = 4 ∨ (5 : Nat) = 5) ∧ (3 : Nat) ≠ 5
      ∧ 1 ≤ 2 ∧ 2 ≤ 3 ∧ 2 ≤ 5)
    ∧ ∃ x6 x5 x4 x3 x2 x1 x0 : Nat,
      (x6 < 2 ^ 32 ∧ x5 < 2 ^ 32 ∧ x4 < 2 ^ 32 ∧ x3 < 2 ^ 32 ∧ x2 < 2 ^ 32 ∧ x1 < 2 ^ 32
        ∧ x0 < 2 ^ 32)
      ∧ FP 3 2 x6 x5 x4 x3 x2 x1 x0 ≠ FP 5 2 x6 x5 x4 x3 x2 x1 x0 :=
  ⟨by decide,
    (FP_not_shared_across_pass_counts 3 5 2 (Or.inl rfl) (Or.inr (Or.inr rfl)) (by decide)
      (by decide) (by decide) (by decide)).1⟩

/-- C32, counterexample: the wiring of pass 1 is not the identity: `FP3_1` and
`FP5_1` differ from `F1` at `x0 = 1` (the other arguments 0), `FP4_1` at
`x1 = x0 = 1`. -/
theorem FP_pass1_not_identity :
    FP3_1 0 0 0 0 0 0 1 ≠ F1 0 0 0 0 0 0 1
    ∧ FP4_1 0 0 0 0 0 1 1 ≠ F1 0 0 0 0 0 1 1
    ∧ FP5_1 0 0 0 0 0 0 1 ≠ F1 0 0 0 0 0 0 1
    ∧ ¬ (∀ n, (n = 3 ∨ n = 4 ∨ n = 5) → ∀ x6 x5 x4 x3 x2 x1 x0 : Nat,
          FP n 1 x6 x5 x4 x3 x2 x1 x0 = F1 x6 x5 x4 x3 x2 x1 x0) := by
  refine ⟨by decide, by decide, by decide, fun h => ?_⟩
  exact absurd (h 3 (Or.inl rfl) 0 0 0 0 0 0 1) (by decide)

/-- C32, as amended: pass 1 applies a register permutation like every other
pass: for all inputs, `FP3_1(x6, ..., x0) = F1(x1, x0, x3, x5, x6, x2, x4)`,
`FP4_1(x6, ..., x0) = F1(x2, x6, x1, x4, x5, x3, x0)` and
`FP5_1(x6, ..., x0) = F1(x3, x4, x1, x0, x5, x2, x6)`; none of the three wirings
is the identity, and each `FPn_1` differs from `F1` on some input. -/
theorem FP_pass1_wiring (x6 x5 x4 x3 x2 x1 x0 : Nat) :
    (FP 3 1 x6 x5 x4 x3 x2 x1 x0 = F1 x1 x0 x3 x5 x6 x2 x4
      ∧ FP 4 1 x6 x5 x4 x3 x2 x1 x0 = F1 x2 x6 x1 x4 x5 x3 x0
      ∧ FP 5 1 x6 x5 x4 x3 x2 x1 x0 = F1 x3 x4 x1 x0 x5 x2 x6)
    ∧ (phi 3 1 ≠ [6, 5, 4, 3, 2, 1, 0] ∧ phi 4 1 ≠ [6, 5, 4, 3, 2, 1, 0]
      ∧ phi 5 1 ≠ [6, 5, 4, 3, 2, 1, 0])
    ∧ (∀ n, (n = 3 ∨ n = 4 ∨ n = 5) → ∃ y6 y5 y4 y3 y2 y1 y0 : Nat,
        FP n 1 y6 y5 y4 y3 y2 y1 y0 ≠ F1 y6 y5 y4 y3 y2 y1 y0) := by
  refine ⟨⟨rfl, rfl, rfl⟩, by decide, ?_⟩
  rintro n (rfl | rfl | rfl)
  · exact ⟨0, 0, 0, 0, 0, 0, 1, by decide⟩
  · exact ⟨0, 0, 0, 0, 0, 1, 1, by decide⟩
  · exact ⟨0, 0, 0, 0, 0, 0, 1, by decide⟩

/-! ## Theorems on the message words that a pass reads -/

/-- A run of a schedule reads the message only at the indices of the
schedule. -/
theorem runFrom_congr (n p : Nat) (inw inw' : Nat → Nat) (sched : List (Nat × Nat))
    (h : ∀ e ∈ sched, inw e.1 = inw' e.1) (j : Nat) (σ : Regs) :
    runFrom n p inw j sched σ = runFrom n p inw' j sched σ := by
  induction sched generalizing j σ with
  | nil => rfl
  | cons e es ih =>
    simp only [runFrom]
    rw [h e (List.mem_cons_self _ _)]
    exact ih (fun e' he' => h e' (List.mem_cons_of_mem _ he')) _ _

/-- When every message index of the schedules of a build is below `B`, the
compression functions of that build read `msg` below `B` only. -/
theorem comp_congr (small : Bool) (B : Nat)
    (hB : ∀ p ∈ [1, 2, 3, 4, 5], ∀ e ∈ schedule small p, e.1 < B)
    (msg msg' val : Nat → Nat) (h : ∀ i, i < B → msg i = msg' i) :
    sph_haval_3_comp small msg val = sph_haval_3_comp small msg' val
    ∧ sph_haval_4_comp small msg val = sph_haval_4_comp small msg' val
    ∧ sph_haval_5_comp small msg val = sph_haval_5_comp small msg' val := by
  have hp : ∀ p ∈ [1, 2, 3, 4, 5], ∀ (n : Nat) (σ : Regs),
      runSchedule n p (schedule small p) (INMSG msg) σ
        = runSchedule n p (schedule small p) (INMSG msg') σ := by
    intro p hp n σ
    exact runFrom_congr n p _ _ _ (fun e he => h _ (hB p hp e he)) 0 σ
  simp only [sph_haval_3_comp, sph_haval_4_comp, sph_haval_5_comp, CORE3, CORE4, CORE5,
    PASS1_eq_run, PASS2_eq_run, PASS3_eq_run, PASS4_eq_run, PASS5_eq_run,
    hp 1 (by decide), hp 2 (by decide), hp 3 (by decide), hp 4 (by decide), hp 5 (by decide),
    and_self]

/-- C33: the result of `sph_haval_n_comp` (`n = 3, 4, 5`) depends on the words
`0 .. 31` of `msg` only: two arrays `msg` that agree on the words `0 .. 31` give
the same `val` on return, whatever `val` holds on entry; every message index of
the unrolled passes 1 to 5 is below 32, so no word of `msg` with an index in
`32 .. 223` is read. -/
theorem comp_depends_on_first_32_words (msg msg' val : Nat → Nat)
    (h : ∀ i, i < 32 → msg i = msg' i) :
    (sph_haval_3_comp false msg val = sph_haval_3_comp false msg' val
      ∧ sph_haval_4_comp false msg val = sph_haval_4_comp false msg' val
      ∧ sph_haval_5_comp false msg val = sph_haval_5_comp false msg' val)
    ∧ (∀ p ∈ [1, 2, 3, 4, 5], ∀ e ∈ Unrolled.schedule p, e.1 < 32)
    ∧ (∀ (n : Nat) (inw : Nat → Nat) (σ : Regs),
        Unrolled.PASS1 n inw σ = runSchedule n 1 (Unrolled.schedule 1) inw σ
        ∧ Unrolled.PASS2 n inw σ = runSchedule n 2 (Unrolled.schedule 2) inw σ
        ∧ Unrolled.PASS3 n inw σ = runSchedule n 3 (Unrolled.schedule 3) inw σ
        ∧ Unrolled.PASS4 n inw σ = runSchedule n 4 (Unrolled.schedule 4) inw σ
        ∧ Unrolled.PASS5 n inw σ = runSchedule n 5 (Unrolled.schedule 5) inw σ) :=
  ⟨comp_congr false 32 (by decide) msg msg' val h, by decide,
    fun n inw σ => ⟨unrolled_PASS1_eq_run n inw σ, unrolled_PASS2_eq_run n inw σ,
      unrolled_PASS3_eq_run n inw σ, unrolled_PASS4_eq_run n inw σ,
      unrolled_PASS5_eq_run n inw σ⟩⟩

/-- Witness of C33: the block `msg[i] = i` for `i` in `0 .. 31` with two different
fillings of the words from 32 on, and `val` all 0. -/
theorem comp_depends_on_first_32_words_witness :
    (∀ i, i < 32 → (fun i => if i < 32 then i else 0 : Nat → Nat) i
        = (fun i => if i < 32 then i else 0xFFFFFFFF) i)
    ∧ sph_haval_3_comp false (fun i => if i < 32 then i else 0) (fun _ => 0)
        = sph_haval_3_comp false (fun i => if i < 32 then i else 0xFFFFFFFF) (fun _ => 0)
    ∧ sph_haval_4_comp false (fun i => if i < 32 then i else 0) (fun _ => 0)
        = sph_haval_4_comp false (fun i => if i < 32 then i else 0xFFFFFFFF) (fun _ => 0)
    ∧ sph_haval_5_comp false (fun i => if i < 32 then i else 0) (fun _ => 0)
        = sph_haval_5_comp false (fun i => if i < 32 then i else 0xFFFFFFFF) (fun _ => 0) :=
  have h : ∀ i, i < 32 → (fun i => if i < 32 then i else 0 : Nat → Nat) i
      = (fun i => if i < 32 then i else 0xFFFFFFFF) i := fun i hi => by simp [hi]
  ⟨h, (comp_depends_on_first_32_words (fun i => if i < 32 then i else 0)
    (fun i => if i < 32 then i else 0xFFFFFFFF) (fun _ => 0) h).1⟩

/-! ## Theorems on the public initialisation functions -/

/-- C34: each of the fifteen functions `sph_haval<bits>_<y>_init`, `bits` in
`{128, 160, 192, 224, 256}` and `y` in `{3, 4, 5}`, leaves a context with
`olen = bits / 32` (4, 5, 6, 7, 8 respectively) and `passes = y`, so `olen` is in
`4 .. 8` and `passes` in `{3, 4, 5}`. -/
theorem api_init_well_configured (sph64 : Bool) (cc : sph_haval_context) :
    apiInits.map (fun w => (w.1, w.2.1))
        = [(128, 3), (128, 4), (128, 5), (160, 3), (160, 4), (160, 5), (192, 3), (192, 4),
            (192, 5), (224, 3), (224, 4), (224, 5), (256, 3), (256, 4), (256, 5)]
    ∧ (∀ w ∈ apiInits,
        (w.2.2 sph64 cc).olen = w.1 / 32
        ∧ (w.2.2 sph64 cc).passes = w.2.1
        ∧ 4 ≤ (w.2.2 sph64 cc).olen ∧ (w.2.2 sph64 cc).olen ≤ 8
        ∧ ((w.2.2 sph64 cc).passes = 3 ∨ (w.2.2 sph64 cc).passes = 4
            ∨ (w.2.2 sph64 cc).passes = 5)
        ∧ validConfig (w.2.2 sph64 cc).olen (w.2.2 sph64 cc).passes = true)
    ∧ ((sph_haval128_3_init sph64 cc).olen = 4 ∧ (sph_haval160_3_init sph64 cc).olen = 5
        ∧ (sph_haval192_3_init sph64 cc).olen = 6 ∧ (sph_haval224_3_init sph64 cc).olen = 7
        ∧ (sph_haval256_3_init sph64 cc).olen = 8) := by
  have key : ∀ xxx y : Nat, (API_init sph64 xxx y cc).olen = xxx >>> 5
      ∧ (API_init sph64 xxx y cc).passes = y := by
    intro xxx y
    cases sph64 <;> exact ⟨rfl, rfl⟩
  refine ⟨rfl, ?_, ?_⟩
  · intro w hw
    simp only [apiInits, List.mem_cons, List.mem_singleton, List.not_mem_nil, or_false] at hw
    rcases hw with h | h | h | h | h | h | h | h | h | h | h | h | h | h | h <;> subst h <;>
      simp only [sph_haval128_3_init, sph_haval128_4_init, sph_haval128_5_init,
        sph_haval160_3_init, sph_haval160_4_init, sph_haval160_5_init,
        sph_haval192_3_init, sph_haval192_4_init, sph_haval192_5_init,
        sph_haval224_3_init, sph_haval224_4_init, sph_haval224_5_init,
        sph_haval256_3_init, sph_haval256_4_init, sph_haval256_5_init, key] <;>
      decide
  · simp only [sph_haval128_3_init, sph_haval160_3_init, sph_haval192_3_init,
      sph_haval224_3_init, sph_haval256_3_init, key]
    decide

/-! ## Theorems on undoing the steps -/

theorem regs_get_set_self (σ : Regs) (r : Reg) (v : Nat) : (σ.set r v).get r = v := by
  cases r <;> rfl

theorem regs_get_set_ne (σ : Regs) (r r' : Reg) (v : Nat) (h : r' ≠ r) :
    (σ.set r v).get r' = σ.get r' := by
  cases r <;> cases r' <;> first | rfl | exact absurd rfl h

theorem regs_set_set (σ : Regs) (r : Reg) (v v' : Nat) : (σ.set r v).set r v' = σ.set r v' := by
  cases r <;> rfl

theorem regs_set_get_self (σ : Regs) (r : Reg) : σ.set r (σ.get r) = σ := by
  cases r <;> rfl

theorem isWord32_get {σ : Regs} (h : σ.isWord32) (r : Reg) : σ.get r < 2 ^ 32 := by
  obtain ⟨h0, h1, h2, h3, h4, h5, h6, h7⟩ := h
  cases r <;> assumption

theorem isWord32_set {σ : Regs} (h : σ.isWord32) (r : Reg) {v : Nat} (hv : v < 2 ^ 32) :
    (σ.set r v).isWord32 := by
  obtain ⟨h0, h1, h2, h3, h4, h5, h6, h7⟩ := h
  cases r <;> exact ⟨by assumption, by assumption, by assumption, by assumption,
    by assumption, by assumption, by assumption, by assumption⟩

theorem SPH_ROTR32_lt (x n : Nat) : SPH_ROTR32 x n < 2 ^ 32 :=
  SPH_ROTL32_lt _ _

/-- Rotating right by 11 and then left by 11 gives the word back. -/
theorem SPH_ROTL32_ROTR32 {x : Nat} (hx : x < 2 ^ 32) :
    SPH_ROTL32 (SPH_ROTR32 x 11) 11 = x := by
  apply Nat.eq_of_testBit_eq; intro i
  by_cases hi : i < 32
  · have h1 : (i + 32 - 11) % 32 < 32 := Nat.mod_lt _ (by norm_num)
    rw [testBit_SPH_ROTL32 (SPH_ROTR32_lt x 11) (by norm_num) hi,
      testBit_SPH_ROTR32 hx (by norm_num) (by norm_num) h1]
    congr 1
    omega
  · rw [testBit_word_high (SPH_ROTL32_lt _ _) (by omega), testBit_word_high hx (by omega)]

/-- Rotating left by 11 and then right by 11 gives the word back. -/
theorem SPH_ROTR32_ROTL32 {x : Nat} (hx : x < 2 ^ 32) :
    SPH_ROTR32 (SPH_ROTL32 x 11) 11 = x := by
  apply Nat.eq_of_testBit_eq; intro i
  by_cases hi : i < 32
  · have h1 : (i + 11) % 32 < 32 := Nat.mod_lt _ (by norm_num)
    rw [testBit_SPH_ROTR32 (SPH_ROTL32_lt x 11) (by norm_num) (by norm_num) hi,
      testBit_SPH_ROTL32 hx (by norm_num) h1]
    congr 1
    omega
  · rw [testBit_word_high (SPH_ROTR32_lt _ _) (by omega), testBit_word_high hx (by omega)]

theorem undo_add (a r w c : Nat) (hr : r < 2 ^ 32) :
    ((((SPH_T32 (a + r + w + c) : Nat) : Int) - (a : Int) - (w : Int) - (c : Int))
      % 2 ^ 32).toNat = r := by
  unfold SPH_T32
  omega

theorem redo_add (a x w c : Nat) (hx : x < 2 ^ 32) :
    SPH_T32 (a + (((x : Int) - (a : Int) - (w : Int) - (c : Int)) % 2 ^ 32).toNat + w + c)
      = x := by
  unfold SPH_T32
  omega

theorem undo_lt (x a w c : Nat) :
    (((x : Int) - (a : Int) - (w : Int) - (c : Int)) % 2 ^ 32).toNat < 2 ^ 32 := by
  omega

/-- `STEP_inv` undoes `STEP` when the assigned variable is not among the
arguments of the boolean function and holds a 32-bit word. -/
theorem STEP_inv_STEP (n p : Nat) (x7 x6 x5 x4 x3 x2 x1 x0 : Reg) (w c : Nat) (σ : Regs)
    (h6 : x6 ≠ x7) (h5 : x5 ≠ x7) (h4 : x4 ≠ x7) (h3 : x3 ≠ x7) (h2 : x2 ≠ x7)
    (h1 : x1 ≠ x7) (h0 : x0 ≠ x7) (hw : σ.get x7 < 2 ^ 32) :
    STEP_inv n p x7 x6 x5 x4 x3 x2 x1 x0 w c (STEP n p x7 x6 x5 x4 x3 x2 x1 x0 w c σ) = σ := by
  simp only [STEP, STEP_inv, regs_get_set_ne _ _ _ _ h6, regs_get_set_ne _ _ _ _ h5,
    regs_get_set_ne _ _ _ _ h4, regs_get_set_ne _ _ _ _ h3, regs_get_set_ne _ _ _ _ h2,
    regs_get_set_ne _ _ _ _ h1, regs_get_set_ne _ _ _ _ h0, regs_get_set_self, regs_set_set]
  rw [undo_add _ _ _ _ (SPH_ROTR32_lt _ _), SPH_ROTL32_ROTR32 hw, regs_set_get_self]

/-- `STEP` redoes what `STEP_inv` has undone. -/
theorem STEP_STEP_inv (n p : Nat) (x7 x6 x5 x4 x3 x2 x1 x0 : Reg) (w c : Nat) (σ : Regs)
    (h6 : x6 ≠ x7) (h5 : x5 ≠ x7) (h4 : x4 ≠ x7) (h3 : x3 ≠ x7) (h2 : x2 ≠ x7)
    (h1 : x1 ≠ x7) (h0 : x0 ≠ x7) (hw : σ.get x7 < 2 ^ 32) :
    STEP n p x7 x6 x5 x4 x3 x2 x1 x0 w c (STEP_inv n p x7 x6 x5 x4 x3 x2 x1 x0 w c σ) = σ := by
  simp only [STEP, STEP_inv, regs_get_set_ne _ _ _ _ h6, regs_get_set_ne _ _ _ _ h5,
    regs_get_set_ne _ _ _ _ h4, regs_get_set_ne _ _ _ _ h3, regs_get_set_ne _ _ _ _ h2,
    regs_get_set_ne _ _ _ _ h1, regs_get_set_ne _ _ _ _ h0, regs_get_set_self, regs_set_set]
  rw [SPH_ROTR32_ROTL32 (undo_lt _ _ _ _), redo_add _ _ _ _ hw, regs_set_get_self]

/-- The variable that a step assigns is not among the arguments of its boolean
function. -/
theorem windowReg_ne (j k : Nat) (hk : k < 7) : windowReg j k ≠ windowReg j 7 := by
  unfold windowReg
  have hm : j % 8 < 8 := Nat.mod_lt _ (by norm_num)
  generalize j % 8 = m at hm
  interval_cases m <;> interval_cases k <;> decide

theorem windowStep_isWord32 (n p j w c : Nat) {σ : Regs} (h : σ.isWord32) :
    (windowStep n p j w c σ).isWord32 :=
  isWord32_set h _ (SPH_T32_lt _)

theorem windowStep_inv_isWord32 (n p j w c : Nat) {σ : Regs} (h : σ.isWord32) :
    (windowStep_inv n p j w c σ).isWord32 :=
  isWord32_set h _ (SPH_ROTL32_lt _ _)

theorem windowStep_inv_windowStep (n p j w c : Nat) {σ : Regs} (h : σ.isWord32) :
    windowStep_inv n p j w c (windowStep n p j w c σ) = σ :=
  STEP_inv_STEP n p _ _ _ _ _ _ _ _ w c σ (windowReg_ne j 6 (by decide))
    (windowReg_ne j 5 (by decide)) (windowReg_ne j 4 (by decide))
    (windowReg_ne j 3 (by decide)) (windowReg_ne j 2 (by decide))
    (windowReg_ne j 1 (by decide)) (windowReg_ne j 0 (by decide)) (isWord32_get h _)

theorem windowStep_windowStep_inv (n p j w c : Nat) {σ : Regs} (h : σ.isWord32) :
    windowStep n p j w c (windowStep_inv n p j w c σ) = σ :=
  STEP_STEP_inv n p _ _ _ _ _ _ _ _ w c σ (windowReg_ne j 6 (by decide))
    (windowReg_ne j 5 (by decide)) (windowReg_ne j 4 (by decide))
    (windowReg_ne j 3 (by decide)) (windowReg_ne j 2 (by decide))
    (windowReg_ne j 1 (by decide)) (windowReg_ne j 0 (by decide)) (isWord32_get h _)

theorem runFrom_isWord32 (n p : Nat) (inw : Nat → Nat) (sched : List (Nat × Nat)) (j : Nat)
    {σ : Regs} (h : σ.isWord32) : (runFrom n p inw j sched σ).isWord32 := by
  induction sched generalizing j σ with
  | nil => exact h
  | cons e es ih => exact ih (j + 1) (windowStep_isWord32 n p j _ _ h)

theorem runFrom_inv_isWord32 (n p : Nat) (inw : Nat → Nat) (sched : List (Nat × Nat))
    (j : Nat) {σ : Regs} (h : σ.isWord32) : (runFrom_inv n p inw j sched σ).isWord32 := by
  induction sched generalizing j σ with
  | nil => exact h
  | cons e es ih => exact windowStep_inv_isWord32 n p j _ _ (ih (j + 1) h)

theorem runFrom_inv_runFrom (n p : Nat) (inw : Nat → Nat) (sched : List (Nat × Nat))
    (j : Nat) {σ : Regs} (h : σ.isWord32) :
    runFrom_inv n p inw j sched (runFrom n p inw j sched σ) = σ := by
  induction sched generalizing j σ with
  | nil => rfl
  | cons e es ih =>
    simp only [runFrom, runFrom_inv]
    rw [ih (j + 1) (windowStep_isWord32 n p j _ _ h), windowStep_inv_windowStep n p j _ _ h]

theorem runFrom_runFrom_inv (n p : Nat) (inw : Nat → Nat) (sched : List (Nat × Nat))
    (j : Nat) {σ : Regs} (h : σ.isWord32) :
    runFrom n p inw j sched (runFrom_inv n p inw j sched σ) = σ := by
  induction sched generalizing j σ with
  | nil => rfl
  | cons e es ih =>
    simp only [runFrom, runFrom_inv]
    rw [windowStep_windowStep_inv n p j _ _ (runFrom_inv_isWord32 n p inw es (j + 1) h),
      ih (j + 1) h]

/-- The cores are the pass network between `SAVE_STATE` and `UPDATE_STATE`. -/
theorem CORE_eq_passNetwork (small : Bool) (inw : Nat → Nat) (σ : Regs) :
    CORE3 small inw σ = UPDATE_STATE (passNetwork small 3 inw σ) (SAVE_STATE σ)
    ∧ CORE4 small inw σ = UPDATE_STATE (passNetwork small 4 inw σ) (SAVE_STATE σ)
    ∧ CORE5 small inw σ = UPDATE_STATE (passNetwork small 5 inw σ) (SAVE_STATE σ) :=
  ⟨rfl, rfl, rfl⟩

theorem passNetwork_isWord32 (small : Bool) (n : Nat) (inw : Nat → Nat) {σ : Regs}
    (hn : n = 3 ∨ n = 4 ∨ n = 5) (h : σ.isWord32) : (passNetwork small n inw σ).isWord32 := by
  rcases hn with rfl | rfl | rfl <;>
    simp only [passNetwork, PASS1_eq_run, PASS2_eq_run, PASS3_eq_run, PASS4_eq_run,
      PASS5_eq_run, runSchedule] <;>
    repeat (first | exact h | apply runFrom_isWord32)

theorem passNetwork_inv_isWord32 (small : Bool) (n : Nat) (inw : Nat → Nat) {σ : Regs}
    (hn : n = 3 ∨ n = 4 ∨ n = 5) (h : σ.isWord32) :
    (passNetwork_inv small n inw σ).isWord32 := by
  rcases hn with rfl | rfl | rfl <;>
    simp only [passNetwork_inv] <;>
    repeat (first | exact h | apply runFrom_inv_isWord32)

theorem passNetwork_inv_passNetwork (small : Bool) (n : Nat) (inw : Nat → Nat) {σ : Regs}
    (hn : n = 3 ∨ n = 4 ∨ n = 5) (h : σ.isWord32) :
    passNetwork_inv small n inw (passNetwork small n inw σ) = σ := by
  have r := fun (n p : Nat) (τ : Regs) =>
    @runFrom_isWord32 n p inw (schedule small p) 0 τ
  have e := fun (n p : Nat) (τ : Regs) =>
    @runFrom_inv_runFrom n p inw (schedule small p) 0 τ
  rcases hn with rfl | rfl | rfl <;>
    simp only [passNetwork, passNetwork_inv, PASS1_eq_run, PASS2_eq_run, PASS3_eq_run,
      PASS4_eq_run, PASS5_eq_run, runSchedule]
  · rw [e 3 3 _ (r 3 2 _ (r 3 1 _ h)), e 3 2 _ (r 3 1 _ h), e 3 1 _ h]
  · rw [e 4 4 _ (r 4 3 _ (r 4 2 _ (r 4 1 _ h))), e 4 3 _ (r 4 2 _ (r 4 1 _ h)),
      e 4 2 _ (r 4 1 _ h), e 4 1 _ h]
  · rw [e 5 5 _ (r 5 4 _ (r 5 3 _ (r 5 2 _ (r 5 1 _ h)))),
      e 5 4 _ (r 5 3 _ (r 5 2 _ (r 5 1 _ h))), e 5 3 _ (r 5 2 _ (r 5 1 _ h)),
      e 5 2 _ (r 5 1 _ h), e 5 1 _ h]

theorem passNetwork_passNetwork_inv (small : Bool) (n : Nat) (inw : Nat → Nat) {σ : Regs}
    (hn : n = 3 ∨ n = 4 ∨ n = 5) (h : σ.isWord32) :
    passNetwork small n inw (passNetwork_inv small n inw σ) = σ := by
  have r := fun (n p : Nat) (τ : Regs) =>
    @runFrom_inv_isWord32 n p inw (schedule small p) 0 τ
  have e := fun (n p : Nat) (τ : Regs) =>
    @runFrom_runFrom_inv n p inw (schedule small p) 0 τ
  rcases hn with rfl | rfl | rfl <;>
    simp only [passNetwork, passNetwork_inv, PASS1_eq_run, PASS2_eq_run, PASS3_eq_run,
      PASS4_eq_run, PASS5_eq_run, runSchedule]
  · rw [e 3 1 _ (r 3 2 _ (r 3 3 _ h)), e 3 2 _ (r 3 3 _ h), e 3 3 _ h]
  · rw [e 4 1 _ (r 4 2 _ (r 4 3 _ (r 4 4 _ h))), e 4 2 _ (r 4 3 _ (r 4 4 _ h)),
      e 4 3 _ (r 4 4 _ h), e 4 4 _ h]
  · rw [e 5 1 _ (r 5 2 _ (r 5 3 _ (r 5 4 _ (r 5 5 _ h)))),
      e 5 2 _ (r 5 3 _ (r 5 4 _ (r 5 5 _ h))), e 5 3 _ (r 5 4 _ (r 5 5 _ h)),
      e 5 4 _ (r 5 5 _ h), e 5 5 _ h]

/-- C35: for `n` in `{3, 4, 5}`, in either build and for every message block, the
map from the registers before `PASS1` to the registers after `PASSn` (the core
without `SAVE_STATE` and `UPDATE_STATE`) is injective on the states of eight
32-bit words and is a bijection of these states onto themselves; it is undone by
undoing its steps, the last one first, each `STEP` being undone by
`x7_old = rotate_left(x7_new - rotate_right(FPn_p(x6 .. x0), 7) - w - c, 11)`. -/
theorem passNetwork_bijective (small : Bool) (n : Nat) (inw : Nat → Nat)
    (hn : n = 3 ∨ n = 4 ∨ n = 5) :
    (∀ σ τ : Regs, σ.isWord32 → τ.isWord32 →
      passNetwork small n inw σ = passNetwork small n inw τ → σ = τ)
    ∧ Set.BijOn (passNetwork small n inw) {σ | σ.isWord32} {σ | σ.isWord32}
    ∧ (∀ σ : Regs, σ.isWord32 →
        passNetwork_inv small n inw (passNetwork small n inw σ) = σ)
    ∧ (∀ (p j w c : Nat) (σ : Regs), σ.isWord32 →
        windowStep_inv n p j w c (windowStep n p j w c σ) = σ
        ∧ (windowStep_inv n p j w c (windowStep n p j w c σ)).get (windowReg j 7)
            = SPH_ROTL32
                ((((windowStep n p j w c σ).get (windowReg j 7) : Int)
                  - (SPH_ROTR32 (FP n p (σ.get (windowReg j 6)) (σ.get (windowReg j 5))
                      (σ.get (windowReg j 4)) (σ.get (windowReg j 3))
                      (σ.get (windowReg j 2)) (σ.get (windowReg j 1))
                      (σ.get (windowReg j 0))) 7 : Nat)
                  - (w : Int) - (c : Int)) % 2 ^ 32).toNat 11) := by
  have inj : ∀ σ τ : Regs, σ.isWord32 → τ.isWord32 →
      passNetwork small n inw σ = passNetwork small n inw τ → σ = τ := by
    intro σ τ hσ hτ e
    rw [← passNetwork_inv_passNetwork small n inw hn hσ, e,
      passNetwork_inv_passNetwork small n inw hn hτ]
  refine ⟨inj, ⟨fun σ hσ => passNetwork_isWord32 small n inw hn hσ,
    fun σ hσ τ hτ e => inj σ τ hσ hτ e,
    fun τ hτ => ⟨passNetwork_inv small n inw τ, passNetwork_inv_isWord32 small n inw hn hτ,
      passNetwork_passNetwork_inv small n inw hn hτ⟩⟩,
    fun σ hσ => passNetwork_inv_passNetwork small n inw hn hσ, ?_⟩
  intro p j w c σ hσ
  refine ⟨windowStep_inv_windowStep n p j w c hσ, ?_⟩
  simp only [windowStep_inv, windowStep, STEP_inv, STEP, regs_get_set_self,
    regs_get_set_ne _ _ _ _ (windowReg_ne j 6 (by decide)),
    regs_get_set_ne _ _ _ _ (windowReg_ne j 5 (by decide)),
    regs_get_set_ne _ _ _ _ (windowReg_ne j 4 (by decide)),
    regs_get_set_ne _ _ _ _ (windowReg_ne j 3 (by decide)),
    regs_get_set_ne _ _ _ _ (windowReg_ne j 2 (by decide)),
    regs_get_set_ne _ _ _ _ (windowReg_ne j 1 (by decide)),
    regs_get_set_ne _ _ _ _ (windowReg_ne j 0 (by decide))]

/-- Witness of C35: the 3-pass network of the unrolled build on the block of
zero words. -/
theorem passNetwork_bijective_witness :
    ((3 : Nat) = 3 ∨ (3 : Nat) = 4 ∨ (3 : Nat) = 5)
    ∧ Set.BijOn (passNetwork false 3 (fun _ => 0)) {σ | σ.isWord32} {σ | σ.isWord32} :=
  ⟨Or.inl rfl, (passNetwork_bijective false 3 (fun _ => 0) (Or.inl rfl)).2.1⟩

/-! ## Theorems on the frame of the compression functions -/

theorem WVAL_outside (σ : Regs) (val : Nat → Nat) (i : Nat) (h : 8 ≤ i) :
    WVAL σ val i = val i := by
  have h0 : i ≠ 0 := by omega
  have h1 : i ≠ 1 := by omega
  have h2 : i ≠ 2 := by omega
  have h3 : i ≠ 3 := by omega
  have h4 : i ≠ 4 := by omega
  have h5 : i ≠ 5 := by omega
  have h6 : i ≠ 6 := by omega
  have h7 : i ≠ 7 := by omega
  simp [WVAL, Function.update, h0, h1, h2, h3, h4, h5, h6, h7]

theorem WVAL_inside (σ : Regs) (val val' : Nat → Nat) (i : Nat) (h : i < 8) :
    WVAL σ val i = WVAL σ val' i := by
  interval_cases i <;> simp [WVAL, Function.update]

theorem RVAL_congr (val val' : Nat → Nat) (h : ∀ i, i < 8 → val i = val' i) :
    RVAL val = RVAL val' := by
  unfold RVAL
  rw [h 0 (by decide), h 1 (by decide), h 2 (by decide), h 3 (by decide), h 4 (by decide),
    h 5 (by decide), h 6 (by decide), h 7 (by decide)]

/-- C36: in either build, `sph_haval_n_comp` (`n = 3, 4, 5`) reads and writes only
the first eight words of `val`: every entry `val[i]` with `i ≥ 8` is on return
what it was, and two arrays `val`, `val'` that agree on the words `0 .. 7` give
the same words `0 .. 7` on return. -/
theorem comp_val_frame (small : Bool) (msg val val' : Nat → Nat)
    (h : ∀ i, i < 8 → val i = val' i) :
    (∀ i, 8 ≤ i →
      sph_haval_3_comp small msg val i = val i
      ∧ sph_haval_4_comp small msg val i = val i
      ∧ sph_haval_5_comp small msg val i = val i)
    ∧ (∀ i, i < 8 →
      sph_haval_3_comp small msg val i = sph_haval_3_comp small msg val' i
      ∧ sph_haval_4_comp small msg val i = sph_haval_4_comp small msg val' i
      ∧ sph_haval_5_comp small msg val i = sph_haval_5_comp small msg val' i) := by
  constructor
  · intro i hi
    exact ⟨WVAL_outside _ _ i hi, WVAL_outside _ _ i hi, WVAL_outside _ _ i hi⟩
  · intro i hi
    simp only [sph_haval_3_comp, sph_haval_4_comp, sph_haval_5_comp, RVAL_congr val val' h]
    exact ⟨WVAL_inside _ _ _ i hi, WVAL_inside _ _ _ i hi, WVAL_inside _ _ _ i hi⟩

/-- Witness of C36: `val` all 0 and an array that differs from it from word 8
on. -/
theorem comp_val_frame_witness :
    (∀ i, i < 8 → (fun _ => 0 : Nat → Nat) i = (fun i => if i < 8 then 0 else 7) i)
    ∧ (∀ i, 8 ≤ i →
      sph_haval_3_comp false (fun i => i) (fun _ => 0) i = (fun _ => 0 : Nat → Nat) i
      ∧ sph_haval_4_comp false (fun i => i) (fun _ => 0) i = (fun _ => 0 : Nat → Nat) i
      ∧ sph_haval_5_comp false (fun i => i) (fun _ => 0) i = (fun _ => 0 : Nat → Nat) i)
    ∧ (∀ i, i < 8 →
      sph_haval_3_comp false (fun i => i) (fun _ => 0) i
        = sph_haval_3_comp false (fun i => i) (fun i => if i < 8 then 0 else 7) i
      ∧ sph_haval_4_comp false (fun i => i) (fun _ => 0) i
        = sph_haval_4_comp false (fun i => i) (fun i => if i < 8 then 0 else 7) i
      ∧ sph_haval_5_comp false (fun i => i) (fun _ => 0) i
        = sph_haval_5_comp false (fun i => i) (fun i => if i < 8 then 0 else 7) i) :=
  have h : ∀ i, i < 8 → (fun _ => 0 : Nat → Nat) i = (fun i => if i < 8 then 0 else 7) i :=
    fun i hi => by simp [hi]
  ⟨h, comp_val_frame false (fun i => i) (fun _ => 0) (fun i => if i < 8 then 0 else 7) h⟩

/-! ## Theorems on the bounds of the message accesses -/

set_option maxRecDepth 8192 in
/-- C37: in the small-footprint build every message access is within `msg[224]`:
each table `MPp` (`p = 2 .. 5`) has 224 entries, so the accesses `MPp[j]` with
`j` in `0 .. 31` are inside the table, and each of these entries is below 224;
pass 1 reads the indices `0 .. 31`; so every index of the schedules that the
passes run is below 224, and `sph_haval_n_comp` (`n = 3, 4, 5`) gives the same
result for two arrays `msg` that agree on the words `0 .. 223`. -/
theorem small_footprint_msg_in_bounds :
    (∀ T ∈ [SmallFootprint.MP2, SmallFootprint.MP3, SmallFootprint.MP4, SmallFootprint.MP5],
      T.length = 224 ∧ ∀ j, j < 32 → T.getD j 0 < 224)
    ∧ (SmallFootprint.schedule 1).map Prod.fst = List.range 32
    ∧ (∀ p ∈ [1, 2, 3, 4, 5], ∀ e ∈ SmallFootprint.schedule p, e.1 < 224)
    ∧ (∀ (n : Nat) (inw : Nat → Nat) (σ : Regs),
        SmallFootprint.PASS1 n inw σ = runSchedule n 1 (SmallFootprint.schedule 1) inw σ
        ∧ SmallFootprint.PASS2 n inw σ = runSchedule n 2 (SmallFootprint.schedule 2) inw σ
        ∧ SmallFootprint.PASS3 n inw σ = runSchedule n 3 (SmallFootprint.schedule 3) inw σ
        ∧ SmallFootprint.PASS4 n inw σ = runSchedule n 4 (SmallFootprint.schedule 4) inw σ
        ∧ SmallFootprint.PASS5 n inw σ = runSchedule n 5 (SmallFootprint.schedule 5) inw σ)
    ∧ (∀ msg msg' val : Nat → Nat, (∀ i, i < 224 → msg i = msg' i) →
        sph_haval_3_comp true msg val = sph_haval_3_comp true msg' val
        ∧ sph_haval_4_comp true msg val = sph_haval_4_comp true msg' val
        ∧ sph_haval_5_comp true msg val = sph_haval_5_comp true msg' val) := by
  refine ⟨by decide, by decide, by decide, fun n inw σ => ⟨?_, ?_, ?_, ?_, ?_⟩,
    fun msg msg' val h => comp_congr true 224 (by decide) msg msg' val h⟩
  · exact small_PASS1_eq_run n inw σ
  · exact small_PASSG_eq_run 2 n _ _ inw σ
  · exact small_PASSG_eq_run 3 n _ _ inw σ
  · exact small_PASSG_eq_run 4 n _ _ inw σ
  · exact small_PASSG_eq_run 5 n _ _ inw σ

/-! ## Theorems on digest lengths without a case -/

/-- C38: for a context whose `olen` is outside `{4, 5, 6, 7, 8}` no case of the
switch of `haval_out` matches: the destination buffer and the context are on
return what they were, no word is written, and there is no error (the function
returns normally, also in the form that checks each shift). -/
theorem haval_out_no_matching_case (sc : sph_haval_context) (dst : Nat → Nat)
    (h : sc.olen < 4 ∨ 8 < sc.olen) :
    haval_out sc dst = (sc, dst)
    ∧ haval_out_checked sc dst = some (sc, dst)
    ∧ ∀ j, (haval_out sc dst).2 j = dst j := by
  have e : haval_out sc dst = (sc, dst) := by
    unfold haval_out
    split <;> first | omega | rfl
  have e' : haval_out_checked sc dst = some (sc, dst) := by
    unfold haval_out_checked
    split <;> first | omega | rfl
  exact ⟨e, e', fun j => by rw [e]⟩

/-- Witness of C38: the context that `haval_init` leaves for `olen = 9`. -/
theorem haval_out_no_matching_case_witness :
    ((⟨0x243F6A88, 0x85A308D3, 0x13198A2E, 0x03707344, 0xA4093822, 0x299F31D0,
        0x082EFA98, 0xEC4E6C89, 9, 3, 0, 0, 0⟩ : sph_haval_context).olen < 4
      ∨ 8 < (⟨0x243F6A88, 0x85A308D3, 0x13198A2E, 0x03707344, 0xA4093822, 0x299F31D0,
        0x082EFA98, 0xEC4E6C89, 9, 3, 0, 0, 0⟩ : sph_haval_context).olen)
    ∧ haval_out ⟨0x243F6A88, 0x85A308D3, 0x13198A2E, 0x03707344, 0xA4093822, 0x299F31D0,
        0x082EFA98, 0xEC4E6C89, 9, 3, 0, 0, 0⟩ (fun _ => 0)
      = (⟨0x243F6A88, 0x85A308D3, 0x13198A2E, 0x03707344, 0xA4093822, 0x299F31D0,
        0x082EFA98, 0xEC4E6C89, 9, 3, 0, 0, 0⟩, fun _ => 0) :=
  ⟨Or.inr (by decide),
    (haval_out_no_matching_case ⟨0x243F6A88, 0x85A308D3, 0x13198A2E, 0x03707344, 0xA4093822,
      0x299F31D0, 0x082EFA98, 0xEC4E6C89, 9, 3, 0, 0, 0⟩ (fun _ => 0)
      (Or.inr (by decide))).1⟩

end Haval
